import Mathlib

/-!
Verification development for the schematic wire autorouter
(`trace/eeschema/net_router.py` and `trace/eeschema/wire_helpers.py`).

The Python code is shallowly embedded: floating-point world coordinates
become exact rationals (`ℚ`), Python dicts become insertion-ordered
association lists, Python's `heapq` (used with globally unique tie-break
counters, so the heap order is a total order and pops are exactly
minima) becomes a deterministic minimum-extraction on a list, and the
nondeterministic `uuid.uuid4()` identifier supply becomes a deterministic
numbered supply threaded through the computation.  Comparisons of
`euclidean_distance` (a square root, irrational in general) against a
threshold are modelled by the equivalent comparison of squared distances,
with the threshold's sign handled so the model agrees with the source for
every threshold value.
-/

set_option maxRecDepth 2000

namespace NetRouter

/-- A world-coordinate point `(x, y)`; the source passes 2-tuples of floats. -/
abbrev Point : Type := ℚ × ℚ

/-- An integer grid cell `(col, row)`. -/
abbrev GridPos : Type := ℤ × ℤ

/-- A component/sheet bounding box `(min_x, min_y, max_x, max_y)`. -/
abbrev BBox : Type := ℚ × ℚ × ℚ × ℚ

/-- `GRID_SIZE = 1.27` (mm), the fixed routing grid pitch. -/
def GRID_SIZE : ℚ := 1.27

/-- Python's `abs` on exact rationals, written as a conditional so that
concrete values evaluate by rewriting; equal to `|q|` (`rabs_eq_abs`). -/
def rabs (q : ℚ) : ℚ := if q < 0 then -q else q

/-- `rabs` agrees with the lattice absolute value. -/
theorem rabs_eq_abs (q : ℚ) : rabs q = |q| := by
  unfold rabs
  rcases le_or_lt 0 q with h | h
  · rw [if_neg (not_lt.mpr h), abs_of_nonneg h]
  · rw [if_pos h, abs_of_neg h]

/-- Python's `abs` on integers, written as a conditional. -/
def zabs (z : ℤ) : ℤ := if z < 0 then -z else z

/-- `manhattan_distance` from `net_router.py`. -/
def manhattan_distance (p1 p2 : Point) : ℚ :=
  rabs (p1.1 - p2.1) + rabs (p1.2 - p2.2)

/-- Squared Euclidean distance, the exact-rational core of
`euclidean_distance` from `wire_helpers.py`. -/
def dist_sq (p1 p2 : Point) : ℚ :=
  (p1.1 - p2.1) * (p1.1 - p2.1) + (p1.2 - p2.2) * (p1.2 - p2.2)

/-- Model of `euclidean_distance p1 p2 < c`: since the distance is
nonnegative, this holds iff `0 ≤ c` and the squared distance is `< c²`. -/
def euclid_lt (p1 p2 : Point) (c : ℚ) : Bool :=
  decide (0 ≤ c) && decide (dist_sq p1 p2 < c * c)

/-- Model of `euclidean_distance p1 p2 > c`: holds iff `c < 0` (distance is
nonnegative) or the squared distance is `> c²`. -/
def euclid_gt (p1 p2 : Point) (c : ℚ) : Bool :=
  decide (c < 0) || decide (dist_sq p1 p2 > c * c)

/-- `point_in_rect` from `net_router.py`. -/
def point_in_rect (p : Point) (min_x min_y max_x max_y : ℚ) : Bool :=
  decide (min_x ≤ p.1) && decide (p.1 ≤ max_x) &&
  decide (min_y ≤ p.2) && decide (p.2 ≤ max_y)

/-- One clipping step of the Liang-Barsky loop in `segment_intersects_rect`:
processes the remaining `(p, q)` edge pairs, narrowing `[t0, t1]`. -/
def clipEdges : List (ℚ × ℚ) → ℚ → ℚ → Bool
  | [], t0, t1 => decide (t0 < t1)
  | (p, q) :: rest, t0, t1 =>
    if rabs p < 1e-10 then
      if q < 0 then false else clipEdges rest t0 t1
    else
      let r := q / p
      if p < 0 then
        if r > t1 then false
        else if r > t0 then clipEdges rest r t1
        else clipEdges rest t0 t1
      else
        if r < t0 then false
        else if r < t1 then clipEdges rest t0 r
        else clipEdges rest t0 t1

/-- `segment_intersects_rect` from `net_router.py` (Liang-Barsky clip). -/
def segment_intersects_rect (seg_start seg_end : Point)
    (min_x min_y max_x max_y : ℚ) : Bool :=
  let x0 := seg_start.1
  let y0 := seg_start.2
  let dx := seg_end.1 - x0
  let dy := seg_end.2 - y0
  if dx = 0 ∧ dy = 0 then
    point_in_rect seg_start min_x min_y max_x max_y
  else
    clipEdges [(-dx, x0 - min_x), (dx, max_x - x0), (-dy, y0 - min_y), (dy, max_y - y0)] 0 1

/-- `point_in_component` from `net_router.py`. -/
def point_in_component (p : Point) (component_bboxes : List BBox) : Bool :=
  component_bboxes.any (fun b => point_in_rect p b.1 b.2.1 b.2.2.1 b.2.2.2)

/-- `segment_intersects_component` from `net_router.py`. -/
def segment_intersects_component (seg_start seg_end : Point)
    (component_bboxes : List BBox) : Bool :=
  component_bboxes.any (fun b =>
    segment_intersects_rect seg_start seg_end b.1 b.2.1 b.2.2.1 b.2.2.2)

/-- `is_horizontal_segment` from `net_router.py`. -/
def is_horizontal_segment (seg_start seg_end : Point) (tolerance : ℚ) : Bool :=
  decide (rabs (seg_start.2 - seg_end.2) < tolerance)

/-- `is_vertical_segment` from `net_router.py`. -/
def is_vertical_segment (seg_start seg_end : Point) (tolerance : ℚ) : Bool :=
  decide (rabs (seg_start.1 - seg_end.1) < tolerance)

/-- `ranges_overlap` from `net_router.py` (sorts each range first). -/
def ranges_overlap (a_min a_max b_min b_max tolerance : ℚ) : Bool :=
  let a1 := min a_min a_max
  let a2 := max a_min a_max
  let b1 := min b_min b_max
  let b2 := max b_min b_max
  decide (a2 > b1 + tolerance) && decide (b2 > a1 + tolerance)

/-- `segments_overlap_parallel` from `net_router.py`. -/
def segments_overlap_parallel (seg1_start seg1_end seg2_start seg2_end : Point)
    (tolerance : ℚ) : Bool :=
  let seg1_horiz := is_horizontal_segment seg1_start seg1_end tolerance
  let seg1_vert := is_vertical_segment seg1_start seg1_end tolerance
  let seg2_horiz := is_horizontal_segment seg2_start seg2_end tolerance
  let seg2_vert := is_vertical_segment seg2_start seg2_end tolerance
  if seg1_horiz && seg2_horiz && decide (rabs (seg1_start.2 - seg2_start.2) < tolerance) then
    ranges_overlap seg1_start.1 seg1_end.1 seg2_start.1 seg2_end.1 tolerance
  else if seg1_vert && seg2_vert && decide (rabs (seg1_start.1 - seg2_start.1) < tolerance) then
    ranges_overlap seg1_start.2 seg1_end.2 seg2_start.2 seg2_end.2 tolerance
  else
    false

/-- `segment_overlaps_any_wire` from `net_router.py`. -/
def segment_overlaps_any_wire (seg_start seg_end : Point)
    (existing_wires : List (Point × Point)) (tolerance : ℚ) : Bool :=
  existing_wires.any (fun w =>
    segments_overlap_parallel seg_start seg_end w.1 w.2 tolerance)

/-- `point_on_segment` from `wire_helpers.py`: project the point onto the
segment's line; accept if the parameter is in `[0,1]` and the distance to
the projection is below tolerance.  Distance comparisons use `euclid_lt`. -/
def point_on_segment (point seg_start seg_end : Point) (tolerance : ℚ) : Bool :=
  let seg_vec : Point := (seg_end.1 - seg_start.1, seg_end.2 - seg_start.2)
  let point_vec : Point := (point.1 - seg_start.1, point.2 - seg_start.2)
  let seg_len_sq := seg_vec.1 * seg_vec.1 + seg_vec.2 * seg_vec.2
  if seg_len_sq < 1e-10 then
    euclid_lt point seg_start tolerance
  else
    let t := (point_vec.1 * seg_vec.1 + point_vec.2 * seg_vec.2) / seg_len_sq
    if t < 0 ∨ t > 1 then false
    else
      let proj : Point := (seg_start.1 + t * seg_vec.1, seg_start.2 + t * seg_vec.2)
      euclid_lt point proj tolerance

/-- Python 3's `round` to the nearest integer, rounding halves to even
(banker's rounding), on exact rationals. -/
def pyRound (q : ℚ) : ℤ :=
  let f := q.floor
  let r := q - (f : ℚ)
  if r < 1/2 then f
  else if r > 1/2 then f + 1
  else if f % 2 = 0 then f else f + 1

/-- Python's `round(x, 3)` (3 decimal places, halves to even), on `ℚ`. -/
def round3 (q : ℚ) : ℚ :=
  (pyRound (q * 1000) : ℚ) / 1000

/-- `round3` on both coordinates, as `split_wire_at_point` and
`split_path_into_wires` do with `round(x, 3)`. -/
def roundPoint (p : Point) : Point :=
  (round3 p.1, round3 p.2)

/-- `world_to_grid` from `net_router.py`. -/
def world_to_grid (world_pos : Point) (grid_size : ℚ) : GridPos :=
  (pyRound (world_pos.1 / grid_size), pyRound (world_pos.2 / grid_size))

/-- `grid_to_world` from `net_router.py`. -/
def grid_to_world (grid_pos : GridPos) (grid_size : ℚ) : Point :=
  ((grid_pos.1 : ℚ) * grid_size, (grid_pos.2 : ℚ) * grid_size)

/-- `snap_to_grid` from `net_router.py`. -/
def snap_to_grid (p : Point) (grid_size : ℚ) : Point :=
  grid_to_world (world_to_grid p grid_size) grid_size

/-- Stable insertion into a key-sorted list (`≤` on keys keeps earlier
elements of equal key in front), used to model Python's stable `sort`. -/
def insertByKey (key : GridPos → ℤ) (x : GridPos) : List GridPos → List GridPos
  | [] => [x]
  | y :: ys => if key x ≤ key y then x :: y :: ys else y :: insertByKey key x ys

/-- Stable insertion sort by an integer key (Python's `list.sort(key=...)`). -/
def sortByKey (key : GridPos → ℤ) : List GridPos → List GridPos
  | [] => []
  | x :: xs => insertByKey key x (sortByKey key xs)

/-- `get_neighbors` from `net_router.py`: the 4 axis neighbors, stably
sorted by Manhattan distance to the goal cell when one is given. -/
def get_neighbors (grid_pos : GridPos) (goal_grid : Option GridPos) : List GridPos :=
  let ns : List GridPos :=
    [(grid_pos.1 + 1, grid_pos.2), (grid_pos.1 - 1, grid_pos.2),
     (grid_pos.1, grid_pos.2 + 1), (grid_pos.1, grid_pos.2 - 1)]
  match goal_grid with
  | none => ns
  | some g => sortByKey (fun q => zabs (q.1 - g.1) + zabs (q.2 - g.2)) ns

/-- A wire record (`{'type': 'wire', 'points': [...], 'uid': ...}`): the
`type` key is the constant `'wire'` and is omitted; `uid` is `none` when
the dict has no `uid` key. -/
structure Wire where
  points : List Point
  uid : Option String
deriving DecidableEq, Repr

/-- A junction record (`{'type': 'junction', 'at': [x, y], 'uid': ...}`). -/
structure Junction where
  at_ : Point
  uid : String
deriving DecidableEq, Repr

/-- The deterministic model of the `str(uuid.uuid4())` fresh-id supply. -/
def mkUid (n : ℕ) : String :=
  "u" ++ toString n

/-- `find_point_on_same_net_wire` from `net_router.py`: first same-net wire
`(start, end, wire_dict)` the point lies on. -/
def find_point_on_same_net_wire (point : Point)
    (same_net_wires : List (Point × Point × Wire)) (tolerance : ℚ) :
    Option (Point × Point × Wire) :=
  same_net_wires.find? (fun w => point_on_segment point w.1 w.2.1 tolerance)

/-- `split_wire_at_point` from `net_router.py`: split a wire in two at a
point (rounded to 3 decimals); a degenerate wire (fewer than 2 points) is
returned unchanged with no second half.  Fresh uids come from the counter. -/
def split_wire_at_point (wire : Wire) (split_point : Point) (ctr : ℕ) :
    Wire × Option Wire × ℕ :=
  if wire.points.length < 2 then (wire, none, ctr)
  else
    let wire_start := wire.points.headD (0, 0)
    let wire_end := wire.points.getLastD (0, 0)
    let sp := roundPoint split_point
    let wire1 : Wire := ⟨[wire_start, sp], some (mkUid ctr)⟩
    let wire2 : Wire := ⟨[sp, wire_end], some (mkUid (ctr + 1))⟩
    (wire1, some wire2, ctr + 2)

/-- An entry of the A* priority queue: `(f_score, g_score, tie_breaker,
position, path)`.  `heapq` compares these tuples lexicographically; the
`tie_breaker` values are globally unique, so the comparison never reaches
the position/path components. -/
structure Entry where
  f : ℚ
  g : ℚ
  tie : ℕ
  pos : GridPos
  path : List Point
deriving DecidableEq, Repr

/-- Strict order on queue entries: lexicographic on `(f, g, tie)`. -/
def entryLt (a b : Entry) : Bool :=
  decide (a.f < b.f) ||
  (decide (a.f = b.f) && (decide (a.g < b.g) ||
    (decide (a.g = b.g) && decide (a.tie < b.tie))))

/-- Extract the minimum-keyed entry (leftmost among equals) of the open
set; this is what `heapq.heappop` yields, since tie counters are unique. -/
def popMin : List Entry → Option (Entry × List Entry)
  | [] => none
  | x :: xs =>
    match popMin xs with
    | none => some (x, [])
    | some (m, rest) => if entryLt m x then some (m, x :: rest) else some (x, xs)

/-- The early-termination descriptor of `astar_pathfind`: either
`{'wire': w, 'wire_start': ws, 'wire_end': we, 'point': pt}` or
`{'pin': pin, 'pin_net': net, 'point': pt}`. -/
inductive EarlyTermInfo where
  | wire (w : Wire) (wire_start wire_end : Point) (point : Point)
  | pin (pin : Point) (pin_net : Option String) (point : Point)
deriving DecidableEq, Repr

/-- The `'point'` entry of an early-termination descriptor. -/
def EarlyTermInfo.point : EarlyTermInfo → Point
  | .wire _ _ _ pt => pt
  | .pin _ _ pt => pt

/-- The read-only context of one `astar_pathfind` call. -/
structure AstarCtx where
  start : Point
  goal : Point
  startGrid : GridPos
  goalGrid : GridPos
  bboxes : List BBox
  existingWires : List (Point × Point)
  sameNetWires : List (Point × Point × Wire)
  pinPositions : List (Point × Option String)
  currentNet : Option String
  gridSize : ℚ
deriving DecidableEq, Repr

/-- Mutable state of the neighbor loop: the open set and the tie counter. -/
structure StepState where
  openList : List Entry
  tie : ℕ
deriving DecidableEq, Repr

/-- Result of processing one neighbor: either an early `return` from the
whole search (same-net pin hit) or the updated open set / tie counter. -/
inductive StepResult where
  | ret (path : List Point) (info : EarlyTermInfo)
  | cont (s : StepState)
deriving DecidableEq, Repr

/-- `is_pin_position` from `astar_pathfind`: the cell is the start or goal
grid cell. -/
def is_pin_position (ctx : AstarCtx) (grid_pos : GridPos) : Bool :=
  decide (grid_pos = ctx.startGrid) || decide (grid_pos = ctx.goalGrid)

/-- `near_pin` (source lines 555-557): the neighbor's world position is
within Manhattan distance `2.0` of either request endpoint. -/
def near_pin_check (ctx : AstarCtx) (neighbor_world : Point) : Bool :=
  decide (rabs (neighbor_world.1 - ctx.start.1) + rabs (neighbor_world.2 - ctx.start.2) < 2) ||
  decide (rabs (neighbor_world.1 - ctx.goal.1) + rabs (neighbor_world.2 - ctx.goal.2) < 2)

/-- The bend test (source lines 609-617): with at least two points in the
carried path, the incoming step direction differs (componentwise, beyond
`0.01`) from the previous segment's direction. -/
def bend_check (curPath : List Point) (curWorld neighbor_world : Point) : Bool :=
  if h : curPath.length > 1 then
    let p2 := curPath.get ⟨curPath.length - 2, by omega⟩
    let last_dir : Point := (curWorld.1 - p2.1, curWorld.2 - p2.2)
    let current_dir : Point :=
      (neighbor_world.1 - curWorld.1, neighbor_world.2 - curWorld.2)
    decide (rabs (last_dir.1 - current_dir.1) > 0.01) ||
    decide (rabs (last_dir.2 - current_dir.2) > 0.01)
  else false

/-- `wire_mid` (source line 624): midpoint of a same-net wire segment. -/
def wire_mid (w : Point × Point × Wire) : Point :=
  ((w.1.1 + w.2.1.1) / 2, (w.1.2 + w.2.1.2) / 2)

/-- The same-net bonus test (source lines 620-629): some same-net wire's
midpoint is strictly closer (Manhattan) to the neighbor than to the
current position.  (The source breaks at the first such wire; since the
bonus amount does not depend on which wire matched, this equals `any`.) -/
def bonus_check (ctx : AstarCtx) (curWorld neighbor_world : Point) : Bool :=
  ctx.sameNetWires.any (fun w =>
    decide (manhattan_distance neighbor_world (wire_mid w) <
            manhattan_distance curWorld (wire_mid w)))

/-- `current_net and pin_net == current_net` (source line 587): the
request's net is truthy and the pin's net equals it. -/
def sameNetPinMatch (current_net pin_net : Option String) : Bool :=
  match current_net with
  | some n => decide (n ≠ "") && decide (pin_net = some n)
  | none => false

/-- The three obstacle tests of the neighbor loop (source lines 559-579),
in source order: component interior (with the pin/near-pin exemption),
component crossing (with the pin exemption), and overlap with an existing
wire.  Each rejects the neighbor, so their disjunction decides rejection. -/
def astarObstructed (ctx : AstarCtx) (curPos : GridPos) (curWorld : Point)
    (neighbor : GridPos) (neighbor_world : Point) : Bool :=
  let neighbor_is_pin := is_pin_position ctx neighbor
  let current_is_pin := is_pin_position ctx curPos
  let near_pin := near_pin_check ctx neighbor_world
  (!(neighbor_is_pin || current_is_pin || near_pin) &&
    point_in_component neighbor_world ctx.bboxes) ||
  (!current_is_pin && !neighbor_is_pin &&
    segment_intersects_component curWorld neighbor_world ctx.bboxes) ||
  (!ctx.existingWires.isEmpty &&
    segment_overlaps_any_wire curWorld neighbor_world ctx.existingWires 0.1)

/-- The pin-blocking lookup of the neighbor loop (source lines 582-600):
the first pin within `0.6 · grid` of the neighbor, unless the neighbor is
itself the start or goal cell. -/
def astarPinHit (ctx : AstarCtx) (neighbor : GridPos) (neighbor_world : Point) :
    Option (Point × Option String) :=
  if !ctx.pinPositions.isEmpty && !is_pin_position ctx neighbor then
    ctx.pinPositions.find? (fun pe =>
      euclid_lt neighbor_world pe.1 (ctx.gridSize * 0.6))
  else none

/-- The move-cost accumulation of the neighbor loop (source lines 603-632):
base grid pitch, plus a 10% bend penalty, minus a 5% same-net bonus, added
to the current g-score. -/
def astarMoveG (ctx : AstarCtx) (curPath : List Point)
    (curWorld neighbor_world : Point) (curG : ℚ) : ℚ :=
  curG + (ctx.gridSize
    + (if bend_check curPath curWorld neighbor_world then ctx.gridSize * 0.1 else 0)
    - (if bonus_check ctx curWorld neighbor_world then ctx.gridSize * 0.05 else 0))

/-- The f-score of a pushed neighbor (source lines 634-636): g-score plus
the Manhattan heuristic to the goal. -/
def astarF (ctx : AstarCtx) (neighbor_world : Point) (g : ℚ) : ℚ :=
  g + manhattan_distance neighbor_world ctx.goal

/-- The body of `astar_pathfind`'s `for neighbor in get_neighbors(...)`
loop (source lines 544-643) for a single neighbor: the chain of obstacle,
segment, overlap and pin tests, then the move-cost computation and push. -/
def astarNeighborStep (ctx : AstarCtx) (closed : List GridPos)
    (curPos : GridPos) (curWorld : Point) (curPath : List Point) (curG : ℚ)
    (s : StepState) (neighbor : GridPos) : StepResult :=
  if neighbor ∈ closed then .cont s
  else
    let neighbor_world := grid_to_world neighbor ctx.gridSize
    if astarObstructed ctx curPos curWorld neighbor neighbor_world then .cont s
    else
      match astarPinHit ctx neighbor neighbor_world with
      | some (pin_pos, pin_net) =>
        if sameNetPinMatch ctx.currentNet pin_net then
          .ret (curPath ++ [pin_pos]) (.pin pin_pos pin_net pin_pos)
        else
          .cont s
      | none =>
        let g_score := astarMoveG ctx curPath curWorld neighbor_world curG
        .cont ⟨s.openList ++
          [⟨astarF ctx neighbor_world g_score, g_score, s.tie + 1, neighbor,
            curPath ++ [neighbor_world]⟩],
          s.tie + 1⟩

/-- Fold `astarNeighborStep` over the (goal-sorted) neighbor list,
propagating an early `return`. -/
def astarNeighbors (ctx : AstarCtx) (closed : List GridPos)
    (curPos : GridPos) (curWorld : Point) (curPath : List Point) (curG : ℚ) :
    List GridPos → StepState → StepResult
  | [], s => .cont s
  | n :: ns, s =>
    match astarNeighborStep ctx closed curPos curWorld curPath curG s n with
    | .ret p i => .ret p i
    | .cont s' => astarNeighbors ctx closed curPos curWorld curPath curG ns s'

/-- The loop-carried state of `astar_pathfind`: open set, closed set and
tie counter. -/
structure AstarState where
  openList : List Entry
  closed : List GridPos
  tie : ℕ
deriving DecidableEq, Repr

/-- Outcome of one `while` iteration: the function returns, or the loop
continues with an updated state. -/
inductive AstarOut where
  | done (res : Option (List Point) × Option EarlyTermInfo)
  | next (s : AstarState)
deriving DecidableEq, Repr

/-- One iteration of `astar_pathfind`'s `while` loop (source lines
509-643): pop the minimum entry (if the open set is empty, the loop ends
with "no path"), skip it if closed, close it, return on goal arrival or a
same-net wire hit, otherwise process the 4 neighbors (which can itself
return early on a same-net pin). -/
def astarIter (ctx : AstarCtx) (s : AstarState) : AstarOut :=
  match popMin s.openList with
  | none => .done (none, none)
  | some (e, rest) =>
    if e.pos ∈ s.closed then .next ⟨rest, s.closed, s.tie⟩
    else
      let closed' := e.pos :: s.closed
      let curWorld := grid_to_world e.pos ctx.gridSize
      if e.pos = ctx.goalGrid then .done (some (e.path ++ [ctx.goal]), none)
      else
        let wireHit :=
          if e.pos ≠ ctx.startGrid ∧ ¬ctx.sameNetWires.isEmpty then
            find_point_on_same_net_wire curWorld ctx.sameNetWires (ctx.gridSize * 0.6)
          else none
        match wireHit with
        | some (wire_start, wire_end, wire_dict) =>
          .done (some e.path,
            some (.wire wire_dict wire_start wire_end (snap_to_grid curWorld ctx.gridSize)))
        | none =>
          match astarNeighbors ctx closed' e.pos curWorld e.path e.g
              (get_neighbors e.pos (some ctx.goalGrid)) ⟨rest, s.tie⟩ with
          | .ret p i => .done (some p, some i)
          | .cont st => .next ⟨st.openList, closed', st.tie⟩

/-- The `while open_set and iterations < max_iterations` loop of
`astar_pathfind`; the fuel is the number of remaining iterations. -/
def astarLoop (ctx : AstarCtx) :
    ℕ → AstarState → Option (List Point) × Option EarlyTermInfo
  | 0, _ => (none, none)
  | fuel + 1, s =>
    match astarIter ctx s with
    | .done r => r
    | .next s' => astarLoop ctx fuel s'

/-- `astar_pathfind` from `net_router.py`. -/
def astar_pathfind (start goal : Point) (component_bboxes : List BBox)
    (existing_wires : List (Point × Point))
    (same_net_wires : List (Point × Point × Wire))
    (pin_positions : List (Point × Option String))
    (current_net : Option String) (grid_size : ℚ) (max_iterations : ℕ) :
    Option (List Point) × Option EarlyTermInfo :=
  let start_grid := world_to_grid start grid_size
  let goal_grid := world_to_grid goal grid_size
  if start_grid = goal_grid then (some [start, goal], none)
  else
    astarLoop
      ⟨start, goal, start_grid, goal_grid, component_bboxes, existing_wires,
       same_net_wires, pin_positions, current_net, grid_size⟩
      max_iterations ⟨[⟨0, 0, 0, start_grid, [start]⟩], [], 0⟩

/-- Bridging lemma: with the two endpoint grid cells computed and distinct,
`astar_pathfind` is the fueled loop on the initial open set. -/
theorem astar_pathfind_loop_of {start goal : Point} {bboxes : List BBox}
    {ew : List (Point × Point)} {snw : List (Point × Point × Wire)}
    {pins : List (Point × Option String)} {net : Option String} {gs : ℚ}
    {n : ℕ} {sg gg : GridPos}
    (hs : world_to_grid start gs = sg) (hg : world_to_grid goal gs = gg)
    (hne : sg ≠ gg) :
    astar_pathfind start goal bboxes ew snw pins net gs n =
      astarLoop ⟨start, goal, sg, gg, bboxes, ew, snw, pins, net, gs⟩ n
        ⟨[⟨0, 0, 0, sg, [start]⟩], [], 0⟩ := by
  unfold astar_pathfind
  rw [hs, hg, if_neg hne]

/-- Unrolling helper: an iteration that continues lets the loop proceed
with one unit of fuel consumed (trivially true as well at fuel 0, where
both sides are the "no path" result). -/
theorem astarLoop_next {ctx : AstarCtx} {s s' : AstarState}
    (h : astarIter ctx s = .next s') :
    ∀ n : ℕ, astarLoop ctx n s = astarLoop ctx (n - 1) s' := by
  intro n
  cases n with
  | zero => simp [astarLoop]
  | succ m => simp [astarLoop, h]

/-- Unrolling helper: an iteration that returns ends the loop, given any
fuel is left. -/
theorem astarLoop_done {ctx : AstarCtx} {s : AstarState}
    {r : Option (List Point) × Option EarlyTermInfo}
    (h : astarIter ctx s = .done r) (n : ℕ) (hn : n ≠ 0) :
    astarLoop ctx n s = r := by
  cases n with
  | zero => exact absurd rfl hn
  | succ m => simp [astarLoop, h]

/-- Unfolding helper for the neighbor fold: an empty neighbor list leaves
the state unchanged. -/
theorem astarNeighbors_nil (ctx : AstarCtx) (cl : List GridPos) (cp : GridPos)
    (w : Point) (pa : List Point) (g : ℚ) (s : StepState) :
    astarNeighbors ctx cl cp w pa g [] s = .cont s := rfl

/-- Unfolding helper for the neighbor fold: a neighbor whose step continues
passes the updated state to the remaining neighbors. -/
theorem astarNeighbors_cons {ctx : AstarCtx} {cl : List GridPos} {cp : GridPos}
    {w : Point} {pa : List Point} {g : ℚ} {s s' : StepState} {n : GridPos}
    (h : astarNeighborStep ctx cl cp w pa g s n = .cont s') (ns : List GridPos) :
    astarNeighbors ctx cl cp w pa g (n :: ns) s =
      astarNeighbors ctx cl cp w pa g ns s' := by
  simp [astarNeighbors, h]

/-- Shape lemma for one neighbor: a neighbor already in the closed set is
ignored. -/
theorem astarNeighborStep_skip_closed_of {ctx : AstarCtx} {cl : List GridPos}
    {cp : GridPos} {w : Point} {pa : List Point} {g : ℚ} {s : StepState}
    {n : GridPos} (hcl : n ∈ cl) :
    astarNeighborStep ctx cl cp w pa g s n = .cont s := by
  unfold astarNeighborStep
  rw [if_pos hcl]

/-- Shape lemma for one neighbor: an obstructed neighbor is ignored. -/
theorem astarNeighborStep_skip_obst_of {ctx : AstarCtx} {cl : List GridPos}
    {cp : GridPos} {w : Point} {pa : List Point} {g : ℚ} {s : StepState}
    {n : GridPos} (hcl : n ∉ cl)
    (hob : astarObstructed ctx cp w n (grid_to_world n ctx.gridSize) = true) :
    astarNeighborStep ctx cl cp w pa g s n = .cont s := by
  unfold astarNeighborStep
  rw [if_neg hcl]
  dsimp only
  rw [hob, if_pos rfl]

/-- Shape lemma for one neighbor: an unobstructed, unblocked neighbor is
pushed onto the open list with the staged g- and f-scores. -/
theorem astarNeighborStep_push_of {ctx : AstarCtx} {cl : List GridPos}
    {cp : GridPos} {w : Point} {pa : List Point} {g : ℚ} {s : StepState}
    {n : GridPos} {nw : Point} {g2 f2 : ℚ} (hcl : n ∉ cl)
    (hw : grid_to_world n ctx.gridSize = nw)
    (hob : astarObstructed ctx cp w n nw = false)
    (hpin : astarPinHit ctx n nw = none)
    (hg : astarMoveG ctx pa w nw g = g2)
    (hf : astarF ctx nw g2 = f2) :
    astarNeighborStep ctx cl cp w pa g s n =
      .cont ⟨s.openList ++ [⟨f2, g2, s.tie + 1, n, pa ++ [nw]⟩], s.tie + 1⟩ := by
  unfold astarNeighborStep
  rw [if_neg hcl]
  dsimp only
  rw [hw, hob, hpin, hg, hf, if_neg Bool.false_ne_true]

/-- Shape lemma: a popped entry whose cell is already closed is skipped,
with one iteration consumed. -/
theorem astarIter_skip_of {ctx : AstarCtx} {s : AstarState} {e : Entry}
    {rest : List Entry} (hpop : popMin s.openList = some (e, rest))
    (hcl : e.pos ∈ s.closed) :
    astarIter ctx s = .next ⟨rest, s.closed, s.tie⟩ := by
  unfold astarIter
  rw [hpop]
  dsimp only
  rw [if_pos hcl]

/-- Shape lemma: popping the goal cell returns the carried path with the
goal point appended. -/
theorem astarIter_goal_of {ctx : AstarCtx} {s : AstarState} {e : Entry}
    {rest : List Entry} (hpop : popMin s.openList = some (e, rest))
    (hcl : e.pos ∉ s.closed) (hgoal : e.pos = ctx.goalGrid) :
    astarIter ctx s = .done (some (e.path ++ [ctx.goal]), none) := by
  unfold astarIter
  rw [hpop]
  dsimp only
  rw [if_neg hcl, if_pos hgoal]

/-- Shape lemma: a popped non-goal cell lying on a same-net wire ends the
search with a wire-hit early termination. -/
theorem astarIter_wire_of {ctx : AstarCtx} {s : AstarState} {e : Entry}
    {rest : List Entry} {w ws we : Point} {wd : Wire}
    (hpop : popMin s.openList = some (e, rest))
    (hcl : e.pos ∉ s.closed) (hgoal : e.pos ≠ ctx.goalGrid)
    (hw : grid_to_world e.pos ctx.gridSize = w)
    (hwire : (if e.pos ≠ ctx.startGrid ∧ ¬ctx.sameNetWires.isEmpty then
        find_point_on_same_net_wire w ctx.sameNetWires (ctx.gridSize * 0.6)
      else none) = some (ws, we, wd)) :
    astarIter ctx s = .done (some e.path,
      some (.wire wd ws we (snap_to_grid w ctx.gridSize))) := by
  unfold astarIter
  rw [hpop]
  dsimp only
  rw [if_neg hcl, if_neg hgoal, hw, hwire]

/-- Shape lemma: a popped non-goal cell missing every same-net wire
processes its neighbors; if the fold continues, so does the loop, with the
cell closed. -/
theorem astarIter_next_of {ctx : AstarCtx} {s : AstarState} {e : Entry}
    {rest : List Entry} {w : Point} {ns : List GridPos} {st : StepState}
    (hpop : popMin s.openList = some (e, rest))
    (hcl : e.pos ∉ s.closed) (hgoal : e.pos ≠ ctx.goalGrid)
    (hw : grid_to_world e.pos ctx.gridSize = w)
    (hwire : (if e.pos ≠ ctx.startGrid ∧ ¬ctx.sameNetWires.isEmpty then
        find_point_on_same_net_wire w ctx.sameNetWires (ctx.gridSize * 0.6)
      else none) = none)
    (hns : get_neighbors e.pos (some ctx.goalGrid) = ns)
    (hfold : astarNeighbors ctx (e.pos :: s.closed) e.pos w e.path e.g ns
        ⟨rest, s.tie⟩ = .cont st) :
    astarIter ctx s = .next ⟨st.openList, e.pos :: s.closed, st.tie⟩ := by
  unfold astarIter
  rw [hpop]
  dsimp only
  rw [if_neg hcl, if_neg hgoal, hw, hwire, hns, hfold]

/-- Shape lemma: as `astarIter_next_of`, but the neighbor fold returns
early (same-net pin hit), ending the search. -/
theorem astarIter_ret_of {ctx : AstarCtx} {s : AstarState} {e : Entry}
    {rest : List Entry} {w : Point} {ns : List GridPos} {p : List Point}
    {i : EarlyTermInfo}
    (hpop : popMin s.openList = some (e, rest))
    (hcl : e.pos ∉ s.closed) (hgoal : e.pos ≠ ctx.goalGrid)
    (hw : grid_to_world e.pos ctx.gridSize = w)
    (hwire : (if e.pos ≠ ctx.startGrid ∧ ¬ctx.sameNetWires.isEmpty then
        find_point_on_same_net_wire w ctx.sameNetWires (ctx.gridSize * 0.6)
      else none) = none)
    (hns : get_neighbors e.pos (some ctx.goalGrid) = ns)
    (hfold : astarNeighbors ctx (e.pos :: s.closed) e.pos w e.path e.g ns
        ⟨rest, s.tie⟩ = .ret p i) :
    astarIter ctx s = .done (some p, some i) := by
  unfold astarIter
  rw [hpop]
  dsimp only
  rw [if_neg hcl, if_neg hgoal, hw, hwire, hns, hfold]

/-- The look-ahead scan of `simplify_path` (source lines 685-702): starting
from `cur` (= `path[best_idx]`), keep advancing while the next raw point
stays on the same horizontal (resp. vertical) line through the anchor `a`;
return the furthest such point and the unconsumed remainder. -/
def extendLine (tol : ℚ) (a : Point) (isHoriz : Bool) :
    Point → List Point → Point × List Point
  | cur, [] => (cur, [])
  | cur, q :: qs =>
    if (if isHoriz then decide (rabs (a.2 - q.2) < tol) else decide (rabs (a.1 - q.1) < tol)) then
      extendLine tol a isHoriz q qs
    else (cur, q :: qs)

/-- The main `while i < len(path)` loop of `simplify_path`: `a` is the last
retained vertex (`simplified[-1]`), the list argument is `path[i:]`.  The
fuel only bounds the recursion; one list element is consumed per unit, so
`fuel = length` never runs out (the `0` case returns the remainder
unchanged, harmlessly). -/
def simplifyLoop (tol : ℚ) : ℕ → Point → List Point → List Point
  | 0, _, rest => rest
  | _ + 1, _, [] => []
  | fuel + 1, a, p :: ps =>
    let is_horiz := decide (rabs (a.2 - p.2) < tol)
    let is_vert := decide (rabs (a.1 - p.1) < tol)
    if ¬is_horiz && ¬is_vert then
      p :: simplifyLoop tol fuel p ps
    else
      let br := extendLine tol a is_horiz p ps
      br.1 :: simplifyLoop tol fuel br.1 br.2

/-- `simplify_path` from `net_router.py` (tolerance is its explicit
parameter, `0.01` at every call site). -/
def simplify_path (path : List Point) (tol : ℚ) : List Point :=
  if path.length ≤ 2 then path
  else
    match path with
    | [] => path
    | p0 :: rest =>
      let simplified := p0 :: simplifyLoop tol rest.length p0 rest
      let lastP := path.getLastD (0, 0)
      if simplified.getLastD (0, 0) ≠ lastP then simplified ++ [lastP] else simplified

/-- Endpoint finalization of `split_path_into_wires`: the first pin-exact
coordinate within `0.005` is used verbatim; otherwise round to 3 decimals. -/
def pinSnap (pins : List Point) (p : Point) : Point :=
  match pins.find? (fun pp => euclid_lt p pp 0.005) with
  | some pp => pp
  | none => roundPoint p

/-- The wire-emitting loop of `split_path_into_wires`: `startPt` is
`path[i]`, the list argument is `path[i+1:]`, `prevEnd` is the previous
emitted wire's end (for the `< 0.1` glue), `ctr` the fresh-uid counter. -/
def splitGo (pins : List Point) : ℕ → Option Point → Point → List Point → List Wire × ℕ
  | ctr, _, _, [] => ([], ctr)
  | ctr, prevEnd, startPt, endPt :: rest =>
    let startGlued :=
      match prevEnd with
      | some pe => if euclid_lt startPt pe 0.1 then pe else startPt
      | none => startPt
    let start_final := pinSnap pins startGlued
    let end_final := pinSnap pins endPt
    let w : Wire := ⟨[start_final, end_final], some (mkUid ctr)⟩
    let r := splitGo pins (ctr + 1) (some end_final) endPt rest
    (w :: r.1, r.2)

/-- `split_path_into_wires` from `net_router.py`. -/
def split_path_into_wires (path : List Point) (pin_positions : List Point)
    (ctr : ℕ) : List Wire × ℕ :=
  if path.length < 2 then ([], ctr)
  else
    match path with
    | [] => ([], ctr)
    | p0 :: rest => splitGo pin_positions ctr none p0 rest

/-- A component item of the trace JSON, with the dict-`get` defaults
(`at` → `[0,0]`, `rot` → `0`, `unit` → `1`, `body_style` → `1`) already
applied; `uid`/`symbol` are `none` when missing. -/
structure Component where
  uid : Option String
  symbol : Option String
  pos : Point
  rot : ℚ
  unit : ℤ
  bodyStyle : ℤ
  pins : List (String × Option String)
deriving DecidableEq, Repr

/-- One item of the input `trace_json` list, by its `type` key. -/
inductive TraceItem where
  | component (c : Component)
  | sheet (pos : List ℚ) (size : List ℚ)
  | label (pos : List ℚ) (text : String)
  | glabel (pos : List ℚ) (text : String)
  | wire (points : List Point) (uid : Option String)
  | other
deriving DecidableEq, Repr

/-- `net_name in ('NONE', 'DNC', None)` on an optional pin net. -/
def isNoNet (v : Option String) : Bool :=
  decide (v = some "NONE") || decide (v = some "DNC") || decide (v = none)

/-- Truthiness of an optional string (`if s:` in Python). -/
def strTruthy (v : Option String) : Bool :=
  match v with
  | some s => decide (s ≠ "")
  | none => false

/-- Association-list lookup (Python `dict.get`). -/
def assocGet (m : List (String × String)) (k : String) : Option String :=
  (m.find? (fun kv => kv.1 = k)).map (·.2)

/-- Association-list assignment (Python `dict[k] = v`): overwrite the first
binding of `k` in place, or append a new binding. -/
def assocSet (m : List (String × String)) (k : String) (v : String) :
    List (String × String) :=
  if m.any (fun kv => kv.1 = k) then
    m.map (fun kv => if kv.1 = k then (k, v) else kv)
  else m ++ [(k, v)]

/-- Point-keyed dict assignment, for the `all_pin_positions` dict. -/
def pinAssocSet (m : List (Point × Option String)) (k : Point) (v : Option String) :
    List (Point × Option String) :=
  if m.any (fun kv => kv.1 = k) then
    m.map (fun kv => if kv.1 = k then (k, v) else kv)
  else m ++ [(k, v)]

/-- `calculate_component_bbox` from `net_router.py`: bounding box of the
symbol position together with all resolvable pin positions. -/
def calculate_component_bbox {σ : Type}
    (symbol_def : σ) (pins : List (String × Option String)) (unit bodyStyle : ℤ)
    (symbol_pos : Point) (symbol_rot : ℚ)
    (transform_pin_coordinate : (ℚ × ℚ × ℚ) → Point → ℚ → Point)
    (extract_pin_info : σ → String → ℤ → ℤ → Option (ℚ × ℚ × ℚ)) :
    Option BBox :=
  let all_positions :=
    symbol_pos :: pins.filterMap (fun pq =>
      (extract_pin_info symbol_def pq.1 unit bodyStyle).map
        (fun info => transform_pin_coordinate info symbol_pos symbol_rot))
  match all_positions with
  | [] => none
  | p :: ps =>
    some (ps.foldl (fun acc q => min acc q.1) p.1,
          ps.foldl (fun acc q => min acc q.2) p.2,
          ps.foldl (fun acc q => max acc q.1) p.1,
          ps.foldl (fun acc q => max acc q.2) p.2)

/-- `calculate_sheet_bbox` from `net_router.py`. -/
def calculate_sheet_bbox (sheet_pos sheet_size : Point) : BBox :=
  (sheet_pos.1, sheet_pos.2, sheet_pos.1 + sheet_size.1, sheet_pos.2 + sheet_size.2)

/-- The components of `trace_json`, in order. -/
def componentsOf (tj : List TraceItem) : List Component :=
  tj.filterMap (fun it => match it with | .component c => some c | _ => none)

/-- The sheets of `trace_json`, in order. -/
def sheetsOf (tj : List TraceItem) : List (List ℚ × List ℚ) :=
  tj.filterMap (fun it => match it with | .sheet p s => some (p, s) | _ => none)

/-- The labels of `trace_json`, in order. -/
def labelsOf (tj : List TraceItem) : List (List ℚ × String) :=
  tj.filterMap (fun it => match it with | .label p t => some (p, t) | _ => none)

/-- The global labels of `trace_json`, in order. -/
def glabelsOf (tj : List TraceItem) : List (List ℚ × String) :=
  tj.filterMap (fun it => match it with | .glabel p t => some (p, t) | _ => none)

/-- `existing_wire_dicts`: each wire item with at least 2 points, as
`(first point, last point, wire record)`. -/
def existingWireDictsOf (tj : List TraceItem) : List (Point × Point × Wire) :=
  tj.filterMap (fun it =>
    match it with
    | .wire pts uid =>
      if pts.length ≥ 2 then some (pts.headD (0, 0), pts.getLastD (0, 0), ⟨pts, uid⟩)
      else none
    | _ => none)

/-- The first (g)label that is non-degenerate, has non-empty text, and sits
within `0.1` of either wire endpoint (source lines 873-897). -/
def findLabelNet (labels : List (List ℚ × String)) (ws we : Point) : Option String :=
  (labels.find? (fun lb =>
    decide (lb.1.length ≥ 2) && decide (lb.2 ≠ "") &&
    (euclid_lt (lb.1.getD 0 0, lb.1.getD 1 0) ws 0.1 ||
     euclid_lt (lb.1.getD 0 0, lb.1.getD 1 0) we 0.1))).map (·.2)

/-- The label/global-label pass filling `wire_to_net` (source lines 867-897). -/
def wireToNetFromLabels (labels glabels : List (List ℚ × String))
    (ewd : List (Point × Point × Wire)) : List (String × String) :=
  ewd.foldl (fun m t =>
    match t.2.2.uid with
    | none => m
    | some u =>
      if u = "" then m
      else
        let m1 :=
          match findLabelNet labels t.1 t.2.1 with
          | some txt => assocSet m u txt
          | none => m
        if (assocGet m1 u).isNone then
          match findLabelNet glabels t.1 t.2.1 with
          | some txt => assocSet m1 u txt
          | none => m1
        else m1) []

/-- The component-pin pass filling `wire_to_net` (source lines 899-935). -/
def wireToNetFromPins {σ : Type} (components : List Component)
    (cache : List (String × σ))
    (transform_pin_coordinate : (ℚ × ℚ × ℚ) → Point → ℚ → Point)
    (extract_pin_info : σ → String → ℤ → ℤ → Option (ℚ × ℚ × ℚ))
    (ewd : List (Point × Point × Wire)) (m0 : List (String × String)) :
    List (String × String) :=
  components.foldl (fun m comp =>
    if ¬(strTruthy comp.uid && strTruthy comp.symbol) then m
    else
      match (cache.find? (fun kv => kv.1 = comp.symbol.getD "")).map (·.2) with
      | none => m
      | some symbol_def =>
        comp.pins.foldl (fun m pv =>
          if isNoNet pv.2 then m
          else
            match extract_pin_info symbol_def pv.1 comp.unit comp.bodyStyle with
            | none => m
            | some info =>
              let pin_pos := transform_pin_coordinate info comp.pos comp.rot
              ewd.foldl (fun m t =>
                match t.2.2.uid with
                | none => m
                | some u =>
                  if u = "" || (assocGet m u).isSome then m
                  else if euclid_lt pin_pos t.1 0.1 || euclid_lt pin_pos t.2.1 0.1 then
                    assocSet m u (pv.2.getD "")
                  else m) m) m) m0

/-- The obstacle list: component bboxes then sheet bboxes (source lines
937-968). -/
def componentBboxesOf {σ : Type} (components : List Component)
    (sheets : List (List ℚ × List ℚ)) (cache : List (String × σ))
    (transform_pin_coordinate : (ℚ × ℚ × ℚ) → Point → ℚ → Point)
    (extract_pin_info : σ → String → ℤ → ℤ → Option (ℚ × ℚ × ℚ)) : List BBox :=
  (components.filterMap (fun comp =>
    if ¬(strTruthy comp.uid && strTruthy comp.symbol) then none
    else
      match (cache.find? (fun kv => kv.1 = comp.symbol.getD "")).map (·.2) with
      | none => none
      | some symbol_def =>
        calculate_component_bbox symbol_def comp.pins comp.unit comp.bodyStyle
          comp.pos comp.rot transform_pin_coordinate extract_pin_info)) ++
  (sheets.filterMap (fun sh =>
    if ¬sh.1.isEmpty && decide (sh.1.length ≥ 2) && ¬sh.2.isEmpty && decide (sh.2.length ≥ 2) then
      some (calculate_sheet_bbox (sh.1.getD 0 0, sh.1.getD 1 0) (sh.2.getD 0 0, sh.2.getD 1 0))
    else none))

/-- The `all_pin_positions` dict: every resolvable pin of every component,
mapped to its net (`none` for `NONE`/`DNC`/missing) (source lines 970-998). -/
def allPinPositionsOf {σ : Type} (components : List Component)
    (cache : List (String × σ))
    (transform_pin_coordinate : (ℚ × ℚ × ℚ) → Point → ℚ → Point)
    (extract_pin_info : σ → String → ℤ → ℤ → Option (ℚ × ℚ × ℚ)) :
    List (Point × Option String) :=
  components.foldl (fun m comp =>
    if ¬(strTruthy comp.uid && strTruthy comp.symbol) then m
    else
      match (cache.find? (fun kv => kv.1 = comp.symbol.getD "")).map (·.2) with
      | none => m
      | some symbol_def =>
        comp.pins.foldl (fun m pv =>
          match extract_pin_info symbol_def pv.1 comp.unit comp.bodyStyle with
          | none => m
          | some info =>
            let pin_pos := transform_pin_coordinate info comp.pos comp.rot
            pinAssocSet m pin_pos (if isNoNet pv.2 then none else pv.2)) m) []

/-- The loop-invariant context of `route_cwires`, computed once per batch
before the per-request loop. -/
structure RouteCtx where
  componentBboxes : List BBox
  allPinPositions : List (Point × Option String)
  wireToNet : List (String × String)
  existingWireDicts : List (Point × Point × Wire)
deriving DecidableEq, Repr

/-- The mutable per-batch accumulators of `route_cwires`. -/
structure RouteState where
  allRoutedWires : List Wire
  allJunctions : List Junction
  wiresToRemove : List String
  existingWires : List (Point × Point)
  routedWireDicts : List (Point × Point × Wire × Option String)
  uidCtr : ℕ
deriving DecidableEq, Repr

/-- The per-request `same_net_wires` list (source lines 1009-1022):
existing wires whose derived net matches, then earlier routed wires whose
net matches. -/
def requestSameNetWires (ctx : RouteCtx) (s : RouteState) (net : Option String) :
    List (Point × Point × Wire) :=
  if ¬strTruthy net then []
  else
    (ctx.existingWireDicts.filter (fun t =>
      match t.2.2.uid with
      | some u => decide (u ≠ "") && decide (assocGet ctx.wireToNet u = net)
      | none => false)) ++
    ((s.routedWireDicts.filter (fun t => t.2.2.2 = net)).map (fun t => (t.1, t.2.1, t.2.2.1)))

/-- The per-request pin map (source lines 1026-1032): all pins further than
`0.1` from both request endpoints. -/
def requestPinPositions (ctx : RouteCtx) (fromCoord toCoord : Point) :
    List (Point × Option String) :=
  ctx.allPinPositions.filter (fun pe =>
    euclid_gt pe.1 fromCoord 0.1 && euclid_gt pe.1 toCoord 0.1)

/-- The `astar_pathfind` invocation of one request (source lines 1034-1043). -/
def requestAstar (ctx : RouteCtx) (s : RouteState)
    (req : Point × Point × Option String) :
    Option (List Point) × Option EarlyTermInfo :=
  astar_pathfind req.1 req.2.1 ctx.componentBboxes s.existingWires
    (requestSameNetWires ctx s req.2.2) (requestPinPositions ctx req.1 req.2.1)
    req.2.2 GRID_SIZE 50000

/-- `path[-1] = termination_point` (source lines 1057 and 1100): on any
early termination, force the path's last point to the termination point. -/
def pathAfterTerm (path : List Point) (info : Option EarlyTermInfo) : List Point :=
  match info with
  | some i => path.set (path.length - 1) i.point
  | none => path

/-- Source lines 1102-1110: simplify, then force `path[0] = from_coord`
and, when there was no early termination, `path[-1] = to_coord`. -/
def finalizePath (fromCoord toCoord : Point) (info : Option EarlyTermInfo)
    (path : List Point) : List Point :=
  let simplified := simplify_path (pathAfterTerm path info) 0.01
  if 0 < simplified.length then
    let l := simplified.set 0 fromCoord
    match info with
    | none => l.set (l.length - 1) toCoord
    | some _ => l
  else simplified

/-- The pin-exact coordinate set for segmentation (source lines 1113-1117):
the request's `from` plus the termination point (early termination) or the
request's `to`. -/
def pinExactList (fromCoord toCoord : Point) (info : Option EarlyTermInfo) :
    List Point :=
  match info with
  | some i => [fromCoord, i.point]
  | none => [fromCoord, toCoord]

/-- The path wires of one request (source lines 1034-1118, path part):
the simplified, endpoint-forced path cut into 2-point wires. -/
def requestPathWires (ctx : RouteCtx) (s : RouteState)
    (req : Point × Point × Option String) (ctr : ℕ) : List Wire × ℕ :=
  match requestAstar ctx s req with
  | (none, _) => ([], ctr)
  | (some path, info) =>
    split_path_into_wires (finalizePath req.1 req.2.1 info path)
      (pinExactList req.1 req.2.1 info) ctr

/-- The body of `route_cwires`' per-request loop (source lines 1008-1132):
run A*, handle early termination (junction, wire split, deletion), then
simplify, segment and accumulate. -/
def processRequest (ctx : RouteCtx) (s : RouteState)
    (req : Point × Point × Option String) : RouteState :=
  match requestAstar ctx s req with
  | (none, _) => s
  | (some _, info) =>
    -- Early-termination bookkeeping (junction, split, deletion).
    let s1 : RouteState :=
      match info with
      | some (.wire w wire_start wire_end pt) =>
        let junction : Junction := ⟨pt, mkUid s.uidCtr⟩
        let s' := { s with allJunctions := s.allJunctions ++ [junction],
                           uidCtr := s.uidCtr + 1 }
        (match w.uid with
         | some u =>
           if u ≠ "" then
             if euclid_gt pt wire_start 0.1 && euclid_gt pt wire_end 0.1 then
               let sp := split_wire_at_point w pt s'.uidCtr
               match sp.2.1 with
               | some w2 =>
                 let w1 := sp.1
                 let w1s : Point × Point := (w1.points.headD (0, 0), w1.points.getLastD (0, 0))
                 let w2s : Point × Point := (w2.points.headD (0, 0), w2.points.getLastD (0, 0))
                 { s' with
                   wiresToRemove := s'.wiresToRemove ++ [u],
                   allRoutedWires := s'.allRoutedWires ++ [w1, w2],
                   existingWires := s'.existingWires ++
                     (if w1.points.length ≥ 2 then [w1s] else []) ++
                     (if w2.points.length ≥ 2 then [w2s] else []),
                   routedWireDicts := s'.routedWireDicts ++
                     [(w1s.1, w1s.2, w1, req.2.2), (w2s.1, w2s.2, w2, req.2.2)],
                   uidCtr := sp.2.2 }
               | none => s'
             else s'
           else s'
         | none => s')
      | some (.pin _ _ _) => s
      | none => s
    -- Segment the finalized path and accumulate (source lines 1102-1132).
    let pw := requestPathWires ctx s req s1.uidCtr
    let path_wires := pw.1
    let kept := path_wires.filter (fun w => w.points.length ≥ 2)
    { s1 with
      allRoutedWires := s1.allRoutedWires ++ path_wires,
      existingWires := s1.existingWires ++
        kept.map (fun w => (w.points.headD (0, 0), w.points.getLastD (0, 0))),
      routedWireDicts := s1.routedWireDicts ++
        kept.map (fun w => (w.points.headD (0, 0), w.points.getLastD (0, 0), w, req.2.2)),
      uidCtr := pw.2 }

/-- The per-request fold of `route_cwires`. -/
def routeLoop (ctx : RouteCtx) (s : RouteState) :
    List (Point × Point × Option String) → RouteState
  | [] => s
  | req :: rest => routeLoop ctx (processRequest ctx s req) rest

/-- `route_cwires` from `net_router.py`: derive the batch context from
`trace_json`, then route every request in order.  Returns
`(routed wires, junctions, wire uids to remove)`. -/
def route_cwires {σ : Type}
    (cwire_routing_pairs : List (Point × Point × Option String))
    (trace_json : List TraceItem) (lib_symbols_cache : List (String × σ))
    (transform_pin_coordinate : (ℚ × ℚ × ℚ) → Point → ℚ → Point)
    (extract_pin_info : σ → String → ℤ → ℤ → Option (ℚ × ℚ × ℚ)) :
    List Wire × List Junction × List String :=
  if cwire_routing_pairs.isEmpty then ([], [], [])
  else
    let components := componentsOf trace_json
    let sheets := sheetsOf trace_json
    let labels := labelsOf trace_json
    let glabels := glabelsOf trace_json
    let ewd := existingWireDictsOf trace_json
    let wtn0 := wireToNetFromLabels labels glabels ewd
    let wtn := wireToNetFromPins components lib_symbols_cache
      transform_pin_coordinate extract_pin_info ewd wtn0
    let bboxes := componentBboxesOf components sheets lib_symbols_cache
      transform_pin_coordinate extract_pin_info
    let pinMap := allPinPositionsOf components lib_symbols_cache
      transform_pin_coordinate extract_pin_info
    let ctx : RouteCtx := ⟨bboxes, pinMap, wtn, ewd⟩
    let s0 : RouteState := ⟨[], [], [], ewd.map (fun t => (t.1, t.2.1)), [], 0⟩
    let sf := routeLoop ctx s0 cwire_routing_pairs
    (sf.allRoutedWires, sf.allJunctions, sf.wiresToRemove)

/-! ## Claim-side predicates and shared concrete instantiations -/

/-- The spec's axis-alignment test for an emitted 2-point wire:
`|x1-x2| < tol || |y1-y2| < tol` at the structural tolerance `0.01`. -/
def axisAligned01 (p q : Point) : Bool :=
  decide (rabs (p.1 - q.1) < 0.01) || decide (rabs (p.2 - q.2) < 0.01)

/-- Modelled from the spec's words in claim C5: "the midpoint of the
nearest same-net wire" — the midpoint of the wire whose midpoint is
nearest (in Manhattan distance) to the given position.  The source has no
such notion; it is defined here only to compare the claim's reading
against the code's behavior. -/
def nearestSameNetWireMid (pos : Point) (ws : List (Point × Point × Wire)) :
    Option Point :=
  (ws.argmin (fun w => manhattan_distance pos (wire_mid w))).map wire_mid

/-- A trivial pin-coordinate transform callback, for batches that contain
no components. -/
def trivialTransform : (ℚ × ℚ × ℚ) → Point → ℚ → Point := fun _ _ _ => (0, 0)

/-- A trivial pin-extraction callback, for batches with no symbol library. -/
def trivialExtract : Unit → String → ℤ → ℤ → Option (ℚ × ℚ × ℚ) :=
  fun _ _ _ _ => none

/-! ## C7: same-cell requests return the trivial 2-point path -/

/-- C7: for every request whose `fromPoint` and `toPoint` map to the same
grid cell under `world_to_grid`, `astar_pathfind` returns exactly the
two-point path `[fromPoint, toPoint]` with no early-termination
descriptor; the definition returns before any queue, obstacle or pin
machinery is touched. -/
theorem c7_trivial_same_cell (start goal : Point) (bb : List BBox)
    (ew : List (Point × Point)) (snw : List (Point × Point × Wire))
    (pins : List (Point × Option String)) (net : Option String) (g : ℚ) (it : ℕ)
    (h : world_to_grid start g = world_to_grid goal g) :
    astar_pathfind start goal bb ew snw pins net g it = (some [start, goal], none) := by
  unfold astar_pathfind
  simp [h]

/-- Witness for C7 at a concrete off-grid pair mapping to cell `(0, 0)`. -/
theorem c7_trivial_same_cell_witness :
    world_to_grid ((1 : ℚ)/2, 0) GRID_SIZE = world_to_grid (0, 0) GRID_SIZE ∧
    astar_pathfind ((1 : ℚ)/2, 0) (0, 0) [] [] [] [] none GRID_SIZE 50000
      = (some [((1 : ℚ)/2, 0), (0, 0)], none) :=
  ⟨by with_unfolding_all decide, c7_trivial_same_cell ((1 : ℚ)/2, 0) (0, 0) [] [] [] [] none GRID_SIZE 50000 (by with_unfolding_all decide)⟩

/-! ## C10: counterexample — a normal goal arrival duplicates the goal cell -/

/-- C10 counterexample: on the one-step route `(0,0) → (1.27,0)` the
returned path is `current_path + [goal]`, whose last two vertices both lie
over the goal grid cell `(1,0)`, so the full returned path does not (as
the claim states) visit pairwise-distinct grid cells. -/
theorem c10_counterexample :
    astar_pathfind (0, 0) (1.27, 0) [] [] [] [] none GRID_SIZE 50000
      = (some [(0, 0), (1.27, 0), (1.27, 0)], none) ∧
    ¬ (([(0, 0), (1.27, 0), (1.27, 0)] : List Point).map
        (fun q => world_to_grid q GRID_SIZE)).Nodup := by
  constructor
  · with_unfolding_all decide
  · with_unfolding_all decide

/-! ## C1: counterexample — off-grid endpoints yield a diagonal wire -/

/-! ## C2: counterexample — the same wire id is deleted twice -/

/-- C2 counterexample schematic: one wire `W1` from `(0,0)` to `(7.62,0)`
with a label `VCC` at its start. -/
def c2_trace : List TraceItem :=
  [.wire [(0, 0), (7.62, 0)] (some "W1"), .label [0, 0] "VCC"]

/-! ## C3: counterexample — the deletion list names a batch-emitted wire -/

/-! ## C8: counterexample — the simplifier is not idempotent -/

/-- C8 counterexample: on
`[(0,0), (1,0), (1,0.02), (1,0.005)]` the first pass keeps `(1,0)` (the
`0.02` point breaks its horizontal run) but replaces the `0.02` point with
`(1, 0.005)`, which the second pass then merges into the first horizontal
run (`0.005 < 0.01`), giving a strictly shorter path. -/
theorem c8_counterexample :
    simplify_path (simplify_path [(0, 0), (1, 0), (1, (1 : ℚ)/50), (1, (1 : ℚ)/200)] 0.01) 0.01
      ≠ simplify_path [(0, 0), (1, 0), (1, (1 : ℚ)/50), (1, (1 : ℚ)/200)] 0.01 := by
  with_unfolding_all decide

/-! ## C4: counterexample — the `current_is_pin` exemption skips the obstacle test -/

/-- C4 counterexample context: start `(0.6, 0.6)` (cell `(0,0)`), goal
`(12.7, 0.6)` (cell `(10,0)`), one obstacle box covering the cell
`(-1, 0)`. -/
def c4_ctx : AstarCtx :=
  ⟨(0.6, 0.6), (12.7, 0.6), (0, 0), (10, 0),
   [((-2 : ℚ), (-1 : ℚ), (-1 : ℚ), (1 : ℚ))], [], [], [], none, GRID_SIZE⟩

/-- C4 counterexample: expanding the start cell, the neighbor `(-1, 0)`
lies inside an obstacle box, is not the start/goal cell, and is not within
2.0 world units of either endpoint — yet it is *not* rejected: because the
expanding cell is the start cell (`current_is_pin`), the obstacle test is
skipped and the neighbor is pushed onto the open set. -/
theorem c4_counterexample :
    point_in_component (grid_to_world (-1, 0) GRID_SIZE) c4_ctx.bboxes = true ∧
    is_pin_position c4_ctx (-1, 0) = false ∧
    near_pin_check c4_ctx (grid_to_world (-1, 0) GRID_SIZE) = false ∧
    astarNeighborStep c4_ctx [(0, 0)] (0, 0) (grid_to_world (0, 0) GRID_SIZE)
        [(0.6, 0.6)] 0 ⟨[], 0⟩ (-1, 0)
      = .cont ⟨[⟨(396 : ℚ)/25, (127 : ℚ)/100, 1, (-1, 0),
          [((3 : ℚ)/5, (3 : ℚ)/5), ((-127 : ℚ)/100, 0)]⟩], 1⟩ := by
  refine ⟨by with_unfolding_all decide, by with_unfolding_all decide, by with_unfolding_all decide, ?_⟩
  with_unfolding_all decide

/-! ## C5: counterexample — the bonus keys on *some* wire, not the nearest -/

/-- C5 counterexample same-net wires: a far wire (midpoint `(12.7, 0)`)
listed first, and a near wire (midpoint `(-1.27, 1.27)`). -/
def c5_snw : List (Point × Point × Wire) :=
  [((11.43, 0), (13.97, 0), ⟨[(11.43, 0), (13.97, 0)], some "a"⟩),
   (((-2.54 : ℚ), 1.27), (0, 1.27), ⟨[((-2.54 : ℚ), 1.27), (0, 1.27)], some "b"⟩)]

/-- C5 counterexample context: start `(0,0)`, goal `(12.7, 0)`, no
obstacles or pins, the two same-net wires of `c5_snw`. -/
def c5_ctx : AstarCtx :=
  ⟨(0, 0), (12.7, 0), (0, 0), (10, 0), [], [], c5_snw, [], none, GRID_SIZE⟩

/-- C5 counterexample: the step `(0,0) → (1,0)` moves *away* from the
midpoint of the nearest same-net wire (`(-1.27, 1.27)`, Manhattan `2.54`
vs the far wire's `12.7`), yet the pushed `g` is
`1.2065 = 1.27 - 5%·1.27`: the 5% bonus is granted because the step moves
closer to the *far* wire's midpoint, contradicting the claim's
"nearest same-net wire" reading (which predicts cost `1.27`). -/
theorem c5_counterexample :
    nearestSameNetWireMid (0, 0) c5_snw = some ((-127 : ℚ)/100, (127 : ℚ)/100) ∧
    manhattan_distance (grid_to_world (1, 0) GRID_SIZE) ((-127 : ℚ)/100, (127 : ℚ)/100)
      > manhattan_distance (0, 0) ((-127 : ℚ)/100, (127 : ℚ)/100) ∧
    astarNeighborStep c5_ctx [(0, 0)] (0, 0) (0, 0) [(0, 0)] 0 ⟨[], 0⟩ (1, 0)
      = .cont ⟨[⟨(25273 : ℚ)/2000, (2413 : ℚ)/2000, 1, (1, 0),
          [(0, 0), ((127 : ℚ)/100, 0)]⟩], 1⟩ ∧
    (2413 : ℚ)/2000 ≠ 0 + GRID_SIZE := by
  refine ⟨by with_unfolding_all decide, by with_unfolding_all decide, ?_, by with_unfolding_all decide⟩
  norm_num [astarNeighborStep, astarObstructed, astarPinHit, astarMoveG,
    astarF, c5_ctx, c5_snw, GRID_SIZE, is_pin_position,
    near_pin_check, bend_check, bonus_check, wire_mid, grid_to_world,
    point_in_component, segment_intersects_component, segment_overlaps_any_wire,
    manhattan_distance, euclid_lt, dist_sq, sameNetPinMatch, rabs]

/-- Derived batch context of the c1 scenario. -/
def c1_rctx : RouteCtx :=
  { componentBboxes := [], allPinPositions := [], wireToNet := [], existingWireDicts := [] }

/-- Initial accumulator state of the c1 scenario. -/
def c1_s0 : RouteState :=
  { allRoutedWires := [],
    allJunctions := [],
    wiresToRemove := [],
    existingWires := [],
    routedWireDicts := [],
    uidCtr := 0 }

/-- Request 1 of the c1 scenario. -/
def c1_req1 : Point × Point × Option String :=
  (((Rat.mk' 1 2), (Rat.mk' 1 2)), ((Rat.mk' 127 50), (Rat.mk' 1 2)), none)

/-- A* context of request 1 of the c1 scenario. -/
def c1_a1_ctx : AstarCtx :=
  { start := ((Rat.mk' 1 2), (Rat.mk' 1 2)),
    goal := ((Rat.mk' 127 50), (Rat.mk' 1 2)),
    startGrid := (0, 0),
    goalGrid := (2, 0),
    bboxes := [],
    existingWires := [],
    sameNetWires := [],
    pinPositions := [],
    currentNet := none,
    gridSize := (Rat.mk' 127 100) }

/-- A* state of request 1 of the c1 scenario, after 0 iterations. -/
def c1_a1_s0 : AstarState :=
  { openList := [{ f := 0, g := 0, tie := 0, pos := (0, 0), path := [((Rat.mk' 1 2), (Rat.mk' 1 2))] }],
    closed := [],
    tie := 0 }

/-- A* state of request 1 of the c1 scenario, after 1 iterations. -/
def c1_a1_s1 : AstarState :=
  { openList := [{ f := (Rat.mk' 76 25),
                   g := (Rat.mk' 127 100),
                   tie := 1,
                   pos := (1, 0),
                   path := [((Rat.mk' 1 2), (Rat.mk' 1 2)), ((Rat.mk' 127 100), 0)] },
                 { f := (Rat.mk' 279 50),
                   g := (Rat.mk' 127 100),
                   tie := 2,
                   pos := (-1, 0),
                   path := [((Rat.mk' 1 2), (Rat.mk' 1 2)), ((Rat.mk' (-127) 100), 0)] },
                 { f := (Rat.mk' 229 50),
                   g := (Rat.mk' 127 100),
                   tie := 3,
                   pos := (0, 1),
                   path := [((Rat.mk' 1 2), (Rat.mk' 1 2)), (0, (Rat.mk' 127 100))] },
                 { f := (Rat.mk' 279 50),
                   g := (Rat.mk' 127 100),
                   tie := 4,
                   pos := (0, -1),
                   path := [((Rat.mk' 1 2), (Rat.mk' 1 2)), (0, (Rat.mk' (-127) 100))] }],
    closed := [(0, 0)],
    tie := 4 }

/-- A* state of request 1 of the c1 scenario, after 2 iterations. -/
def c1_a1_s2 : AstarState :=
  { openList := [{ f := (Rat.mk' 279 50),
                   g := (Rat.mk' 127 100),
                   tie := 2,
                   pos := (-1, 0),
                   path := [((Rat.mk' 1 2), (Rat.mk' 1 2)), ((Rat.mk' (-127) 100), 0)] },
                 { f := (Rat.mk' 229 50),
                   g := (Rat.mk' 127 100),
                   tie := 3,
                   pos := (0, 1),
                   path := [((Rat.mk' 1 2), (Rat.mk' 1 2)), (0, (Rat.mk' 127 100))] },
                 { f := (Rat.mk' 279 50),
                   g := (Rat.mk' 127 100),
                   tie := 4,
                   pos := (0, -1),
                   path := [((Rat.mk' 1 2), (Rat.mk' 1 2)), (0, (Rat.mk' (-127) 100))] },
                 { f := (Rat.mk' 3167 1000),
                   g := (Rat.mk' 2667 1000),
                   tie := 5,
                   pos := (2, 0),
                   path := [((Rat.mk' 1 2), (Rat.mk' 1 2)), ((Rat.mk' 127 100), 0), ((Rat.mk' 127 50), 0)] },
                 { f := (Rat.mk' 4707 1000),
                   g := (Rat.mk' 2667 1000),
                   tie := 6,
                   pos := (1, 1),
                   path := [((Rat.mk' 1 2), (Rat.mk' 1 2)), ((Rat.mk' 127 100), 0), ((Rat.mk' 127 100), (Rat.mk' 127 100))] },
                 { f := (Rat.mk' 5707 1000),
                   g := (Rat.mk' 2667 1000),
                   tie := 7,
                   pos := (1, -1),
                   path := [((Rat.mk' 1 2), (Rat.mk' 1 2)), ((Rat.mk' 127 100), 0), ((Rat.mk' 127 100), (Rat.mk' (-127) 100))] }],
    closed := [(1, 0), (0, 0)],
    tie := 7 }

set_option maxHeartbeats 4000000 in
/-- The A* run of request 1 of the c1 scenario, iteration by iteration. -/
theorem c1_req1_astar :
    requestAstar c1_rctx c1_s0 c1_req1 =
      (some [((Rat.mk' 1 2), (Rat.mk' 1 2)), ((Rat.mk' 127 100), 0), ((Rat.mk' 127 50), 0), ((Rat.mk' 127 50), (Rat.mk' 1 2))], none) := by
  have hsg : world_to_grid c1_req1.1 GRID_SIZE = (0, 0) := by
    first
    | norm_num [c1_req1, world_to_grid, pyRound, GRID_SIZE, Rat.mk'_eq_divInt, Rat.divInt_eq_div, Rat.floor_def']
    | with_unfolding_all decide
  have hgg : world_to_grid c1_req1.2.1 GRID_SIZE = (2, 0) := by
    first
    | norm_num [c1_req1, world_to_grid, pyRound, GRID_SIZE, Rat.mk'_eq_divInt, Rat.divInt_eq_div, Rat.floor_def']
    | with_unfolding_all decide
  have hbridge : requestAstar c1_rctx c1_s0 c1_req1 =
      astarLoop c1_a1_ctx 50000 c1_a1_s0 := by
    unfold requestAstar
    rw [astar_pathfind_loop_of hsg hgg (by with_unfolding_all decide)]
    with_unfolding_all rfl
  rw [hbridge]
  have hpop0 : popMin c1_a1_s0.openList = some (
        { f := 0, g := 0, tie := 0, pos := (0, 0), path := [((Rat.mk' 1 2), (Rat.mk' 1 2))] },
        []) := by
    first
    | norm_num [c1_a1_s0, popMin, entryLt, Rat.mk'_eq_divInt, Rat.divInt_eq_div]
    | with_unfolding_all decide
  have hw0 : grid_to_world (
        { f := 0, g := 0, tie := 0, pos := (0, 0), path := [((Rat.mk' 1 2), (Rat.mk' 1 2))] } : Entry).pos c1_a1_ctx.gridSize = (
        (0, 0)) := by with_unfolding_all decide
  have hns0 : get_neighbors (
        { f := 0, g := 0, tie := 0, pos := (0, 0), path := [((Rat.mk' 1 2), (Rat.mk' 1 2))] } : Entry).pos (some c1_a1_ctx.goalGrid) = (
        [(1, 0), (-1, 0), (0, 1), (0, -1)]) := by with_unfolding_all decide
  have hn0x0 : astarNeighborStep c1_a1_ctx
      ((
        { f := 0, g := 0, tie := 0, pos := (0, 0), path := [((Rat.mk' 1 2), (Rat.mk' 1 2))] } : Entry).pos :: c1_a1_s0.closed)
      (
        { f := 0, g := 0, tie := 0, pos := (0, 0), path := [((Rat.mk' 1 2), (Rat.mk' 1 2))] } : Entry).pos (
        (0, 0)) (
        { f := 0, g := 0, tie := 0, pos := (0, 0), path := [((Rat.mk' 1 2), (Rat.mk' 1 2))] } : Entry).path (
        { f := 0, g := 0, tie := 0, pos := (0, 0), path := [((Rat.mk' 1 2), (Rat.mk' 1 2))] } : Entry).g
      (⟨
        [],
        c1_a1_s0.tie⟩ : StepState)
      ((1, 0)) = .cont
      (⟨(⟨
        [],
        c1_a1_s0.tie⟩ : StepState).openList ++
        [⟨(Rat.mk' 76 25), (Rat.mk' 127 100), 1, ((1, 0)), (
        { f := 0, g := 0, tie := 0, pos := (0, 0), path := [((Rat.mk' 1 2), (Rat.mk' 1 2))] } : Entry).path ++ [((Rat.mk' 127 100), 0)]⟩], 1⟩ : StepState) := by
    exact astarNeighborStep_push_of (by with_unfolding_all decide) (by with_unfolding_all decide)
      (by first | norm_num [Rat.mk'_eq_divInt, Rat.divInt_eq_div, astarObstructed, is_pin_position, near_pin_check, point_in_component, segment_intersects_component, segment_overlaps_any_wire, segments_overlap_parallel, is_horizontal_segment, is_vertical_segment, ranges_overlap, segment_intersects_rect, point_in_rect, clipEdges, euclid_lt, dist_sq, rabs, c1_a1_ctx] | with_unfolding_all decide)
      (by with_unfolding_all decide)
      (by first | norm_num [Rat.mk'_eq_divInt, Rat.divInt_eq_div, astarMoveG, bend_check, bonus_check, wire_mid, manhattan_distance, rabs, c1_a1_ctx] | with_unfolding_all decide)
      (by first | norm_num [Rat.mk'_eq_divInt, Rat.divInt_eq_div, astarF, manhattan_distance, rabs, c1_a1_ctx] | with_unfolding_all decide)
  have hn0x1 : astarNeighborStep c1_a1_ctx
      ((
        { f := 0, g := 0, tie := 0, pos := (0, 0), path := [((Rat.mk' 1 2), (Rat.mk' 1 2))] } : Entry).pos :: c1_a1_s0.closed)
      (
        { f := 0, g := 0, tie := 0, pos := (0, 0), path := [((Rat.mk' 1 2), (Rat.mk' 1 2))] } : Entry).pos (
        (0, 0)) (
        { f := 0, g := 0, tie := 0, pos := (0, 0), path := [((Rat.mk' 1 2), (Rat.mk' 1 2))] } : Entry).path (
        { f := 0, g := 0, tie := 0, pos := (0, 0), path := [((Rat.mk' 1 2), (Rat.mk' 1 2))] } : Entry).g
      (⟨(⟨
        [],
        c1_a1_s0.tie⟩ : StepState).openList ++
        [⟨(Rat.mk' 76 25), (Rat.mk' 127 100), 1, ((1, 0)), (
        { f := 0, g := 0, tie := 0, pos := (0, 0), path := [((Rat.mk' 1 2), (Rat.mk' 1 2))] } : Entry).path ++ [((Rat.mk' 127 100), 0)]⟩], 1⟩ : StepState)
      ((-1, 0)) = .cont
      (⟨(⟨(⟨
        [],
        c1_a1_s0.tie⟩ : StepState).openList ++
        [⟨(Rat.mk' 76 25), (Rat.mk' 127 100), 1, ((1, 0)), (
        { f := 0, g := 0, tie := 0, pos := (0, 0), path := [((Rat.mk' 1 2), (Rat.mk' 1 2))] } : Entry).path ++ [((Rat.mk' 127 100), 0)]⟩], 1⟩ : StepState).openList ++
        [⟨(Rat.mk' 279 50), (Rat.mk' 127 100), 2, ((-1, 0)), (
        { f := 0, g := 0, tie := 0, pos := (0, 0), path := [((Rat.mk' 1 2), (Rat.mk' 1 2))] } : Entry).path ++ [((Rat.mk' (-127) 100), 0)]⟩], 2⟩ : StepState) := by
    exact astarNeighborStep_push_of (by with_unfolding_all decide) (by with_unfolding_all decide)
      (by first | norm_num [Rat.mk'_eq_divInt, Rat.divInt_eq_div, astarObstructed, is_pin_position, near_pin_check, point_in_component, segment_intersects_component, segment_overlaps_any_wire, segments_overlap_parallel, is_horizontal_segment, is_vertical_segment, ranges_overlap, segment_intersects_rect, point_in_rect, clipEdges, euclid_lt, dist_sq, rabs, c1_a1_ctx] | with_unfolding_all decide)
      (by with_unfolding_all decide)
      (by first | norm_num [Rat.mk'_eq_divInt, Rat.divInt_eq_div, astarMoveG, bend_check, bonus_check, wire_mid, manhattan_distance, rabs, c1_a1_ctx] | with_unfolding_all decide)
      (by first | norm_num [Rat.mk'_eq_divInt, Rat.divInt_eq_div, astarF, manhattan_distance, rabs, c1_a1_ctx] | with_unfolding_all decide)
  have hn0x2 : astarNeighborStep c1_a1_ctx
      ((
        { f := 0, g := 0, tie := 0, pos := (0, 0), path := [((Rat.mk' 1 2), (Rat.mk' 1 2))] } : Entry).pos :: c1_a1_s0.closed)
      (
        { f := 0, g := 0, tie := 0, pos := (0, 0), path := [((Rat.mk' 1 2), (Rat.mk' 1 2))] } : Entry).pos (
        (0, 0)) (
        { f := 0, g := 0, tie := 0, pos := (0, 0), path := [((Rat.mk' 1 2), (Rat.mk' 1 2))] } : Entry).path (
        { f := 0, g := 0, tie := 0, pos := (0, 0), path := [((Rat.mk' 1 2), (Rat.mk' 1 2))] } : Entry).g
      (⟨(⟨(⟨
        [],
        c1_a1_s0.tie⟩ : StepState).openList ++
        [⟨(Rat.mk' 76 25), (Rat.mk' 127 100), 1, ((1, 0)), (
        { f := 0, g := 0, tie := 0, pos := (0, 0), path := [((Rat.mk' 1 2), (Rat.mk' 1 2))] } : Entry).path ++ [((Rat.mk' 127 100), 0)]⟩], 1⟩ : StepState).openList ++
        [⟨(Rat.mk' 279 50), (Rat.mk' 127 100), 2, ((-1, 0)), (
        { f := 0, g := 0, tie := 0, pos := (0, 0), path := [((Rat.mk' 1 2), (Rat.mk' 1 2))] } : Entry).path ++ [((Rat.mk' (-127) 100), 0)]⟩], 2⟩ : StepState)
      ((0, 1)) = .cont
      (⟨(⟨(⟨(⟨
        [],
        c1_a1_s0.tie⟩ : StepState).openList ++
        [⟨(Rat.mk' 76 25), (Rat.mk' 127 100), 1, ((1, 0)), (
        { f := 0, g := 0, tie := 0, pos := (0, 0), path := [((Rat.mk' 1 2), (Rat.mk' 1 2))] } : Entry).path ++ [((Rat.mk' 127 100), 0)]⟩], 1⟩ : StepState).openList ++
        [⟨(Rat.mk' 279 50), (Rat.mk' 127 100), 2, ((-1, 0)), (
        { f := 0, g := 0, tie := 0, pos := (0, 0), path := [((Rat.mk' 1 2), (Rat.mk' 1 2))] } : Entry).path ++ [((Rat.mk' (-127) 100), 0)]⟩], 2⟩ : StepState).openList ++
        [⟨(Rat.mk' 229 50), (Rat.mk' 127 100), 3, ((0, 1)), (
        { f := 0, g := 0, tie := 0, pos := (0, 0), path := [((Rat.mk' 1 2), (Rat.mk' 1 2))] } : Entry).path ++ [(0, (Rat.mk' 127 100))]⟩], 3⟩ : StepState) := by
    exact astarNeighborStep_push_of (by with_unfolding_all decide) (by with_unfolding_all decide)
      (by first | norm_num [Rat.mk'_eq_divInt, Rat.divInt_eq_div, astarObstructed, is_pin_position, near_pin_check, point_in_component, segment_intersects_component, segment_overlaps_any_wire, segments_overlap_parallel, is_horizontal_segment, is_vertical_segment, ranges_overlap, segment_intersects_rect, point_in_rect, clipEdges, euclid_lt, dist_sq, rabs, c1_a1_ctx] | with_unfolding_all decide)
      (by with_unfolding_all decide)
      (by first | norm_num [Rat.mk'_eq_divInt, Rat.divInt_eq_div, astarMoveG, bend_check, bonus_check, wire_mid, manhattan_distance, rabs, c1_a1_ctx] | with_unfolding_all decide)
      (by first | norm_num [Rat.mk'_eq_divInt, Rat.divInt_eq_div, astarF, manhattan_distance, rabs, c1_a1_ctx] | with_unfolding_all decide)
  have hn0x3 : astarNeighborStep c1_a1_ctx
      ((
        { f := 0, g := 0, tie := 0, pos := (0, 0), path := [((Rat.mk' 1 2), (Rat.mk' 1 2))] } : Entry).pos :: c1_a1_s0.closed)
      (
        { f := 0, g := 0, tie := 0, pos := (0, 0), path := [((Rat.mk' 1 2), (Rat.mk' 1 2))] } : Entry).pos (
        (0, 0)) (
        { f := 0, g := 0, tie := 0, pos := (0, 0), path := [((Rat.mk' 1 2), (Rat.mk' 1 2))] } : Entry).path (
        { f := 0, g := 0, tie := 0, pos := (0, 0), path := [((Rat.mk' 1 2), (Rat.mk' 1 2))] } : Entry).g
      (⟨(⟨(⟨(⟨
        [],
        c1_a1_s0.tie⟩ : StepState).openList ++
        [⟨(Rat.mk' 76 25), (Rat.mk' 127 100), 1, ((1, 0)), (
        { f := 0, g := 0, tie := 0, pos := (0, 0), path := [((Rat.mk' 1 2), (Rat.mk' 1 2))] } : Entry).path ++ [((Rat.mk' 127 100), 0)]⟩], 1⟩ : StepState).openList ++
        [⟨(Rat.mk' 279 50), (Rat.mk' 127 100), 2, ((-1, 0)), (
        { f := 0, g := 0, tie := 0, pos := (0, 0), path := [((Rat.mk' 1 2), (Rat.mk' 1 2))] } : Entry).path ++ [((Rat.mk' (-127) 100), 0)]⟩], 2⟩ : StepState).openList ++
        [⟨(Rat.mk' 229 50), (Rat.mk' 127 100), 3, ((0, 1)), (
        { f := 0, g := 0, tie := 0, pos := (0, 0), path := [((Rat.mk' 1 2), (Rat.mk' 1 2))] } : Entry).path ++ [(0, (Rat.mk' 127 100))]⟩], 3⟩ : StepState)
      ((0, -1)) = .cont
      (⟨(⟨(⟨(⟨(⟨
        [],
        c1_a1_s0.tie⟩ : StepState).openList ++
        [⟨(Rat.mk' 76 25), (Rat.mk' 127 100), 1, ((1, 0)), (
        { f := 0, g := 0, tie := 0, pos := (0, 0), path := [((Rat.mk' 1 2), (Rat.mk' 1 2))] } : Entry).path ++ [((Rat.mk' 127 100), 0)]⟩], 1⟩ : StepState).openList ++
        [⟨(Rat.mk' 279 50), (Rat.mk' 127 100), 2, ((-1, 0)), (
        { f := 0, g := 0, tie := 0, pos := (0, 0), path := [((Rat.mk' 1 2), (Rat.mk' 1 2))] } : Entry).path ++ [((Rat.mk' (-127) 100), 0)]⟩], 2⟩ : StepState).openList ++
        [⟨(Rat.mk' 229 50), (Rat.mk' 127 100), 3, ((0, 1)), (
        { f := 0, g := 0, tie := 0, pos := (0, 0), path := [((Rat.mk' 1 2), (Rat.mk' 1 2))] } : Entry).path ++ [(0, (Rat.mk' 127 100))]⟩], 3⟩ : StepState).openList ++
        [⟨(Rat.mk' 279 50), (Rat.mk' 127 100), 4, ((0, -1)), (
        { f := 0, g := 0, tie := 0, pos := (0, 0), path := [((Rat.mk' 1 2), (Rat.mk' 1 2))] } : Entry).path ++ [(0, (Rat.mk' (-127) 100))]⟩], 4⟩ : StepState) := by
    exact astarNeighborStep_push_of (by with_unfolding_all decide) (by with_unfolding_all decide)
      (by first | norm_num [Rat.mk'_eq_divInt, Rat.divInt_eq_div, astarObstructed, is_pin_position, near_pin_check, point_in_component, segment_intersects_component, segment_overlaps_any_wire, segments_overlap_parallel, is_horizontal_segment, is_vertical_segment, ranges_overlap, segment_intersects_rect, point_in_rect, clipEdges, euclid_lt, dist_sq, rabs, c1_a1_ctx] | with_unfolding_all decide)
      (by with_unfolding_all decide)
      (by first | norm_num [Rat.mk'_eq_divInt, Rat.divInt_eq_div, astarMoveG, bend_check, bonus_check, wire_mid, manhattan_distance, rabs, c1_a1_ctx] | with_unfolding_all decide)
      (by first | norm_num [Rat.mk'_eq_divInt, Rat.divInt_eq_div, astarF, manhattan_distance, rabs, c1_a1_ctx] | with_unfolding_all decide)
  have hfold0 : astarNeighbors c1_a1_ctx
      ((
        { f := 0, g := 0, tie := 0, pos := (0, 0), path := [((Rat.mk' 1 2), (Rat.mk' 1 2))] } : Entry).pos :: c1_a1_s0.closed)
      (
        { f := 0, g := 0, tie := 0, pos := (0, 0), path := [((Rat.mk' 1 2), (Rat.mk' 1 2))] } : Entry).pos (
        (0, 0)) (
        { f := 0, g := 0, tie := 0, pos := (0, 0), path := [((Rat.mk' 1 2), (Rat.mk' 1 2))] } : Entry).path (
        { f := 0, g := 0, tie := 0, pos := (0, 0), path := [((Rat.mk' 1 2), (Rat.mk' 1 2))] } : Entry).g (
        [(1, 0), (-1, 0), (0, 1), (0, -1)])
      (⟨
        [],
        c1_a1_s0.tie⟩ : StepState) = .cont
      (⟨(⟨(⟨(⟨(⟨
        [],
        c1_a1_s0.tie⟩ : StepState).openList ++
        [⟨(Rat.mk' 76 25), (Rat.mk' 127 100), 1, ((1, 0)), (
        { f := 0, g := 0, tie := 0, pos := (0, 0), path := [((Rat.mk' 1 2), (Rat.mk' 1 2))] } : Entry).path ++ [((Rat.mk' 127 100), 0)]⟩], 1⟩ : StepState).openList ++
        [⟨(Rat.mk' 279 50), (Rat.mk' 127 100), 2, ((-1, 0)), (
        { f := 0, g := 0, tie := 0, pos := (0, 0), path := [((Rat.mk' 1 2), (Rat.mk' 1 2))] } : Entry).path ++ [((Rat.mk' (-127) 100), 0)]⟩], 2⟩ : StepState).openList ++
        [⟨(Rat.mk' 229 50), (Rat.mk' 127 100), 3, ((0, 1)), (
        { f := 0, g := 0, tie := 0, pos := (0, 0), path := [((Rat.mk' 1 2), (Rat.mk' 1 2))] } : Entry).path ++ [(0, (Rat.mk' 127 100))]⟩], 3⟩ : StepState).openList ++
        [⟨(Rat.mk' 279 50), (Rat.mk' 127 100), 4, ((0, -1)), (
        { f := 0, g := 0, tie := 0, pos := (0, 0), path := [((Rat.mk' 1 2), (Rat.mk' 1 2))] } : Entry).path ++ [(0, (Rat.mk' (-127) 100))]⟩], 4⟩ : StepState) := by
    rw [astarNeighbors_cons hn0x0 _, astarNeighbors_cons hn0x1 _, astarNeighbors_cons hn0x2 _, astarNeighbors_cons hn0x3 _, astarNeighbors_nil]
  have hit0 : astarIter c1_a1_ctx c1_a1_s0 = .next c1_a1_s1 := by
    with_unfolding_all exact astarIter_next_of hpop0 (by with_unfolding_all decide) (by with_unfolding_all decide) hw0 (by with_unfolding_all decide) hns0 hfold0
  rw [astarLoop_next hit0]
  have hpop1 : popMin c1_a1_s1.openList = some (
        { f := (Rat.mk' 76 25),
          g := (Rat.mk' 127 100),
          tie := 1,
          pos := (1, 0),
          path := [((Rat.mk' 1 2), (Rat.mk' 1 2)), ((Rat.mk' 127 100), 0)] },
        [{ f := (Rat.mk' 279 50),
           g := (Rat.mk' 127 100),
           tie := 2,
           pos := (-1, 0),
           path := [((Rat.mk' 1 2), (Rat.mk' 1 2)), ((Rat.mk' (-127) 100), 0)] },
         { f := (Rat.mk' 229 50),
           g := (Rat.mk' 127 100),
           tie := 3,
           pos := (0, 1),
           path := [((Rat.mk' 1 2), (Rat.mk' 1 2)), (0, (Rat.mk' 127 100))] },
         { f := (Rat.mk' 279 50),
           g := (Rat.mk' 127 100),
           tie := 4,
           pos := (0, -1),
           path := [((Rat.mk' 1 2), (Rat.mk' 1 2)), (0, (Rat.mk' (-127) 100))] }]) := by
    first
    | norm_num [c1_a1_s1, popMin, entryLt, Rat.mk'_eq_divInt, Rat.divInt_eq_div]
    | with_unfolding_all decide
  have hw1 : grid_to_world (
        { f := (Rat.mk' 76 25),
          g := (Rat.mk' 127 100),
          tie := 1,
          pos := (1, 0),
          path := [((Rat.mk' 1 2), (Rat.mk' 1 2)), ((Rat.mk' 127 100), 0)] } : Entry).pos c1_a1_ctx.gridSize = (
        ((Rat.mk' 127 100), 0)) := by with_unfolding_all decide
  have hns1 : get_neighbors (
        { f := (Rat.mk' 76 25),
          g := (Rat.mk' 127 100),
          tie := 1,
          pos := (1, 0),
          path := [((Rat.mk' 1 2), (Rat.mk' 1 2)), ((Rat.mk' 127 100), 0)] } : Entry).pos (some c1_a1_ctx.goalGrid) = (
        [(2, 0), (0, 0), (1, 1), (1, -1)]) := by with_unfolding_all decide
  have hn1x0 : astarNeighborStep c1_a1_ctx
      ((
        { f := (Rat.mk' 76 25),
          g := (Rat.mk' 127 100),
          tie := 1,
          pos := (1, 0),
          path := [((Rat.mk' 1 2), (Rat.mk' 1 2)), ((Rat.mk' 127 100), 0)] } : Entry).pos :: c1_a1_s1.closed)
      (
        { f := (Rat.mk' 76 25),
          g := (Rat.mk' 127 100),
          tie := 1,
          pos := (1, 0),
          path := [((Rat.mk' 1 2), (Rat.mk' 1 2)), ((Rat.mk' 127 100), 0)] } : Entry).pos (
        ((Rat.mk' 127 100), 0)) (
        { f := (Rat.mk' 76 25),
          g := (Rat.mk' 127 100),
          tie := 1,
          pos := (1, 0),
          path := [((Rat.mk' 1 2), (Rat.mk' 1 2)), ((Rat.mk' 127 100), 0)] } : Entry).path (
        { f := (Rat.mk' 76 25),
          g := (Rat.mk' 127 100),
          tie := 1,
          pos := (1, 0),
          path := [((Rat.mk' 1 2), (Rat.mk' 1 2)), ((Rat.mk' 127 100), 0)] } : Entry).g
      (⟨
        [{ f := (Rat.mk' 279 50),
           g := (Rat.mk' 127 100),
           tie := 2,
           pos := (-1, 0),
           path := [((Rat.mk' 1 2), (Rat.mk' 1 2)), ((Rat.mk' (-127) 100), 0)] },
         { f := (Rat.mk' 229 50),
           g := (Rat.mk' 127 100),
           tie := 3,
           pos := (0, 1),
           path := [((Rat.mk' 1 2), (Rat.mk' 1 2)), (0, (Rat.mk' 127 100))] },
         { f := (Rat.mk' 279 50),
           g := (Rat.mk' 127 100),
           tie := 4,
           pos := (0, -1),
           path := [((Rat.mk' 1 2), (Rat.mk' 1 2)), (0, (Rat.mk' (-127) 100))] }],
        c1_a1_s1.tie⟩ : StepState)
      ((2, 0)) = .cont
      (⟨(⟨
        [{ f := (Rat.mk' 279 50),
           g := (Rat.mk' 127 100),
           tie := 2,
           pos := (-1, 0),
           path := [((Rat.mk' 1 2), (Rat.mk' 1 2)), ((Rat.mk' (-127) 100), 0)] },
         { f := (Rat.mk' 229 50),
           g := (Rat.mk' 127 100),
           tie := 3,
           pos := (0, 1),
           path := [((Rat.mk' 1 2), (Rat.mk' 1 2)), (0, (Rat.mk' 127 100))] },
         { f := (Rat.mk' 279 50),
           g := (Rat.mk' 127 100),
           tie := 4,
           pos := (0, -1),
           path := [((Rat.mk' 1 2), (Rat.mk' 1 2)), (0, (Rat.mk' (-127) 100))] }],
        c1_a1_s1.tie⟩ : StepState).openList ++
        [⟨(Rat.mk' 3167 1000), (Rat.mk' 2667 1000), 5, ((2, 0)), (
        { f := (Rat.mk' 76 25),
          g := (Rat.mk' 127 100),
          tie := 1,
          pos := (1, 0),
          path := [((Rat.mk' 1 2), (Rat.mk' 1 2)), ((Rat.mk' 127 100), 0)] } : Entry).path ++ [((Rat.mk' 127 50), 0)]⟩], 5⟩ : StepState) := by
    exact astarNeighborStep_push_of (by with_unfolding_all decide) (by with_unfolding_all decide)
      (by first | norm_num [Rat.mk'_eq_divInt, Rat.divInt_eq_div, astarObstructed, is_pin_position, near_pin_check, point_in_component, segment_intersects_component, segment_overlaps_any_wire, segments_overlap_parallel, is_horizontal_segment, is_vertical_segment, ranges_overlap, segment_intersects_rect, point_in_rect, clipEdges, euclid_lt, dist_sq, rabs, c1_a1_ctx] | with_unfolding_all decide)
      (by with_unfolding_all decide)
      (by first | norm_num [Rat.mk'_eq_divInt, Rat.divInt_eq_div, astarMoveG, bend_check, bonus_check, wire_mid, manhattan_distance, rabs, c1_a1_ctx] | with_unfolding_all decide)
      (by first | norm_num [Rat.mk'_eq_divInt, Rat.divInt_eq_div, astarF, manhattan_distance, rabs, c1_a1_ctx] | with_unfolding_all decide)
  have hn1x1 : astarNeighborStep c1_a1_ctx
      ((
        { f := (Rat.mk' 76 25),
          g := (Rat.mk' 127 100),
          tie := 1,
          pos := (1, 0),
          path := [((Rat.mk' 1 2), (Rat.mk' 1 2)), ((Rat.mk' 127 100), 0)] } : Entry).pos :: c1_a1_s1.closed)
      (
        { f := (Rat.mk' 76 25),
          g := (Rat.mk' 127 100),
          tie := 1,
          pos := (1, 0),
          path := [((Rat.mk' 1 2), (Rat.mk' 1 2)), ((Rat.mk' 127 100), 0)] } : Entry).pos (
        ((Rat.mk' 127 100), 0)) (
        { f := (Rat.mk' 76 25),
          g := (Rat.mk' 127 100),
          tie := 1,
          pos := (1, 0),
          path := [((Rat.mk' 1 2), (Rat.mk' 1 2)), ((Rat.mk' 127 100), 0)] } : Entry).path (
        { f := (Rat.mk' 76 25),
          g := (Rat.mk' 127 100),
          tie := 1,
          pos := (1, 0),
          path := [((Rat.mk' 1 2), (Rat.mk' 1 2)), ((Rat.mk' 127 100), 0)] } : Entry).g
      (⟨(⟨
        [{ f := (Rat.mk' 279 50),
           g := (Rat.mk' 127 100),
           tie := 2,
           pos := (-1, 0),
           path := [((Rat.mk' 1 2), (Rat.mk' 1 2)), ((Rat.mk' (-127) 100), 0)] },
         { f := (Rat.mk' 229 50),
           g := (Rat.mk' 127 100),
           tie := 3,
           pos := (0, 1),
           path := [((Rat.mk' 1 2), (Rat.mk' 1 2)), (0, (Rat.mk' 127 100))] },
         { f := (Rat.mk' 279 50),
           g := (Rat.mk' 127 100),
           tie := 4,
           pos := (0, -1),
           path := [((Rat.mk' 1 2), (Rat.mk' 1 2)), (0, (Rat.mk' (-127) 100))] }],
        c1_a1_s1.tie⟩ : StepState).openList ++
        [⟨(Rat.mk' 3167 1000), (Rat.mk' 2667 1000), 5, ((2, 0)), (
        { f := (Rat.mk' 76 25),
          g := (Rat.mk' 127 100),
          tie := 1,
          pos := (1, 0),
          path := [((Rat.mk' 1 2), (Rat.mk' 1 2)), ((Rat.mk' 127 100), 0)] } : Entry).path ++ [((Rat.mk' 127 50), 0)]⟩], 5⟩ : StepState)
      ((0, 0)) = .cont
      (⟨(⟨
        [{ f := (Rat.mk' 279 50),
           g := (Rat.mk' 127 100),
           tie := 2,
           pos := (-1, 0),
           path := [((Rat.mk' 1 2), (Rat.mk' 1 2)), ((Rat.mk' (-127) 100), 0)] },
         { f := (Rat.mk' 229 50),
           g := (Rat.mk' 127 100),
           tie := 3,
           pos := (0, 1),
           path := [((Rat.mk' 1 2), (Rat.mk' 1 2)), (0, (Rat.mk' 127 100))] },
         { f := (Rat.mk' 279 50),
           g := (Rat.mk' 127 100),
           tie := 4,
           pos := (0, -1),
           path := [((Rat.mk' 1 2), (Rat.mk' 1 2)), (0, (Rat.mk' (-127) 100))] }],
        c1_a1_s1.tie⟩ : StepState).openList ++
        [⟨(Rat.mk' 3167 1000), (Rat.mk' 2667 1000), 5, ((2, 0)), (
        { f := (Rat.mk' 76 25),
          g := (Rat.mk' 127 100),
          tie := 1,
          pos := (1, 0),
          path := [((Rat.mk' 1 2), (Rat.mk' 1 2)), ((Rat.mk' 127 100), 0)] } : Entry).path ++ [((Rat.mk' 127 50), 0)]⟩], 5⟩ : StepState) := by
    first
    | exact astarNeighborStep_skip_closed_of (by with_unfolding_all decide)
    | exact astarNeighborStep_skip_obst_of (by with_unfolding_all decide) (by with_unfolding_all decide)
    | exact astarNeighborStep_skip_obst_of (by with_unfolding_all decide)
        (by norm_num [Rat.mk'_eq_divInt, Rat.divInt_eq_div, astarObstructed, is_pin_position, near_pin_check, point_in_component, segment_intersects_component, segment_overlaps_any_wire, segments_overlap_parallel, is_horizontal_segment, is_vertical_segment, ranges_overlap, segment_intersects_rect, point_in_rect, clipEdges, euclid_lt, dist_sq, rabs, grid_to_world, c1_a1_ctx])
  have hn1x2 : astarNeighborStep c1_a1_ctx
      ((
        { f := (Rat.mk' 76 25),
          g := (Rat.mk' 127 100),
          tie := 1,
          pos := (1, 0),
          path := [((Rat.mk' 1 2), (Rat.mk' 1 2)), ((Rat.mk' 127 100), 0)] } : Entry).pos :: c1_a1_s1.closed)
      (
        { f := (Rat.mk' 76 25),
          g := (Rat.mk' 127 100),
          tie := 1,
          pos := (1, 0),
          path := [((Rat.mk' 1 2), (Rat.mk' 1 2)), ((Rat.mk' 127 100), 0)] } : Entry).pos (
        ((Rat.mk' 127 100), 0)) (
        { f := (Rat.mk' 76 25),
          g := (Rat.mk' 127 100),
          tie := 1,
          pos := (1, 0),
          path := [((Rat.mk' 1 2), (Rat.mk' 1 2)), ((Rat.mk' 127 100), 0)] } : Entry).path (
        { f := (Rat.mk' 76 25),
          g := (Rat.mk' 127 100),
          tie := 1,
          pos := (1, 0),
          path := [((Rat.mk' 1 2), (Rat.mk' 1 2)), ((Rat.mk' 127 100), 0)] } : Entry).g
      (⟨(⟨
        [{ f := (Rat.mk' 279 50),
           g := (Rat.mk' 127 100),
           tie := 2,
           pos := (-1, 0),
           path := [((Rat.mk' 1 2), (Rat.mk' 1 2)), ((Rat.mk' (-127) 100), 0)] },
         { f := (Rat.mk' 229 50),
           g := (Rat.mk' 127 100),
           tie := 3,
           pos := (0, 1),
           path := [((Rat.mk' 1 2), (Rat.mk' 1 2)), (0, (Rat.mk' 127 100))] },
         { f := (Rat.mk' 279 50),
           g := (Rat.mk' 127 100),
           tie := 4,
           pos := (0, -1),
           path := [((Rat.mk' 1 2), (Rat.mk' 1 2)), (0, (Rat.mk' (-127) 100))] }],
        c1_a1_s1.tie⟩ : StepState).openList ++
        [⟨(Rat.mk' 3167 1000), (Rat.mk' 2667 1000), 5, ((2, 0)), (
        { f := (Rat.mk' 76 25),
          g := (Rat.mk' 127 100),
          tie := 1,
          pos := (1, 0),
          path := [((Rat.mk' 1 2), (Rat.mk' 1 2)), ((Rat.mk' 127 100), 0)] } : Entry).path ++ [((Rat.mk' 127 50), 0)]⟩], 5⟩ : StepState)
      ((1, 1)) = .cont
      (⟨(⟨(⟨
        [{ f := (Rat.mk' 279 50),
           g := (Rat.mk' 127 100),
           tie := 2,
           pos := (-1, 0),
           path := [((Rat.mk' 1 2), (Rat.mk' 1 2)), ((Rat.mk' (-127) 100), 0)] },
         { f := (Rat.mk' 229 50),
           g := (Rat.mk' 127 100),
           tie := 3,
           pos := (0, 1),
           path := [((Rat.mk' 1 2), (Rat.mk' 1 2)), (0, (Rat.mk' 127 100))] },
         { f := (Rat.mk' 279 50),
           g := (Rat.mk' 127 100),
           tie := 4,
           pos := (0, -1),
           path := [((Rat.mk' 1 2), (Rat.mk' 1 2)), (0, (Rat.mk' (-127) 100))] }],
        c1_a1_s1.tie⟩ : StepState).openList ++
        [⟨(Rat.mk' 3167 1000), (Rat.mk' 2667 1000), 5, ((2, 0)), (
        { f := (Rat.mk' 76 25),
          g := (Rat.mk' 127 100),
          tie := 1,
          pos := (1, 0),
          path := [((Rat.mk' 1 2), (Rat.mk' 1 2)), ((Rat.mk' 127 100), 0)] } : Entry).path ++ [((Rat.mk' 127 50), 0)]⟩], 5⟩ : StepState).openList ++
        [⟨(Rat.mk' 4707 1000), (Rat.mk' 2667 1000), 6, ((1, 1)), (
        { f := (Rat.mk' 76 25),
          g := (Rat.mk' 127 100),
          tie := 1,
          pos := (1, 0),
          path := [((Rat.mk' 1 2), (Rat.mk' 1 2)), ((Rat.mk' 127 100), 0)] } : Entry).path ++ [((Rat.mk' 127 100), (Rat.mk' 127 100))]⟩], 6⟩ : StepState) := by
    exact astarNeighborStep_push_of (by with_unfolding_all decide) (by with_unfolding_all decide)
      (by first | norm_num [Rat.mk'_eq_divInt, Rat.divInt_eq_div, astarObstructed, is_pin_position, near_pin_check, point_in_component, segment_intersects_component, segment_overlaps_any_wire, segments_overlap_parallel, is_horizontal_segment, is_vertical_segment, ranges_overlap, segment_intersects_rect, point_in_rect, clipEdges, euclid_lt, dist_sq, rabs, c1_a1_ctx] | with_unfolding_all decide)
      (by with_unfolding_all decide)
      (by first | norm_num [Rat.mk'_eq_divInt, Rat.divInt_eq_div, astarMoveG, bend_check, bonus_check, wire_mid, manhattan_distance, rabs, c1_a1_ctx] | with_unfolding_all decide)
      (by first | norm_num [Rat.mk'_eq_divInt, Rat.divInt_eq_div, astarF, manhattan_distance, rabs, c1_a1_ctx] | with_unfolding_all decide)
  have hn1x3 : astarNeighborStep c1_a1_ctx
      ((
        { f := (Rat.mk' 76 25),
          g := (Rat.mk' 127 100),
          tie := 1,
          pos := (1, 0),
          path := [((Rat.mk' 1 2), (Rat.mk' 1 2)), ((Rat.mk' 127 100), 0)] } : Entry).pos :: c1_a1_s1.closed)
      (
        { f := (Rat.mk' 76 25),
          g := (Rat.mk' 127 100),
          tie := 1,
          pos := (1, 0),
          path := [((Rat.mk' 1 2), (Rat.mk' 1 2)), ((Rat.mk' 127 100), 0)] } : Entry).pos (
        ((Rat.mk' 127 100), 0)) (
        { f := (Rat.mk' 76 25),
          g := (Rat.mk' 127 100),
          tie := 1,
          pos := (1, 0),
          path := [((Rat.mk' 1 2), (Rat.mk' 1 2)), ((Rat.mk' 127 100), 0)] } : Entry).path (
        { f := (Rat.mk' 76 25),
          g := (Rat.mk' 127 100),
          tie := 1,
          pos := (1, 0),
          path := [((Rat.mk' 1 2), (Rat.mk' 1 2)), ((Rat.mk' 127 100), 0)] } : Entry).g
      (⟨(⟨(⟨
        [{ f := (Rat.mk' 279 50),
           g := (Rat.mk' 127 100),
           tie := 2,
           pos := (-1, 0),
           path := [((Rat.mk' 1 2), (Rat.mk' 1 2)), ((Rat.mk' (-127) 100), 0)] },
         { f := (Rat.mk' 229 50),
           g := (Rat.mk' 127 100),
           tie := 3,
           pos := (0, 1),
           path := [((Rat.mk' 1 2), (Rat.mk' 1 2)), (0, (Rat.mk' 127 100))] },
         { f := (Rat.mk' 279 50),
           g := (Rat.mk' 127 100),
           tie := 4,
           pos := (0, -1),
           path := [((Rat.mk' 1 2), (Rat.mk' 1 2)), (0, (Rat.mk' (-127) 100))] }],
        c1_a1_s1.tie⟩ : StepState).openList ++
        [⟨(Rat.mk' 3167 1000), (Rat.mk' 2667 1000), 5, ((2, 0)), (
        { f := (Rat.mk' 76 25),
          g := (Rat.mk' 127 100),
          tie := 1,
          pos := (1, 0),
          path := [((Rat.mk' 1 2), (Rat.mk' 1 2)), ((Rat.mk' 127 100), 0)] } : Entry).path ++ [((Rat.mk' 127 50), 0)]⟩], 5⟩ : StepState).openList ++
        [⟨(Rat.mk' 4707 1000), (Rat.mk' 2667 1000), 6, ((1, 1)), (
        { f := (Rat.mk' 76 25),
          g := (Rat.mk' 127 100),
          tie := 1,
          pos := (1, 0),
          path := [((Rat.mk' 1 2), (Rat.mk' 1 2)), ((Rat.mk' 127 100), 0)] } : Entry).path ++ [((Rat.mk' 127 100), (Rat.mk' 127 100))]⟩], 6⟩ : StepState)
      ((1, -1)) = .cont
      (⟨(⟨(⟨(⟨
        [{ f := (Rat.mk' 279 50),
           g := (Rat.mk' 127 100),
           tie := 2,
           pos := (-1, 0),
           path := [((Rat.mk' 1 2), (Rat.mk' 1 2)), ((Rat.mk' (-127) 100), 0)] },
         { f := (Rat.mk' 229 50),
           g := (Rat.mk' 127 100),
           tie := 3,
           pos := (0, 1),
           path := [((Rat.mk' 1 2), (Rat.mk' 1 2)), (0, (Rat.mk' 127 100))] },
         { f := (Rat.mk' 279 50),
           g := (Rat.mk' 127 100),
           tie := 4,
           pos := (0, -1),
           path := [((Rat.mk' 1 2), (Rat.mk' 1 2)), (0, (Rat.mk' (-127) 100))] }],
        c1_a1_s1.tie⟩ : StepState).openList ++
        [⟨(Rat.mk' 3167 1000), (Rat.mk' 2667 1000), 5, ((2, 0)), (
        { f := (Rat.mk' 76 25),
          g := (Rat.mk' 127 100),
          tie := 1,
          pos := (1, 0),
          path := [((Rat.mk' 1 2), (Rat.mk' 1 2)), ((Rat.mk' 127 100), 0)] } : Entry).path ++ [((Rat.mk' 127 50), 0)]⟩], 5⟩ : StepState).openList ++
        [⟨(Rat.mk' 4707 1000), (Rat.mk' 2667 1000), 6, ((1, 1)), (
        { f := (Rat.mk' 76 25),
          g := (Rat.mk' 127 100),
          tie := 1,
          pos := (1, 0),
          path := [((Rat.mk' 1 2), (Rat.mk' 1 2)), ((Rat.mk' 127 100), 0)] } : Entry).path ++ [((Rat.mk' 127 100), (Rat.mk' 127 100))]⟩], 6⟩ : StepState).openList ++
        [⟨(Rat.mk' 5707 1000), (Rat.mk' 2667 1000), 7, ((1, -1)), (
        { f := (Rat.mk' 76 25),
          g := (Rat.mk' 127 100),
          tie := 1,
          pos := (1, 0),
          path := [((Rat.mk' 1 2), (Rat.mk' 1 2)), ((Rat.mk' 127 100), 0)] } : Entry).path ++ [((Rat.mk' 127 100), (Rat.mk' (-127) 100))]⟩], 7⟩ : StepState) := by
    exact astarNeighborStep_push_of (by with_unfolding_all decide) (by with_unfolding_all decide)
      (by first | norm_num [Rat.mk'_eq_divInt, Rat.divInt_eq_div, astarObstructed, is_pin_position, near_pin_check, point_in_component, segment_intersects_component, segment_overlaps_any_wire, segments_overlap_parallel, is_horizontal_segment, is_vertical_segment, ranges_overlap, segment_intersects_rect, point_in_rect, clipEdges, euclid_lt, dist_sq, rabs, c1_a1_ctx] | with_unfolding_all decide)
      (by with_unfolding_all decide)
      (by first | norm_num [Rat.mk'_eq_divInt, Rat.divInt_eq_div, astarMoveG, bend_check, bonus_check, wire_mid, manhattan_distance, rabs, c1_a1_ctx] | with_unfolding_all decide)
      (by first | norm_num [Rat.mk'_eq_divInt, Rat.divInt_eq_div, astarF, manhattan_distance, rabs, c1_a1_ctx] | with_unfolding_all decide)
  have hfold1 : astarNeighbors c1_a1_ctx
      ((
        { f := (Rat.mk' 76 25),
          g := (Rat.mk' 127 100),
          tie := 1,
          pos := (1, 0),
          path := [((Rat.mk' 1 2), (Rat.mk' 1 2)), ((Rat.mk' 127 100), 0)] } : Entry).pos :: c1_a1_s1.closed)
      (
        { f := (Rat.mk' 76 25),
          g := (Rat.mk' 127 100),
          tie := 1,
          pos := (1, 0),
          path := [((Rat.mk' 1 2), (Rat.mk' 1 2)), ((Rat.mk' 127 100), 0)] } : Entry).pos (
        ((Rat.mk' 127 100), 0)) (
        { f := (Rat.mk' 76 25),
          g := (Rat.mk' 127 100),
          tie := 1,
          pos := (1, 0),
          path := [((Rat.mk' 1 2), (Rat.mk' 1 2)), ((Rat.mk' 127 100), 0)] } : Entry).path (
        { f := (Rat.mk' 76 25),
          g := (Rat.mk' 127 100),
          tie := 1,
          pos := (1, 0),
          path := [((Rat.mk' 1 2), (Rat.mk' 1 2)), ((Rat.mk' 127 100), 0)] } : Entry).g (
        [(2, 0), (0, 0), (1, 1), (1, -1)])
      (⟨
        [{ f := (Rat.mk' 279 50),
           g := (Rat.mk' 127 100),
           tie := 2,
           pos := (-1, 0),
           path := [((Rat.mk' 1 2), (Rat.mk' 1 2)), ((Rat.mk' (-127) 100), 0)] },
         { f := (Rat.mk' 229 50),
           g := (Rat.mk' 127 100),
           tie := 3,
           pos := (0, 1),
           path := [((Rat.mk' 1 2), (Rat.mk' 1 2)), (0, (Rat.mk' 127 100))] },
         { f := (Rat.mk' 279 50),
           g := (Rat.mk' 127 100),
           tie := 4,
           pos := (0, -1),
           path := [((Rat.mk' 1 2), (Rat.mk' 1 2)), (0, (Rat.mk' (-127) 100))] }],
        c1_a1_s1.tie⟩ : StepState) = .cont
      (⟨(⟨(⟨(⟨
        [{ f := (Rat.mk' 279 50),
           g := (Rat.mk' 127 100),
           tie := 2,
           pos := (-1, 0),
           path := [((Rat.mk' 1 2), (Rat.mk' 1 2)), ((Rat.mk' (-127) 100), 0)] },
         { f := (Rat.mk' 229 50),
           g := (Rat.mk' 127 100),
           tie := 3,
           pos := (0, 1),
           path := [((Rat.mk' 1 2), (Rat.mk' 1 2)), (0, (Rat.mk' 127 100))] },
         { f := (Rat.mk' 279 50),
           g := (Rat.mk' 127 100),
           tie := 4,
           pos := (0, -1),
           path := [((Rat.mk' 1 2), (Rat.mk' 1 2)), (0, (Rat.mk' (-127) 100))] }],
        c1_a1_s1.tie⟩ : StepState).openList ++
        [⟨(Rat.mk' 3167 1000), (Rat.mk' 2667 1000), 5, ((2, 0)), (
        { f := (Rat.mk' 76 25),
          g := (Rat.mk' 127 100),
          tie := 1,
          pos := (1, 0),
          path := [((Rat.mk' 1 2), (Rat.mk' 1 2)), ((Rat.mk' 127 100), 0)] } : Entry).path ++ [((Rat.mk' 127 50), 0)]⟩], 5⟩ : StepState).openList ++
        [⟨(Rat.mk' 4707 1000), (Rat.mk' 2667 1000), 6, ((1, 1)), (
        { f := (Rat.mk' 76 25),
          g := (Rat.mk' 127 100),
          tie := 1,
          pos := (1, 0),
          path := [((Rat.mk' 1 2), (Rat.mk' 1 2)), ((Rat.mk' 127 100), 0)] } : Entry).path ++ [((Rat.mk' 127 100), (Rat.mk' 127 100))]⟩], 6⟩ : StepState).openList ++
        [⟨(Rat.mk' 5707 1000), (Rat.mk' 2667 1000), 7, ((1, -1)), (
        { f := (Rat.mk' 76 25),
          g := (Rat.mk' 127 100),
          tie := 1,
          pos := (1, 0),
          path := [((Rat.mk' 1 2), (Rat.mk' 1 2)), ((Rat.mk' 127 100), 0)] } : Entry).path ++ [((Rat.mk' 127 100), (Rat.mk' (-127) 100))]⟩], 7⟩ : StepState) := by
    rw [astarNeighbors_cons hn1x0 _, astarNeighbors_cons hn1x1 _, astarNeighbors_cons hn1x2 _, astarNeighbors_cons hn1x3 _, astarNeighbors_nil]
  have hit1 : astarIter c1_a1_ctx c1_a1_s1 = .next c1_a1_s2 := by
    with_unfolding_all exact astarIter_next_of hpop1 (by with_unfolding_all decide) (by with_unfolding_all decide) hw1 (by with_unfolding_all decide) hns1 hfold1
  rw [astarLoop_next hit1]
  have hpop2 : popMin c1_a1_s2.openList = some (
        { f := (Rat.mk' 3167 1000),
          g := (Rat.mk' 2667 1000),
          tie := 5,
          pos := (2, 0),
          path := [((Rat.mk' 1 2), (Rat.mk' 1 2)), ((Rat.mk' 127 100), 0), ((Rat.mk' 127 50), 0)] },
        [{ f := (Rat.mk' 279 50),
           g := (Rat.mk' 127 100),
           tie := 2,
           pos := (-1, 0),
           path := [((Rat.mk' 1 2), (Rat.mk' 1 2)), ((Rat.mk' (-127) 100), 0)] },
         { f := (Rat.mk' 229 50),
           g := (Rat.mk' 127 100),
           tie := 3,
           pos := (0, 1),
           path := [((Rat.mk' 1 2), (Rat.mk' 1 2)), (0, (Rat.mk' 127 100))] },
         { f := (Rat.mk' 279 50),
           g := (Rat.mk' 127 100),
           tie := 4,
           pos := (0, -1),
           path := [((Rat.mk' 1 2), (Rat.mk' 1 2)), (0, (Rat.mk' (-127) 100))] },
         { f := (Rat.mk' 4707 1000),
           g := (Rat.mk' 2667 1000),
           tie := 6,
           pos := (1, 1),
           path := [((Rat.mk' 1 2), (Rat.mk' 1 2)), ((Rat.mk' 127 100), 0), ((Rat.mk' 127 100), (Rat.mk' 127 100))] },
         { f := (Rat.mk' 5707 1000),
           g := (Rat.mk' 2667 1000),
           tie := 7,
           pos := (1, -1),
           path := [((Rat.mk' 1 2), (Rat.mk' 1 2)), ((Rat.mk' 127 100), 0), ((Rat.mk' 127 100), (Rat.mk' (-127) 100))] }]) := by
    first
    | norm_num [c1_a1_s2, popMin, entryLt, Rat.mk'_eq_divInt, Rat.divInt_eq_div]
    | with_unfolding_all decide
  have hit2 : astarIter c1_a1_ctx c1_a1_s2 = .done (
        (some [((Rat.mk' 1 2), (Rat.mk' 1 2)), ((Rat.mk' 127 100), 0), ((Rat.mk' 127 50), 0), ((Rat.mk' 127 50), (Rat.mk' 1 2))], none)) := by
    with_unfolding_all exact astarIter_goal_of hpop2 (by with_unfolding_all decide) (by with_unfolding_all decide)
  exact astarLoop_done hit2 _ (by norm_num)

/-- Accumulator state of the c1 scenario after request 1. -/
def c1_s1 : RouteState :=
  { allRoutedWires := [{ points := [((Rat.mk' 1 2), (Rat.mk' 1 2)), ((Rat.mk' 127 100), 0)], uid := some "u0" },
                       { points := [((Rat.mk' 127 100), 0), ((Rat.mk' 127 50), 0)], uid := some "u1" },
                       { points := [((Rat.mk' 127 50), 0), ((Rat.mk' 127 50), (Rat.mk' 1 2))], uid := some "u2" }],
    allJunctions := [],
    wiresToRemove := [],
    existingWires := [(((Rat.mk' 1 2), (Rat.mk' 1 2)), (Rat.mk' 127 100), 0),
                      (((Rat.mk' 127 100), 0), (Rat.mk' 127 50), 0),
                      (((Rat.mk' 127 50), 0), (Rat.mk' 127 50), (Rat.mk' 1 2))],
    routedWireDicts := [(((Rat.mk' 1 2), (Rat.mk' 1 2)),
                         ((Rat.mk' 127 100), 0),
                         { points := [((Rat.mk' 1 2), (Rat.mk' 1 2)), ((Rat.mk' 127 100), 0)], uid := some "u0" },
                         none),
                        (((Rat.mk' 127 100), 0),
                         ((Rat.mk' 127 50), 0),
                         { points := [((Rat.mk' 127 100), 0), ((Rat.mk' 127 50), 0)], uid := some "u1" },
                         none),
                        (((Rat.mk' 127 50), 0),
                         ((Rat.mk' 127 50), (Rat.mk' 1 2)),
                         { points := [((Rat.mk' 127 50), 0), ((Rat.mk' 127 50), (Rat.mk' 1 2))], uid := some "u2" },
                         none)],
    uidCtr := 3 }

set_option maxHeartbeats 1600000 in
/-- Processing request 1 of the c1 scenario. -/
theorem c1_req1_step :
    processRequest c1_rctx c1_s0 c1_req1 = c1_s1 := by
  unfold processRequest requestPathWires
  rw [c1_req1_astar]
  with_unfolding_all decide

/-- The c1 scenario batch. -/
def c1_pairs : List (Point × Point × Option String) := [c1_req1]

set_option maxHeartbeats 1600000 in
/-- Full evaluation of `route_cwires` on the c1 scenario. -/
theorem c1_route_eval :
    route_cwires c1_pairs ([] : List TraceItem) ([] : List (String × Unit)) trivialTransform trivialExtract =
      ([{ points := [((Rat.mk' 1 2), (Rat.mk' 1 2)), ((Rat.mk' 127 100), 0)], uid := some "u0" },
        { points := [((Rat.mk' 127 100), 0), ((Rat.mk' 127 50), 0)], uid := some "u1" },
        { points := [((Rat.mk' 127 50), 0), ((Rat.mk' 127 50), (Rat.mk' 1 2))], uid := some "u2" }],
       [],
       []) := by
  have hloop : routeLoop c1_rctx c1_s0 c1_pairs = c1_s1 := by
    rw [show routeLoop c1_rctx c1_s0 c1_pairs =
        routeLoop c1_rctx (processRequest c1_rctx c1_s0 c1_req1) [] from rfl,
      c1_req1_step]
    rfl
  have hbr : route_cwires c1_pairs ([] : List TraceItem) ([] : List (String × Unit)) trivialTransform trivialExtract =
      ((routeLoop c1_rctx c1_s0 c1_pairs).allRoutedWires,
       (routeLoop c1_rctx c1_s0 c1_pairs).allJunctions,
       (routeLoop c1_rctx c1_s0 c1_pairs).wiresToRemove) := by
    with_unfolding_all rfl
  rw [hbr, hloop]
  with_unfolding_all decide

/-- Derived batch context of the c2 scenario. -/
def c2_rctx : RouteCtx :=
  { componentBboxes := [],
    allPinPositions := [],
    wireToNet := [("W1", "VCC")],
    existingWireDicts := [((0, 0), ((Rat.mk' 381 50), 0), { points := [(0, 0), ((Rat.mk' 381 50), 0)], uid := some "W1" })] }

/-- Initial accumulator state of the c2 scenario. -/
def c2_s0 : RouteState :=
  { allRoutedWires := [],
    allJunctions := [],
    wiresToRemove := [],
    existingWires := [((0, 0), (Rat.mk' 381 50), 0)],
    routedWireDicts := [],
    uidCtr := 0 }

/-- Request 1 of the c2 scenario. -/
def c2_req1 : Point × Point × Option String :=
  (((Rat.mk' 127 50), (Rat.mk' 127 100)), ((Rat.mk' 127 50), (Rat.mk' (-127) 100)), some "VCC")

/-- A* context of request 1 of the c2 scenario. -/
def c2_a1_ctx : AstarCtx :=
  { start := ((Rat.mk' 127 50), (Rat.mk' 127 100)),
    goal := ((Rat.mk' 127 50), (Rat.mk' (-127) 100)),
    startGrid := (2, 1),
    goalGrid := (2, -1),
    bboxes := [],
    existingWires := [((0, 0), (Rat.mk' 381 50), 0)],
    sameNetWires := [((0, 0), ((Rat.mk' 381 50), 0), { points := [(0, 0), ((Rat.mk' 381 50), 0)], uid := some "W1" })],
    pinPositions := [],
    currentNet := some "VCC",
    gridSize := (Rat.mk' 127 100) }

/-- A* state of request 1 of the c2 scenario, after 0 iterations. -/
def c2_a1_s0 : AstarState :=
  { openList := [{ f := 0, g := 0, tie := 0, pos := (2, 1), path := [((Rat.mk' 127 50), (Rat.mk' 127 100))] }],
    closed := [],
    tie := 0 }

/-- A* state of request 1 of the c2 scenario, after 1 iterations. -/
def c2_a1_s1 : AstarState :=
  { openList := [{ f := (Rat.mk' 4953 2000),
                   g := (Rat.mk' 2413 2000),
                   tie := 1,
                   pos := (2, 0),
                   path := [((Rat.mk' 127 50), (Rat.mk' 127 100)), ((Rat.mk' 127 50), 0)] },
                 { f := (Rat.mk' 10033 2000),
                   g := (Rat.mk' 2413 2000),
                   tie := 2,
                   pos := (3, 1),
                   path := [((Rat.mk' 127 50), (Rat.mk' 127 100)), ((Rat.mk' 381 100), (Rat.mk' 127 100))] },
                 { f := (Rat.mk' 127 25),
                   g := (Rat.mk' 127 100),
                   tie := 3,
                   pos := (1, 1),
                   path := [((Rat.mk' 127 50), (Rat.mk' 127 100)), ((Rat.mk' 127 100), (Rat.mk' 127 100))] },
                 { f := (Rat.mk' 127 25),
                   g := (Rat.mk' 127 100),
                   tie := 4,
                   pos := (2, 2),
                   path := [((Rat.mk' 127 50), (Rat.mk' 127 100)), ((Rat.mk' 127 50), (Rat.mk' 127 50))] }],
    closed := [(2, 1)],
    tie := 4 }

set_option maxHeartbeats 4000000 in
/-- The A* run of request 1 of the c2 scenario, iteration by iteration. -/
theorem c2_req1_astar :
    requestAstar c2_rctx c2_s0 c2_req1 =
      (some [((Rat.mk' 127 50), (Rat.mk' 127 100)), ((Rat.mk' 127 50), 0)],
       some (NetRouter.EarlyTermInfo.wire
         { points := [(0, 0), ((Rat.mk' 381 50), 0)], uid := some "W1" }
         (0, 0)
         ((Rat.mk' 381 50), 0)
         ((Rat.mk' 127 50), 0))) := by
  have hsg : world_to_grid c2_req1.1 GRID_SIZE = (2, 1) := by
    first
    | norm_num [c2_req1, world_to_grid, pyRound, GRID_SIZE, Rat.mk'_eq_divInt, Rat.divInt_eq_div, Rat.floor_def']
    | with_unfolding_all decide
  have hgg : world_to_grid c2_req1.2.1 GRID_SIZE = (2, -1) := by
    first
    | norm_num [c2_req1, world_to_grid, pyRound, GRID_SIZE, Rat.mk'_eq_divInt, Rat.divInt_eq_div, Rat.floor_def']
    | with_unfolding_all decide
  have hbridge : requestAstar c2_rctx c2_s0 c2_req1 =
      astarLoop c2_a1_ctx 50000 c2_a1_s0 := by
    unfold requestAstar
    rw [astar_pathfind_loop_of hsg hgg (by with_unfolding_all decide)]
    with_unfolding_all rfl
  rw [hbridge]
  have hpop0 : popMin c2_a1_s0.openList = some (
        { f := 0, g := 0, tie := 0, pos := (2, 1), path := [((Rat.mk' 127 50), (Rat.mk' 127 100))] },
        []) := by
    first
    | norm_num [c2_a1_s0, popMin, entryLt, Rat.mk'_eq_divInt, Rat.divInt_eq_div]
    | with_unfolding_all decide
  have hw0 : grid_to_world (
        { f := 0, g := 0, tie := 0, pos := (2, 1), path := [((Rat.mk' 127 50), (Rat.mk' 127 100))] } : Entry).pos c2_a1_ctx.gridSize = (
        ((Rat.mk' 127 50), (Rat.mk' 127 100))) := by with_unfolding_all decide
  have hns0 : get_neighbors (
        { f := 0, g := 0, tie := 0, pos := (2, 1), path := [((Rat.mk' 127 50), (Rat.mk' 127 100))] } : Entry).pos (some c2_a1_ctx.goalGrid) = (
        [(2, 0), (3, 1), (1, 1), (2, 2)]) := by with_unfolding_all decide
  have hn0x0 : astarNeighborStep c2_a1_ctx
      ((
        { f := 0, g := 0, tie := 0, pos := (2, 1), path := [((Rat.mk' 127 50), (Rat.mk' 127 100))] } : Entry).pos :: c2_a1_s0.closed)
      (
        { f := 0, g := 0, tie := 0, pos := (2, 1), path := [((Rat.mk' 127 50), (Rat.mk' 127 100))] } : Entry).pos (
        ((Rat.mk' 127 50), (Rat.mk' 127 100))) (
        { f := 0, g := 0, tie := 0, pos := (2, 1), path := [((Rat.mk' 127 50), (Rat.mk' 127 100))] } : Entry).path (
        { f := 0, g := 0, tie := 0, pos := (2, 1), path := [((Rat.mk' 127 50), (Rat.mk' 127 100))] } : Entry).g
      (⟨
        [],
        c2_a1_s0.tie⟩ : StepState)
      ((2, 0)) = .cont
      (⟨(⟨
        [],
        c2_a1_s0.tie⟩ : StepState).openList ++
        [⟨(Rat.mk' 4953 2000), (Rat.mk' 2413 2000), 1, ((2, 0)), (
        { f := 0, g := 0, tie := 0, pos := (2, 1), path := [((Rat.mk' 127 50), (Rat.mk' 127 100))] } : Entry).path ++ [((Rat.mk' 127 50), 0)]⟩], 1⟩ : StepState) := by
    exact astarNeighborStep_push_of (by with_unfolding_all decide) (by with_unfolding_all decide)
      (by first | norm_num [Rat.mk'_eq_divInt, Rat.divInt_eq_div, astarObstructed, is_pin_position, near_pin_check, point_in_component, segment_intersects_component, segment_overlaps_any_wire, segments_overlap_parallel, is_horizontal_segment, is_vertical_segment, ranges_overlap, segment_intersects_rect, point_in_rect, clipEdges, euclid_lt, dist_sq, rabs, c2_a1_ctx] | with_unfolding_all decide)
      (by with_unfolding_all decide)
      (by first | norm_num [Rat.mk'_eq_divInt, Rat.divInt_eq_div, astarMoveG, bend_check, bonus_check, wire_mid, manhattan_distance, rabs, c2_a1_ctx] | with_unfolding_all decide)
      (by first | norm_num [Rat.mk'_eq_divInt, Rat.divInt_eq_div, astarF, manhattan_distance, rabs, c2_a1_ctx] | with_unfolding_all decide)
  have hn0x1 : astarNeighborStep c2_a1_ctx
      ((
        { f := 0, g := 0, tie := 0, pos := (2, 1), path := [((Rat.mk' 127 50), (Rat.mk' 127 100))] } : Entry).pos :: c2_a1_s0.closed)
      (
        { f := 0, g := 0, tie := 0, pos := (2, 1), path := [((Rat.mk' 127 50), (Rat.mk' 127 100))] } : Entry).pos (
        ((Rat.mk' 127 50), (Rat.mk' 127 100))) (
        { f := 0, g := 0, tie := 0, pos := (2, 1), path := [((Rat.mk' 127 50), (Rat.mk' 127 100))] } : Entry).path (
        { f := 0, g := 0, tie := 0, pos := (2, 1), path := [((Rat.mk' 127 50), (Rat.mk' 127 100))] } : Entry).g
      (⟨(⟨
        [],
        c2_a1_s0.tie⟩ : StepState).openList ++
        [⟨(Rat.mk' 4953 2000), (Rat.mk' 2413 2000), 1, ((2, 0)), (
        { f := 0, g := 0, tie := 0, pos := (2, 1), path := [((Rat.mk' 127 50), (Rat.mk' 127 100))] } : Entry).path ++ [((Rat.mk' 127 50), 0)]⟩], 1⟩ : StepState)
      ((3, 1)) = .cont
      (⟨(⟨(⟨
        [],
        c2_a1_s0.tie⟩ : StepState).openList ++
        [⟨(Rat.mk' 4953 2000), (Rat.mk' 2413 2000), 1, ((2, 0)), (
        { f := 0, g := 0, tie := 0, pos := (2, 1), path := [((Rat.mk' 127 50), (Rat.mk' 127 100))] } : Entry).path ++ [((Rat.mk' 127 50), 0)]⟩], 1⟩ : StepState).openList ++
        [⟨(Rat.mk' 10033 2000), (Rat.mk' 2413 2000), 2, ((3, 1)), (
        { f := 0, g := 0, tie := 0, pos := (2, 1), path := [((Rat.mk' 127 50), (Rat.mk' 127 100))] } : Entry).path ++ [((Rat.mk' 381 100), (Rat.mk' 127 100))]⟩], 2⟩ : StepState) := by
    exact astarNeighborStep_push_of (by with_unfolding_all decide) (by with_unfolding_all decide)
      (by first | norm_num [Rat.mk'_eq_divInt, Rat.divInt_eq_div, astarObstructed, is_pin_position, near_pin_check, point_in_component, segment_intersects_component, segment_overlaps_any_wire, segments_overlap_parallel, is_horizontal_segment, is_vertical_segment, ranges_overlap, segment_intersects_rect, point_in_rect, clipEdges, euclid_lt, dist_sq, rabs, c2_a1_ctx] | with_unfolding_all decide)
      (by with_unfolding_all decide)
      (by first | norm_num [Rat.mk'_eq_divInt, Rat.divInt_eq_div, astarMoveG, bend_check, bonus_check, wire_mid, manhattan_distance, rabs, c2_a1_ctx] | with_unfolding_all decide)
      (by first | norm_num [Rat.mk'_eq_divInt, Rat.divInt_eq_div, astarF, manhattan_distance, rabs, c2_a1_ctx] | with_unfolding_all decide)
  have hn0x2 : astarNeighborStep c2_a1_ctx
      ((
        { f := 0, g := 0, tie := 0, pos := (2, 1), path := [((Rat.mk' 127 50), (Rat.mk' 127 100))] } : Entry).pos :: c2_a1_s0.closed)
      (
        { f := 0, g := 0, tie := 0, pos := (2, 1), path := [((Rat.mk' 127 50), (Rat.mk' 127 100))] } : Entry).pos (
        ((Rat.mk' 127 50), (Rat.mk' 127 100))) (
        { f := 0, g := 0, tie := 0, pos := (2, 1), path := [((Rat.mk' 127 50), (Rat.mk' 127 100))] } : Entry).path (
        { f := 0, g := 0, tie := 0, pos := (2, 1), path := [((Rat.mk' 127 50), (Rat.mk' 127 100))] } : Entry).g
      (⟨(⟨(⟨
        [],
        c2_a1_s0.tie⟩ : StepState).openList ++
        [⟨(Rat.mk' 4953 2000), (Rat.mk' 2413 2000), 1, ((2, 0)), (
        { f := 0, g := 0, tie := 0, pos := (2, 1), path := [((Rat.mk' 127 50), (Rat.mk' 127 100))] } : Entry).path ++ [((Rat.mk' 127 50), 0)]⟩], 1⟩ : StepState).openList ++
        [⟨(Rat.mk' 10033 2000), (Rat.mk' 2413 2000), 2, ((3, 1)), (
        { f := 0, g := 0, tie := 0, pos := (2, 1), path := [((Rat.mk' 127 50), (Rat.mk' 127 100))] } : Entry).path ++ [((Rat.mk' 381 100), (Rat.mk' 127 100))]⟩], 2⟩ : StepState)
      ((1, 1)) = .cont
      (⟨(⟨(⟨(⟨
        [],
        c2_a1_s0.tie⟩ : StepState).openList ++
        [⟨(Rat.mk' 4953 2000), (Rat.mk' 2413 2000), 1, ((2, 0)), (
        { f := 0, g := 0, tie := 0, pos := (2, 1), path := [((Rat.mk' 127 50), (Rat.mk' 127 100))] } : Entry).path ++ [((Rat.mk' 127 50), 0)]⟩], 1⟩ : StepState).openList ++
        [⟨(Rat.mk' 10033 2000), (Rat.mk' 2413 2000), 2, ((3, 1)), (
        { f := 0, g := 0, tie := 0, pos := (2, 1), path := [((Rat.mk' 127 50), (Rat.mk' 127 100))] } : Entry).path ++ [((Rat.mk' 381 100), (Rat.mk' 127 100))]⟩], 2⟩ : StepState).openList ++
        [⟨(Rat.mk' 127 25), (Rat.mk' 127 100), 3, ((1, 1)), (
        { f := 0, g := 0, tie := 0, pos := (2, 1), path := [((Rat.mk' 127 50), (Rat.mk' 127 100))] } : Entry).path ++ [((Rat.mk' 127 100), (Rat.mk' 127 100))]⟩], 3⟩ : StepState) := by
    exact astarNeighborStep_push_of (by with_unfolding_all decide) (by with_unfolding_all decide)
      (by first | norm_num [Rat.mk'_eq_divInt, Rat.divInt_eq_div, astarObstructed, is_pin_position, near_pin_check, point_in_component, segment_intersects_component, segment_overlaps_any_wire, segments_overlap_parallel, is_horizontal_segment, is_vertical_segment, ranges_overlap, segment_intersects_rect, point_in_rect, clipEdges, euclid_lt, dist_sq, rabs, c2_a1_ctx] | with_unfolding_all decide)
      (by with_unfolding_all decide)
      (by first | norm_num [Rat.mk'_eq_divInt, Rat.divInt_eq_div, astarMoveG, bend_check, bonus_check, wire_mid, manhattan_distance, rabs, c2_a1_ctx] | with_unfolding_all decide)
      (by first | norm_num [Rat.mk'_eq_divInt, Rat.divInt_eq_div, astarF, manhattan_distance, rabs, c2_a1_ctx] | with_unfolding_all decide)
  have hn0x3 : astarNeighborStep c2_a1_ctx
      ((
        { f := 0, g := 0, tie := 0, pos := (2, 1), path := [((Rat.mk' 127 50), (Rat.mk' 127 100))] } : Entry).pos :: c2_a1_s0.closed)
      (
        { f := 0, g := 0, tie := 0, pos := (2, 1), path := [((Rat.mk' 127 50), (Rat.mk' 127 100))] } : Entry).pos (
        ((Rat.mk' 127 50), (Rat.mk' 127 100))) (
        { f := 0, g := 0, tie := 0, pos := (2, 1), path := [((Rat.mk' 127 50), (Rat.mk' 127 100))] } : Entry).path (
        { f := 0, g := 0, tie := 0, pos := (2, 1), path := [((Rat.mk' 127 50), (Rat.mk' 127 100))] } : Entry).g
      (⟨(⟨(⟨(⟨
        [],
        c2_a1_s0.tie⟩ : StepState).openList ++
        [⟨(Rat.mk' 4953 2000), (Rat.mk' 2413 2000), 1, ((2, 0)), (
        { f := 0, g := 0, tie := 0, pos := (2, 1), path := [((Rat.mk' 127 50), (Rat.mk' 127 100))] } : Entry).path ++ [((Rat.mk' 127 50), 0)]⟩], 1⟩ : StepState).openList ++
        [⟨(Rat.mk' 10033 2000), (Rat.mk' 2413 2000), 2, ((3, 1)), (
        { f := 0, g := 0, tie := 0, pos := (2, 1), path := [((Rat.mk' 127 50), (Rat.mk' 127 100))] } : Entry).path ++ [((Rat.mk' 381 100), (Rat.mk' 127 100))]⟩], 2⟩ : StepState).openList ++
        [⟨(Rat.mk' 127 25), (Rat.mk' 127 100), 3, ((1, 1)), (
        { f := 0, g := 0, tie := 0, pos := (2, 1), path := [((Rat.mk' 127 50), (Rat.mk' 127 100))] } : Entry).path ++ [((Rat.mk' 127 100), (Rat.mk' 127 100))]⟩], 3⟩ : StepState)
      ((2, 2)) = .cont
      (⟨(⟨(⟨(⟨(⟨
        [],
        c2_a1_s0.tie⟩ : StepState).openList ++
        [⟨(Rat.mk' 4953 2000), (Rat.mk' 2413 2000), 1, ((2, 0)), (
        { f := 0, g := 0, tie := 0, pos := (2, 1), path := [((Rat.mk' 127 50), (Rat.mk' 127 100))] } : Entry).path ++ [((Rat.mk' 127 50), 0)]⟩], 1⟩ : StepState).openList ++
        [⟨(Rat.mk' 10033 2000), (Rat.mk' 2413 2000), 2, ((3, 1)), (
        { f := 0, g := 0, tie := 0, pos := (2, 1), path := [((Rat.mk' 127 50), (Rat.mk' 127 100))] } : Entry).path ++ [((Rat.mk' 381 100), (Rat.mk' 127 100))]⟩], 2⟩ : StepState).openList ++
        [⟨(Rat.mk' 127 25), (Rat.mk' 127 100), 3, ((1, 1)), (
        { f := 0, g := 0, tie := 0, pos := (2, 1), path := [((Rat.mk' 127 50), (Rat.mk' 127 100))] } : Entry).path ++ [((Rat.mk' 127 100), (Rat.mk' 127 100))]⟩], 3⟩ : StepState).openList ++
        [⟨(Rat.mk' 127 25), (Rat.mk' 127 100), 4, ((2, 2)), (
        { f := 0, g := 0, tie := 0, pos := (2, 1), path := [((Rat.mk' 127 50), (Rat.mk' 127 100))] } : Entry).path ++ [((Rat.mk' 127 50), (Rat.mk' 127 50))]⟩], 4⟩ : StepState) := by
    exact astarNeighborStep_push_of (by with_unfolding_all decide) (by with_unfolding_all decide)
      (by first | norm_num [Rat.mk'_eq_divInt, Rat.divInt_eq_div, astarObstructed, is_pin_position, near_pin_check, point_in_component, segment_intersects_component, segment_overlaps_any_wire, segments_overlap_parallel, is_horizontal_segment, is_vertical_segment, ranges_overlap, segment_intersects_rect, point_in_rect, clipEdges, euclid_lt, dist_sq, rabs, c2_a1_ctx] | with_unfolding_all decide)
      (by with_unfolding_all decide)
      (by first | norm_num [Rat.mk'_eq_divInt, Rat.divInt_eq_div, astarMoveG, bend_check, bonus_check, wire_mid, manhattan_distance, rabs, c2_a1_ctx] | with_unfolding_all decide)
      (by first | norm_num [Rat.mk'_eq_divInt, Rat.divInt_eq_div, astarF, manhattan_distance, rabs, c2_a1_ctx] | with_unfolding_all decide)
  have hfold0 : astarNeighbors c2_a1_ctx
      ((
        { f := 0, g := 0, tie := 0, pos := (2, 1), path := [((Rat.mk' 127 50), (Rat.mk' 127 100))] } : Entry).pos :: c2_a1_s0.closed)
      (
        { f := 0, g := 0, tie := 0, pos := (2, 1), path := [((Rat.mk' 127 50), (Rat.mk' 127 100))] } : Entry).pos (
        ((Rat.mk' 127 50), (Rat.mk' 127 100))) (
        { f := 0, g := 0, tie := 0, pos := (2, 1), path := [((Rat.mk' 127 50), (Rat.mk' 127 100))] } : Entry).path (
        { f := 0, g := 0, tie := 0, pos := (2, 1), path := [((Rat.mk' 127 50), (Rat.mk' 127 100))] } : Entry).g (
        [(2, 0), (3, 1), (1, 1), (2, 2)])
      (⟨
        [],
        c2_a1_s0.tie⟩ : StepState) = .cont
      (⟨(⟨(⟨(⟨(⟨
        [],
        c2_a1_s0.tie⟩ : StepState).openList ++
        [⟨(Rat.mk' 4953 2000), (Rat.mk' 2413 2000), 1, ((2, 0)), (
        { f := 0, g := 0, tie := 0, pos := (2, 1), path := [((Rat.mk' 127 50), (Rat.mk' 127 100))] } : Entry).path ++ [((Rat.mk' 127 50), 0)]⟩], 1⟩ : StepState).openList ++
        [⟨(Rat.mk' 10033 2000), (Rat.mk' 2413 2000), 2, ((3, 1)), (
        { f := 0, g := 0, tie := 0, pos := (2, 1), path := [((Rat.mk' 127 50), (Rat.mk' 127 100))] } : Entry).path ++ [((Rat.mk' 381 100), (Rat.mk' 127 100))]⟩], 2⟩ : StepState).openList ++
        [⟨(Rat.mk' 127 25), (Rat.mk' 127 100), 3, ((1, 1)), (
        { f := 0, g := 0, tie := 0, pos := (2, 1), path := [((Rat.mk' 127 50), (Rat.mk' 127 100))] } : Entry).path ++ [((Rat.mk' 127 100), (Rat.mk' 127 100))]⟩], 3⟩ : StepState).openList ++
        [⟨(Rat.mk' 127 25), (Rat.mk' 127 100), 4, ((2, 2)), (
        { f := 0, g := 0, tie := 0, pos := (2, 1), path := [((Rat.mk' 127 50), (Rat.mk' 127 100))] } : Entry).path ++ [((Rat.mk' 127 50), (Rat.mk' 127 50))]⟩], 4⟩ : StepState) := by
    rw [astarNeighbors_cons hn0x0 _, astarNeighbors_cons hn0x1 _, astarNeighbors_cons hn0x2 _, astarNeighbors_cons hn0x3 _, astarNeighbors_nil]
  have hit0 : astarIter c2_a1_ctx c2_a1_s0 = .next c2_a1_s1 := by
    with_unfolding_all exact astarIter_next_of hpop0 (by with_unfolding_all decide) (by with_unfolding_all decide) hw0 (by with_unfolding_all decide) hns0 hfold0
  rw [astarLoop_next hit0]
  have hpop1 : popMin c2_a1_s1.openList = some (
        { f := (Rat.mk' 4953 2000),
          g := (Rat.mk' 2413 2000),
          tie := 1,
          pos := (2, 0),
          path := [((Rat.mk' 127 50), (Rat.mk' 127 100)), ((Rat.mk' 127 50), 0)] },
        [{ f := (Rat.mk' 10033 2000),
           g := (Rat.mk' 2413 2000),
           tie := 2,
           pos := (3, 1),
           path := [((Rat.mk' 127 50), (Rat.mk' 127 100)), ((Rat.mk' 381 100), (Rat.mk' 127 100))] },
         { f := (Rat.mk' 127 25),
           g := (Rat.mk' 127 100),
           tie := 3,
           pos := (1, 1),
           path := [((Rat.mk' 127 50), (Rat.mk' 127 100)), ((Rat.mk' 127 100), (Rat.mk' 127 100))] },
         { f := (Rat.mk' 127 25),
           g := (Rat.mk' 127 100),
           tie := 4,
           pos := (2, 2),
           path := [((Rat.mk' 127 50), (Rat.mk' 127 100)), ((Rat.mk' 127 50), (Rat.mk' 127 50))] }]) := by
    first
    | norm_num [c2_a1_s1, popMin, entryLt, Rat.mk'_eq_divInt, Rat.divInt_eq_div]
    | with_unfolding_all decide
  have hw1 : grid_to_world (
        { f := (Rat.mk' 4953 2000),
          g := (Rat.mk' 2413 2000),
          tie := 1,
          pos := (2, 0),
          path := [((Rat.mk' 127 50), (Rat.mk' 127 100)), ((Rat.mk' 127 50), 0)] } : Entry).pos c2_a1_ctx.gridSize = (
        ((Rat.mk' 127 50), 0)) := by with_unfolding_all decide
  have hit1 : astarIter c2_a1_ctx c2_a1_s1 = .done (
        (some [((Rat.mk' 127 50), (Rat.mk' 127 100)), ((Rat.mk' 127 50), 0)],
         some (NetRouter.EarlyTermInfo.wire
           { points := [(0, 0), ((Rat.mk' 381 50), 0)], uid := some "W1" }
           (0, 0)
           ((Rat.mk' 381 50), 0)
           ((Rat.mk' 127 50), 0)))) := by
    with_unfolding_all exact astarIter_wire_of hpop1 (by with_unfolding_all decide) (by with_unfolding_all decide) hw1 (by with_unfolding_all decide)
  exact astarLoop_done hit1 _ (by norm_num)

/-- Accumulator state of the c2 scenario after request 1. -/
def c2_s1 : RouteState :=
  { allRoutedWires := [{ points := [(0, 0), ((Rat.mk' 127 50), 0)], uid := some "u1" },
                       { points := [((Rat.mk' 127 50), 0), ((Rat.mk' 381 50), 0)], uid := some "u2" },
                       { points := [((Rat.mk' 127 50), (Rat.mk' 127 100)), ((Rat.mk' 127 50), 0)], uid := some "u3" }],
    allJunctions := [{ at_ := ((Rat.mk' 127 50), 0), uid := "u0" }],
    wiresToRemove := ["W1"],
    existingWires := [((0, 0), (Rat.mk' 381 50), 0),
                      ((0, 0), (Rat.mk' 127 50), 0),
                      (((Rat.mk' 127 50), 0), (Rat.mk' 381 50), 0),
                      (((Rat.mk' 127 50), (Rat.mk' 127 100)), (Rat.mk' 127 50), 0)],
    routedWireDicts := [((0, 0),
                         ((Rat.mk' 127 50), 0),
                         { points := [(0, 0), ((Rat.mk' 127 50), 0)], uid := some "u1" },
                         some "VCC"),
                        (((Rat.mk' 127 50), 0),
                         ((Rat.mk' 381 50), 0),
                         { points := [((Rat.mk' 127 50), 0), ((Rat.mk' 381 50), 0)], uid := some "u2" },
                         some "VCC"),
                        (((Rat.mk' 127 50), (Rat.mk' 127 100)),
                         ((Rat.mk' 127 50), 0),
                         { points := [((Rat.mk' 127 50), (Rat.mk' 127 100)), ((Rat.mk' 127 50), 0)], uid := some "u3" },
                         some "VCC")],
    uidCtr := 4 }

set_option maxHeartbeats 1600000 in
/-- Processing request 1 of the c2 scenario. -/
theorem c2_req1_step :
    processRequest c2_rctx c2_s0 c2_req1 = c2_s1 := by
  unfold processRequest requestPathWires
  rw [c2_req1_astar]
  with_unfolding_all decide

/-- Request 2 of the c2 scenario. -/
def c2_req2 : Point × Point × Option String :=
  (((Rat.mk' 127 25), (Rat.mk' 127 100)), ((Rat.mk' 127 25), (Rat.mk' (-127) 100)), some "VCC")

/-- A* context of request 2 of the c2 scenario. -/
def c2_a2_ctx : AstarCtx :=
  { start := ((Rat.mk' 127 25), (Rat.mk' 127 100)),
    goal := ((Rat.mk' 127 25), (Rat.mk' (-127) 100)),
    startGrid := (4, 1),
    goalGrid := (4, -1),
    bboxes := [],
    existingWires := [((0, 0), (Rat.mk' 381 50), 0),
                      ((0, 0), (Rat.mk' 127 50), 0),
                      (((Rat.mk' 127 50), 0), (Rat.mk' 381 50), 0),
                      (((Rat.mk' 127 50), (Rat.mk' 127 100)), (Rat.mk' 127 50), 0)],
    sameNetWires := [((0, 0), ((Rat.mk' 381 50), 0), { points := [(0, 0), ((Rat.mk' 381 50), 0)], uid := some "W1" }),
                     ((0, 0), ((Rat.mk' 127 50), 0), { points := [(0, 0), ((Rat.mk' 127 50), 0)], uid := some "u1" }),
                     (((Rat.mk' 127 50), 0),
                      ((Rat.mk' 381 50), 0),
                      { points := [((Rat.mk' 127 50), 0), ((Rat.mk' 381 50), 0)], uid := some "u2" }),
                     (((Rat.mk' 127 50), (Rat.mk' 127 100)),
                      ((Rat.mk' 127 50), 0),
                      { points := [((Rat.mk' 127 50), (Rat.mk' 127 100)), ((Rat.mk' 127 50), 0)], uid := some "u3" })],
    pinPositions := [],
    currentNet := some "VCC",
    gridSize := (Rat.mk' 127 100) }

/-- A* state of request 2 of the c2 scenario, after 0 iterations. -/
def c2_a2_s0 : AstarState :=
  { openList := [{ f := 0, g := 0, tie := 0, pos := (4, 1), path := [((Rat.mk' 127 25), (Rat.mk' 127 100))] }],
    closed := [],
    tie := 0 }

/-- A* state of request 2 of the c2 scenario, after 1 iterations. -/
def c2_a2_s1 : AstarState :=
  { openList := [{ f := (Rat.mk' 4953 2000),
                   g := (Rat.mk' 2413 2000),
                   tie := 1,
                   pos := (4, 0),
                   path := [((Rat.mk' 127 25), (Rat.mk' 127 100)), ((Rat.mk' 127 25), 0)] },
                 { f := (Rat.mk' 127 25),
                   g := (Rat.mk' 127 100),
                   tie := 2,
                   pos := (5, 1),
                   path := [((Rat.mk' 127 25), (Rat.mk' 127 100)), ((Rat.mk' 127 20), (Rat.mk' 127 100))] },
                 { f := (Rat.mk' 10033 2000),
                   g := (Rat.mk' 2413 2000),
                   tie := 3,
                   pos := (3, 1),
                   path := [((Rat.mk' 127 25), (Rat.mk' 127 100)), ((Rat.mk' 381 100), (Rat.mk' 127 100))] },
                 { f := (Rat.mk' 127 25),
                   g := (Rat.mk' 127 100),
                   tie := 4,
                   pos := (4, 2),
                   path := [((Rat.mk' 127 25), (Rat.mk' 127 100)), ((Rat.mk' 127 25), (Rat.mk' 127 50))] }],
    closed := [(4, 1)],
    tie := 4 }

set_option maxHeartbeats 4000000 in
/-- The A* run of request 2 of the c2 scenario, iteration by iteration. -/
theorem c2_req2_astar :
    requestAstar c2_rctx c2_s1 c2_req2 =
      (some [((Rat.mk' 127 25), (Rat.mk' 127 100)), ((Rat.mk' 127 25), 0)],
       some (NetRouter.EarlyTermInfo.wire
         { points := [(0, 0), ((Rat.mk' 381 50), 0)], uid := some "W1" }
         (0, 0)
         ((Rat.mk' 381 50), 0)
         ((Rat.mk' 127 25), 0))) := by
  have hsg : world_to_grid c2_req2.1 GRID_SIZE = (4, 1) := by
    first
    | norm_num [c2_req2, world_to_grid, pyRound, GRID_SIZE, Rat.mk'_eq_divInt, Rat.divInt_eq_div, Rat.floor_def']
    | with_unfolding_all decide
  have hgg : world_to_grid c2_req2.2.1 GRID_SIZE = (4, -1) := by
    first
    | norm_num [c2_req2, world_to_grid, pyRound, GRID_SIZE, Rat.mk'_eq_divInt, Rat.divInt_eq_div, Rat.floor_def']
    | with_unfolding_all decide
  have hbridge : requestAstar c2_rctx c2_s1 c2_req2 =
      astarLoop c2_a2_ctx 50000 c2_a2_s0 := by
    unfold requestAstar
    rw [astar_pathfind_loop_of hsg hgg (by with_unfolding_all decide)]
    with_unfolding_all rfl
  rw [hbridge]
  have hpop0 : popMin c2_a2_s0.openList = some (
        { f := 0, g := 0, tie := 0, pos := (4, 1), path := [((Rat.mk' 127 25), (Rat.mk' 127 100))] },
        []) := by
    first
    | norm_num [c2_a2_s0, popMin, entryLt, Rat.mk'_eq_divInt, Rat.divInt_eq_div]
    | with_unfolding_all decide
  have hw0 : grid_to_world (
        { f := 0, g := 0, tie := 0, pos := (4, 1), path := [((Rat.mk' 127 25), (Rat.mk' 127 100))] } : Entry).pos c2_a2_ctx.gridSize = (
        ((Rat.mk' 127 25), (Rat.mk' 127 100))) := by with_unfolding_all decide
  have hns0 : get_neighbors (
        { f := 0, g := 0, tie := 0, pos := (4, 1), path := [((Rat.mk' 127 25), (Rat.mk' 127 100))] } : Entry).pos (some c2_a2_ctx.goalGrid) = (
        [(4, 0), (5, 1), (3, 1), (4, 2)]) := by with_unfolding_all decide
  have hn0x0 : astarNeighborStep c2_a2_ctx
      ((
        { f := 0, g := 0, tie := 0, pos := (4, 1), path := [((Rat.mk' 127 25), (Rat.mk' 127 100))] } : Entry).pos :: c2_a2_s0.closed)
      (
        { f := 0, g := 0, tie := 0, pos := (4, 1), path := [((Rat.mk' 127 25), (Rat.mk' 127 100))] } : Entry).pos (
        ((Rat.mk' 127 25), (Rat.mk' 127 100))) (
        { f := 0, g := 0, tie := 0, pos := (4, 1), path := [((Rat.mk' 127 25), (Rat.mk' 127 100))] } : Entry).path (
        { f := 0, g := 0, tie := 0, pos := (4, 1), path := [((Rat.mk' 127 25), (Rat.mk' 127 100))] } : Entry).g
      (⟨
        [],
        c2_a2_s0.tie⟩ : StepState)
      ((4, 0)) = .cont
      (⟨(⟨
        [],
        c2_a2_s0.tie⟩ : StepState).openList ++
        [⟨(Rat.mk' 4953 2000), (Rat.mk' 2413 2000), 1, ((4, 0)), (
        { f := 0, g := 0, tie := 0, pos := (4, 1), path := [((Rat.mk' 127 25), (Rat.mk' 127 100))] } : Entry).path ++ [((Rat.mk' 127 25), 0)]⟩], 1⟩ : StepState) := by
    exact astarNeighborStep_push_of (by with_unfolding_all decide) (by with_unfolding_all decide)
      (by first | norm_num [Rat.mk'_eq_divInt, Rat.divInt_eq_div, astarObstructed, is_pin_position, near_pin_check, point_in_component, segment_intersects_component, segment_overlaps_any_wire, segments_overlap_parallel, is_horizontal_segment, is_vertical_segment, ranges_overlap, segment_intersects_rect, point_in_rect, clipEdges, euclid_lt, dist_sq, rabs, c2_a2_ctx] | with_unfolding_all decide)
      (by with_unfolding_all decide)
      (by first | norm_num [Rat.mk'_eq_divInt, Rat.divInt_eq_div, astarMoveG, bend_check, bonus_check, wire_mid, manhattan_distance, rabs, c2_a2_ctx] | with_unfolding_all decide)
      (by first | norm_num [Rat.mk'_eq_divInt, Rat.divInt_eq_div, astarF, manhattan_distance, rabs, c2_a2_ctx] | with_unfolding_all decide)
  have hn0x1 : astarNeighborStep c2_a2_ctx
      ((
        { f := 0, g := 0, tie := 0, pos := (4, 1), path := [((Rat.mk' 127 25), (Rat.mk' 127 100))] } : Entry).pos :: c2_a2_s0.closed)
      (
        { f := 0, g := 0, tie := 0, pos := (4, 1), path := [((Rat.mk' 127 25), (Rat.mk' 127 100))] } : Entry).pos (
        ((Rat.mk' 127 25), (Rat.mk' 127 100))) (
        { f := 0, g := 0, tie := 0, pos := (4, 1), path := [((Rat.mk' 127 25), (Rat.mk' 127 100))] } : Entry).path (
        { f := 0, g := 0, tie := 0, pos := (4, 1), path := [((Rat.mk' 127 25), (Rat.mk' 127 100))] } : Entry).g
      (⟨(⟨
        [],
        c2_a2_s0.tie⟩ : StepState).openList ++
        [⟨(Rat.mk' 4953 2000), (Rat.mk' 2413 2000), 1, ((4, 0)), (
        { f := 0, g := 0, tie := 0, pos := (4, 1), path := [((Rat.mk' 127 25), (Rat.mk' 127 100))] } : Entry).path ++ [((Rat.mk' 127 25), 0)]⟩], 1⟩ : StepState)
      ((5, 1)) = .cont
      (⟨(⟨(⟨
        [],
        c2_a2_s0.tie⟩ : StepState).openList ++
        [⟨(Rat.mk' 4953 2000), (Rat.mk' 2413 2000), 1, ((4, 0)), (
        { f := 0, g := 0, tie := 0, pos := (4, 1), path := [((Rat.mk' 127 25), (Rat.mk' 127 100))] } : Entry).path ++ [((Rat.mk' 127 25), 0)]⟩], 1⟩ : StepState).openList ++
        [⟨(Rat.mk' 127 25), (Rat.mk' 127 100), 2, ((5, 1)), (
        { f := 0, g := 0, tie := 0, pos := (4, 1), path := [((Rat.mk' 127 25), (Rat.mk' 127 100))] } : Entry).path ++ [((Rat.mk' 127 20), (Rat.mk' 127 100))]⟩], 2⟩ : StepState) := by
    exact astarNeighborStep_push_of (by with_unfolding_all decide) (by with_unfolding_all decide)
      (by first | norm_num [Rat.mk'_eq_divInt, Rat.divInt_eq_div, astarObstructed, is_pin_position, near_pin_check, point_in_component, segment_intersects_component, segment_overlaps_any_wire, segments_overlap_parallel, is_horizontal_segment, is_vertical_segment, ranges_overlap, segment_intersects_rect, point_in_rect, clipEdges, euclid_lt, dist_sq, rabs, c2_a2_ctx] | with_unfolding_all decide)
      (by with_unfolding_all decide)
      (by first | norm_num [Rat.mk'_eq_divInt, Rat.divInt_eq_div, astarMoveG, bend_check, bonus_check, wire_mid, manhattan_distance, rabs, c2_a2_ctx] | with_unfolding_all decide)
      (by first | norm_num [Rat.mk'_eq_divInt, Rat.divInt_eq_div, astarF, manhattan_distance, rabs, c2_a2_ctx] | with_unfolding_all decide)
  have hn0x2 : astarNeighborStep c2_a2_ctx
      ((
        { f := 0, g := 0, tie := 0, pos := (4, 1), path := [((Rat.mk' 127 25), (Rat.mk' 127 100))] } : Entry).pos :: c2_a2_s0.closed)
      (
        { f := 0, g := 0, tie := 0, pos := (4, 1), path := [((Rat.mk' 127 25), (Rat.mk' 127 100))] } : Entry).pos (
        ((Rat.mk' 127 25), (Rat.mk' 127 100))) (
        { f := 0, g := 0, tie := 0, pos := (4, 1), path := [((Rat.mk' 127 25), (Rat.mk' 127 100))] } : Entry).path (
        { f := 0, g := 0, tie := 0, pos := (4, 1), path := [((Rat.mk' 127 25), (Rat.mk' 127 100))] } : Entry).g
      (⟨(⟨(⟨
        [],
        c2_a2_s0.tie⟩ : StepState).openList ++
        [⟨(Rat.mk' 4953 2000), (Rat.mk' 2413 2000), 1, ((4, 0)), (
        { f := 0, g := 0, tie := 0, pos := (4, 1), path := [((Rat.mk' 127 25), (Rat.mk' 127 100))] } : Entry).path ++ [((Rat.mk' 127 25), 0)]⟩], 1⟩ : StepState).openList ++
        [⟨(Rat.mk' 127 25), (Rat.mk' 127 100), 2, ((5, 1)), (
        { f := 0, g := 0, tie := 0, pos := (4, 1), path := [((Rat.mk' 127 25), (Rat.mk' 127 100))] } : Entry).path ++ [((Rat.mk' 127 20), (Rat.mk' 127 100))]⟩], 2⟩ : StepState)
      ((3, 1)) = .cont
      (⟨(⟨(⟨(⟨
        [],
        c2_a2_s0.tie⟩ : StepState).openList ++
        [⟨(Rat.mk' 4953 2000), (Rat.mk' 2413 2000), 1, ((4, 0)), (
        { f := 0, g := 0, tie := 0, pos := (4, 1), path := [((Rat.mk' 127 25), (Rat.mk' 127 100))] } : Entry).path ++ [((Rat.mk' 127 25), 0)]⟩], 1⟩ : StepState).openList ++
        [⟨(Rat.mk' 127 25), (Rat.mk' 127 100), 2, ((5, 1)), (
        { f := 0, g := 0, tie := 0, pos := (4, 1), path := [((Rat.mk' 127 25), (Rat.mk' 127 100))] } : Entry).path ++ [((Rat.mk' 127 20), (Rat.mk' 127 100))]⟩], 2⟩ : StepState).openList ++
        [⟨(Rat.mk' 10033 2000), (Rat.mk' 2413 2000), 3, ((3, 1)), (
        { f := 0, g := 0, tie := 0, pos := (4, 1), path := [((Rat.mk' 127 25), (Rat.mk' 127 100))] } : Entry).path ++ [((Rat.mk' 381 100), (Rat.mk' 127 100))]⟩], 3⟩ : StepState) := by
    exact astarNeighborStep_push_of (by with_unfolding_all decide) (by with_unfolding_all decide)
      (by first | norm_num [Rat.mk'_eq_divInt, Rat.divInt_eq_div, astarObstructed, is_pin_position, near_pin_check, point_in_component, segment_intersects_component, segment_overlaps_any_wire, segments_overlap_parallel, is_horizontal_segment, is_vertical_segment, ranges_overlap, segment_intersects_rect, point_in_rect, clipEdges, euclid_lt, dist_sq, rabs, c2_a2_ctx] | with_unfolding_all decide)
      (by with_unfolding_all decide)
      (by first | norm_num [Rat.mk'_eq_divInt, Rat.divInt_eq_div, astarMoveG, bend_check, bonus_check, wire_mid, manhattan_distance, rabs, c2_a2_ctx] | with_unfolding_all decide)
      (by first | norm_num [Rat.mk'_eq_divInt, Rat.divInt_eq_div, astarF, manhattan_distance, rabs, c2_a2_ctx] | with_unfolding_all decide)
  have hn0x3 : astarNeighborStep c2_a2_ctx
      ((
        { f := 0, g := 0, tie := 0, pos := (4, 1), path := [((Rat.mk' 127 25), (Rat.mk' 127 100))] } : Entry).pos :: c2_a2_s0.closed)
      (
        { f := 0, g := 0, tie := 0, pos := (4, 1), path := [((Rat.mk' 127 25), (Rat.mk' 127 100))] } : Entry).pos (
        ((Rat.mk' 127 25), (Rat.mk' 127 100))) (
        { f := 0, g := 0, tie := 0, pos := (4, 1), path := [((Rat.mk' 127 25), (Rat.mk' 127 100))] } : Entry).path (
        { f := 0, g := 0, tie := 0, pos := (4, 1), path := [((Rat.mk' 127 25), (Rat.mk' 127 100))] } : Entry).g
      (⟨(⟨(⟨(⟨
        [],
        c2_a2_s0.tie⟩ : StepState).openList ++
        [⟨(Rat.mk' 4953 2000), (Rat.mk' 2413 2000), 1, ((4, 0)), (
        { f := 0, g := 0, tie := 0, pos := (4, 1), path := [((Rat.mk' 127 25), (Rat.mk' 127 100))] } : Entry).path ++ [((Rat.mk' 127 25), 0)]⟩], 1⟩ : StepState).openList ++
        [⟨(Rat.mk' 127 25), (Rat.mk' 127 100), 2, ((5, 1)), (
        { f := 0, g := 0, tie := 0, pos := (4, 1), path := [((Rat.mk' 127 25), (Rat.mk' 127 100))] } : Entry).path ++ [((Rat.mk' 127 20), (Rat.mk' 127 100))]⟩], 2⟩ : StepState).openList ++
        [⟨(Rat.mk' 10033 2000), (Rat.mk' 2413 2000), 3, ((3, 1)), (
        { f := 0, g := 0, tie := 0, pos := (4, 1), path := [((Rat.mk' 127 25), (Rat.mk' 127 100))] } : Entry).path ++ [((Rat.mk' 381 100), (Rat.mk' 127 100))]⟩], 3⟩ : StepState)
      ((4, 2)) = .cont
      (⟨(⟨(⟨(⟨(⟨
        [],
        c2_a2_s0.tie⟩ : StepState).openList ++
        [⟨(Rat.mk' 4953 2000), (Rat.mk' 2413 2000), 1, ((4, 0)), (
        { f := 0, g := 0, tie := 0, pos := (4, 1), path := [((Rat.mk' 127 25), (Rat.mk' 127 100))] } : Entry).path ++ [((Rat.mk' 127 25), 0)]⟩], 1⟩ : StepState).openList ++
        [⟨(Rat.mk' 127 25), (Rat.mk' 127 100), 2, ((5, 1)), (
        { f := 0, g := 0, tie := 0, pos := (4, 1), path := [((Rat.mk' 127 25), (Rat.mk' 127 100))] } : Entry).path ++ [((Rat.mk' 127 20), (Rat.mk' 127 100))]⟩], 2⟩ : StepState).openList ++
        [⟨(Rat.mk' 10033 2000), (Rat.mk' 2413 2000), 3, ((3, 1)), (
        { f := 0, g := 0, tie := 0, pos := (4, 1), path := [((Rat.mk' 127 25), (Rat.mk' 127 100))] } : Entry).path ++ [((Rat.mk' 381 100), (Rat.mk' 127 100))]⟩], 3⟩ : StepState).openList ++
        [⟨(Rat.mk' 127 25), (Rat.mk' 127 100), 4, ((4, 2)), (
        { f := 0, g := 0, tie := 0, pos := (4, 1), path := [((Rat.mk' 127 25), (Rat.mk' 127 100))] } : Entry).path ++ [((Rat.mk' 127 25), (Rat.mk' 127 50))]⟩], 4⟩ : StepState) := by
    exact astarNeighborStep_push_of (by with_unfolding_all decide) (by with_unfolding_all decide)
      (by first | norm_num [Rat.mk'_eq_divInt, Rat.divInt_eq_div, astarObstructed, is_pin_position, near_pin_check, point_in_component, segment_intersects_component, segment_overlaps_any_wire, segments_overlap_parallel, is_horizontal_segment, is_vertical_segment, ranges_overlap, segment_intersects_rect, point_in_rect, clipEdges, euclid_lt, dist_sq, rabs, c2_a2_ctx] | with_unfolding_all decide)
      (by with_unfolding_all decide)
      (by first | norm_num [Rat.mk'_eq_divInt, Rat.divInt_eq_div, astarMoveG, bend_check, bonus_check, wire_mid, manhattan_distance, rabs, c2_a2_ctx] | with_unfolding_all decide)
      (by first | norm_num [Rat.mk'_eq_divInt, Rat.divInt_eq_div, astarF, manhattan_distance, rabs, c2_a2_ctx] | with_unfolding_all decide)
  have hfold0 : astarNeighbors c2_a2_ctx
      ((
        { f := 0, g := 0, tie := 0, pos := (4, 1), path := [((Rat.mk' 127 25), (Rat.mk' 127 100))] } : Entry).pos :: c2_a2_s0.closed)
      (
        { f := 0, g := 0, tie := 0, pos := (4, 1), path := [((Rat.mk' 127 25), (Rat.mk' 127 100))] } : Entry).pos (
        ((Rat.mk' 127 25), (Rat.mk' 127 100))) (
        { f := 0, g := 0, tie := 0, pos := (4, 1), path := [((Rat.mk' 127 25), (Rat.mk' 127 100))] } : Entry).path (
        { f := 0, g := 0, tie := 0, pos := (4, 1), path := [((Rat.mk' 127 25), (Rat.mk' 127 100))] } : Entry).g (
        [(4, 0), (5, 1), (3, 1), (4, 2)])
      (⟨
        [],
        c2_a2_s0.tie⟩ : StepState) = .cont
      (⟨(⟨(⟨(⟨(⟨
        [],
        c2_a2_s0.tie⟩ : StepState).openList ++
        [⟨(Rat.mk' 4953 2000), (Rat.mk' 2413 2000), 1, ((4, 0)), (
        { f := 0, g := 0, tie := 0, pos := (4, 1), path := [((Rat.mk' 127 25), (Rat.mk' 127 100))] } : Entry).path ++ [((Rat.mk' 127 25), 0)]⟩], 1⟩ : StepState).openList ++
        [⟨(Rat.mk' 127 25), (Rat.mk' 127 100), 2, ((5, 1)), (
        { f := 0, g := 0, tie := 0, pos := (4, 1), path := [((Rat.mk' 127 25), (Rat.mk' 127 100))] } : Entry).path ++ [((Rat.mk' 127 20), (Rat.mk' 127 100))]⟩], 2⟩ : StepState).openList ++
        [⟨(Rat.mk' 10033 2000), (Rat.mk' 2413 2000), 3, ((3, 1)), (
        { f := 0, g := 0, tie := 0, pos := (4, 1), path := [((Rat.mk' 127 25), (Rat.mk' 127 100))] } : Entry).path ++ [((Rat.mk' 381 100), (Rat.mk' 127 100))]⟩], 3⟩ : StepState).openList ++
        [⟨(Rat.mk' 127 25), (Rat.mk' 127 100), 4, ((4, 2)), (
        { f := 0, g := 0, tie := 0, pos := (4, 1), path := [((Rat.mk' 127 25), (Rat.mk' 127 100))] } : Entry).path ++ [((Rat.mk' 127 25), (Rat.mk' 127 50))]⟩], 4⟩ : StepState) := by
    rw [astarNeighbors_cons hn0x0 _, astarNeighbors_cons hn0x1 _, astarNeighbors_cons hn0x2 _, astarNeighbors_cons hn0x3 _, astarNeighbors_nil]
  have hit0 : astarIter c2_a2_ctx c2_a2_s0 = .next c2_a2_s1 := by
    with_unfolding_all exact astarIter_next_of hpop0 (by with_unfolding_all decide) (by with_unfolding_all decide) hw0 (by with_unfolding_all decide) hns0 hfold0
  rw [astarLoop_next hit0]
  have hpop1 : popMin c2_a2_s1.openList = some (
        { f := (Rat.mk' 4953 2000),
          g := (Rat.mk' 2413 2000),
          tie := 1,
          pos := (4, 0),
          path := [((Rat.mk' 127 25), (Rat.mk' 127 100)), ((Rat.mk' 127 25), 0)] },
        [{ f := (Rat.mk' 127 25),
           g := (Rat.mk' 127 100),
           tie := 2,
           pos := (5, 1),
           path := [((Rat.mk' 127 25), (Rat.mk' 127 100)), ((Rat.mk' 127 20), (Rat.mk' 127 100))] },
         { f := (Rat.mk' 10033 2000),
           g := (Rat.mk' 2413 2000),
           tie := 3,
           pos := (3, 1),
           path := [((Rat.mk' 127 25), (Rat.mk' 127 100)), ((Rat.mk' 381 100), (Rat.mk' 127 100))] },
         { f := (Rat.mk' 127 25),
           g := (Rat.mk' 127 100),
           tie := 4,
           pos := (4, 2),
           path := [((Rat.mk' 127 25), (Rat.mk' 127 100)), ((Rat.mk' 127 25), (Rat.mk' 127 50))] }]) := by
    first
    | norm_num [c2_a2_s1, popMin, entryLt, Rat.mk'_eq_divInt, Rat.divInt_eq_div]
    | with_unfolding_all decide
  have hw1 : grid_to_world (
        { f := (Rat.mk' 4953 2000),
          g := (Rat.mk' 2413 2000),
          tie := 1,
          pos := (4, 0),
          path := [((Rat.mk' 127 25), (Rat.mk' 127 100)), ((Rat.mk' 127 25), 0)] } : Entry).pos c2_a2_ctx.gridSize = (
        ((Rat.mk' 127 25), 0)) := by with_unfolding_all decide
  have hit1 : astarIter c2_a2_ctx c2_a2_s1 = .done (
        (some [((Rat.mk' 127 25), (Rat.mk' 127 100)), ((Rat.mk' 127 25), 0)],
         some (NetRouter.EarlyTermInfo.wire
           { points := [(0, 0), ((Rat.mk' 381 50), 0)], uid := some "W1" }
           (0, 0)
           ((Rat.mk' 381 50), 0)
           ((Rat.mk' 127 25), 0)))) := by
    with_unfolding_all exact astarIter_wire_of hpop1 (by with_unfolding_all decide) (by with_unfolding_all decide) hw1 (by with_unfolding_all decide)
  exact astarLoop_done hit1 _ (by norm_num)

/-- Accumulator state of the c2 scenario after request 2. -/
def c2_s2 : RouteState :=
  { allRoutedWires := [{ points := [(0, 0), ((Rat.mk' 127 50), 0)], uid := some "u1" },
                       { points := [((Rat.mk' 127 50), 0), ((Rat.mk' 381 50), 0)], uid := some "u2" },
                       { points := [((Rat.mk' 127 50), (Rat.mk' 127 100)), ((Rat.mk' 127 50), 0)], uid := some "u3" },
                       { points := [(0, 0), ((Rat.mk' 127 25), 0)], uid := some "u5" },
                       { points := [((Rat.mk' 127 25), 0), ((Rat.mk' 381 50), 0)], uid := some "u6" },
                       { points := [((Rat.mk' 127 25), (Rat.mk' 127 100)), ((Rat.mk' 127 25), 0)], uid := some "u7" }],
    allJunctions := [{ at_ := ((Rat.mk' 127 50), 0), uid := "u0" }, { at_ := ((Rat.mk' 127 25), 0), uid := "u4" }],
    wiresToRemove := ["W1", "W1"],
    existingWires := [((0, 0), (Rat.mk' 381 50), 0),
                      ((0, 0), (Rat.mk' 127 50), 0),
                      (((Rat.mk' 127 50), 0), (Rat.mk' 381 50), 0),
                      (((Rat.mk' 127 50), (Rat.mk' 127 100)), (Rat.mk' 127 50), 0),
                      ((0, 0), (Rat.mk' 127 25), 0),
                      (((Rat.mk' 127 25), 0), (Rat.mk' 381 50), 0),
                      (((Rat.mk' 127 25), (Rat.mk' 127 100)), (Rat.mk' 127 25), 0)],
    routedWireDicts := [((0, 0),
                         ((Rat.mk' 127 50), 0),
                         { points := [(0, 0), ((Rat.mk' 127 50), 0)], uid := some "u1" },
                         some "VCC"),
                        (((Rat.mk' 127 50), 0),
                         ((Rat.mk' 381 50), 0),
                         { points := [((Rat.mk' 127 50), 0), ((Rat.mk' 381 50), 0)], uid := some "u2" },
                         some "VCC"),
                        (((Rat.mk' 127 50), (Rat.mk' 127 100)),
                         ((Rat.mk' 127 50), 0),
                         { points := [((Rat.mk' 127 50), (Rat.mk' 127 100)), ((Rat.mk' 127 50), 0)], uid := some "u3" },
                         some "VCC"),
                        ((0, 0),
                         ((Rat.mk' 127 25), 0),
                         { points := [(0, 0), ((Rat.mk' 127 25), 0)], uid := some "u5" },
                         some "VCC"),
                        (((Rat.mk' 127 25), 0),
                         ((Rat.mk' 381 50), 0),
                         { points := [((Rat.mk' 127 25), 0), ((Rat.mk' 381 50), 0)], uid := some "u6" },
                         some "VCC"),
                        (((Rat.mk' 127 25), (Rat.mk' 127 100)),
                         ((Rat.mk' 127 25), 0),
                         { points := [((Rat.mk' 127 25), (Rat.mk' 127 100)), ((Rat.mk' 127 25), 0)], uid := some "u7" },
                         some "VCC")],
    uidCtr := 8 }

set_option maxHeartbeats 1600000 in
/-- Processing request 2 of the c2 scenario. -/
theorem c2_req2_step :
    processRequest c2_rctx c2_s1 c2_req2 = c2_s2 := by
  unfold processRequest requestPathWires
  rw [c2_req2_astar]
  with_unfolding_all decide

/-- The c2 scenario batch. -/
def c2_pairs : List (Point × Point × Option String) := [c2_req1, c2_req2]

set_option maxHeartbeats 1600000 in
/-- Full evaluation of `route_cwires` on the c2 scenario. -/
theorem c2_route_eval :
    route_cwires c2_pairs c2_trace ([] : List (String × Unit)) trivialTransform trivialExtract =
      ([{ points := [(0, 0), ((Rat.mk' 127 50), 0)], uid := some "u1" },
        { points := [((Rat.mk' 127 50), 0), ((Rat.mk' 381 50), 0)], uid := some "u2" },
        { points := [((Rat.mk' 127 50), (Rat.mk' 127 100)), ((Rat.mk' 127 50), 0)], uid := some "u3" },
        { points := [(0, 0), ((Rat.mk' 127 25), 0)], uid := some "u5" },
        { points := [((Rat.mk' 127 25), 0), ((Rat.mk' 381 50), 0)], uid := some "u6" },
        { points := [((Rat.mk' 127 25), (Rat.mk' 127 100)), ((Rat.mk' 127 25), 0)], uid := some "u7" }],
       [{ at_ := ((Rat.mk' 127 50), 0), uid := "u0" }, { at_ := ((Rat.mk' 127 25), 0), uid := "u4" }],
       ["W1", "W1"]) := by
  have hloop : routeLoop c2_rctx c2_s0 c2_pairs = c2_s2 := by
    rw [show routeLoop c2_rctx c2_s0 c2_pairs =
        routeLoop c2_rctx (processRequest c2_rctx c2_s0 c2_req1) [c2_req2] from rfl,
      c2_req1_step]
    rw [show routeLoop c2_rctx c2_s1 [c2_req2] =
        routeLoop c2_rctx (processRequest c2_rctx c2_s1 c2_req2) [] from rfl,
      c2_req2_step]
    rfl
  have hbr : route_cwires c2_pairs c2_trace ([] : List (String × Unit)) trivialTransform trivialExtract =
      ((routeLoop c2_rctx c2_s0 c2_pairs).allRoutedWires,
       (routeLoop c2_rctx c2_s0 c2_pairs).allJunctions,
       (routeLoop c2_rctx c2_s0 c2_pairs).wiresToRemove) := by
    with_unfolding_all rfl
  rw [hbr, hloop]
  with_unfolding_all decide

/-- Derived batch context of the c3 scenario. -/
def c3_rctx : RouteCtx :=
  { componentBboxes := [], allPinPositions := [], wireToNet := [], existingWireDicts := [] }

/-- Initial accumulator state of the c3 scenario. -/
def c3_s0 : RouteState :=
  { allRoutedWires := [],
    allJunctions := [],
    wiresToRemove := [],
    existingWires := [],
    routedWireDicts := [],
    uidCtr := 0 }

/-- Request 1 of the c3 scenario. -/
def c3_req1 : Point × Point × Option String :=
  ((0, 0), ((Rat.mk' 127 50), 0), some "VCC")

/-- A* context of request 1 of the c3 scenario. -/
def c3_a1_ctx : AstarCtx :=
  { start := (0, 0),
    goal := ((Rat.mk' 127 50), 0),
    startGrid := (0, 0),
    goalGrid := (2, 0),
    bboxes := [],
    existingWires := [],
    sameNetWires := [],
    pinPositions := [],
    currentNet := some "VCC",
    gridSize := (Rat.mk' 127 100) }

/-- A* state of request 1 of the c3 scenario, after 0 iterations. -/
def c3_a1_s0 : AstarState :=
  { openList := [{ f := 0, g := 0, tie := 0, pos := (0, 0), path := [(0, 0)] }], closed := [], tie := 0 }

/-- A* state of request 1 of the c3 scenario, after 1 iterations. -/
def c3_a1_s1 : AstarState :=
  { openList := [{ f := (Rat.mk' 127 50),
                   g := (Rat.mk' 127 100),
                   tie := 1,
                   pos := (1, 0),
                   path := [(0, 0), ((Rat.mk' 127 100), 0)] },
                 { f := (Rat.mk' 127 25),
                   g := (Rat.mk' 127 100),
                   tie := 2,
                   pos := (-1, 0),
                   path := [(0, 0), ((Rat.mk' (-127) 100), 0)] },
                 { f := (Rat.mk' 127 25),
                   g := (Rat.mk' 127 100),
                   tie := 3,
                   pos := (0, 1),
                   path := [(0, 0), (0, (Rat.mk' 127 100))] },
                 { f := (Rat.mk' 127 25),
                   g := (Rat.mk' 127 100),
                   tie := 4,
                   pos := (0, -1),
                   path := [(0, 0), (0, (Rat.mk' (-127) 100))] }],
    closed := [(0, 0)],
    tie := 4 }

/-- A* state of request 1 of the c3 scenario, after 2 iterations. -/
def c3_a1_s2 : AstarState :=
  { openList := [{ f := (Rat.mk' 127 25),
                   g := (Rat.mk' 127 100),
                   tie := 2,
                   pos := (-1, 0),
                   path := [(0, 0), ((Rat.mk' (-127) 100), 0)] },
                 { f := (Rat.mk' 127 25),
                   g := (Rat.mk' 127 100),
                   tie := 3,
                   pos := (0, 1),
                   path := [(0, 0), (0, (Rat.mk' 127 100))] },
                 { f := (Rat.mk' 127 25),
                   g := (Rat.mk' 127 100),
                   tie := 4,
                   pos := (0, -1),
                   path := [(0, 0), (0, (Rat.mk' (-127) 100))] },
                 { f := (Rat.mk' 127 50),
                   g := (Rat.mk' 127 50),
                   tie := 5,
                   pos := (2, 0),
                   path := [(0, 0), ((Rat.mk' 127 100), 0), ((Rat.mk' 127 50), 0)] },
                 { f := (Rat.mk' 5207 1000),
                   g := (Rat.mk' 2667 1000),
                   tie := 6,
                   pos := (1, 1),
                   path := [(0, 0), ((Rat.mk' 127 100), 0), ((Rat.mk' 127 100), (Rat.mk' 127 100))] },
                 { f := (Rat.mk' 5207 1000),
                   g := (Rat.mk' 2667 1000),
                   tie := 7,
                   pos := (1, -1),
                   path := [(0, 0), ((Rat.mk' 127 100), 0), ((Rat.mk' 127 100), (Rat.mk' (-127) 100))] }],
    closed := [(1, 0), (0, 0)],
    tie := 7 }

set_option maxHeartbeats 4000000 in
/-- The A* run of request 1 of the c3 scenario, iteration by iteration. -/
theorem c3_req1_astar :
    requestAstar c3_rctx c3_s0 c3_req1 =
      (some [(0, 0), ((Rat.mk' 127 100), 0), ((Rat.mk' 127 50), 0), ((Rat.mk' 127 50), 0)], none) := by
  have hsg : world_to_grid c3_req1.1 GRID_SIZE = (0, 0) := by
    first
    | norm_num [c3_req1, world_to_grid, pyRound, GRID_SIZE, Rat.mk'_eq_divInt, Rat.divInt_eq_div, Rat.floor_def']
    | with_unfolding_all decide
  have hgg : world_to_grid c3_req1.2.1 GRID_SIZE = (2, 0) := by
    first
    | norm_num [c3_req1, world_to_grid, pyRound, GRID_SIZE, Rat.mk'_eq_divInt, Rat.divInt_eq_div, Rat.floor_def']
    | with_unfolding_all decide
  have hbridge : requestAstar c3_rctx c3_s0 c3_req1 =
      astarLoop c3_a1_ctx 50000 c3_a1_s0 := by
    unfold requestAstar
    rw [astar_pathfind_loop_of hsg hgg (by with_unfolding_all decide)]
    with_unfolding_all rfl
  rw [hbridge]
  have hpop0 : popMin c3_a1_s0.openList = some (
        { f := 0, g := 0, tie := 0, pos := (0, 0), path := [(0, 0)] },
        []) := by
    first
    | norm_num [c3_a1_s0, popMin, entryLt, Rat.mk'_eq_divInt, Rat.divInt_eq_div]
    | with_unfolding_all decide
  have hw0 : grid_to_world (
        { f := 0, g := 0, tie := 0, pos := (0, 0), path := [(0, 0)] } : Entry).pos c3_a1_ctx.gridSize = (
        (0, 0)) := by with_unfolding_all decide
  have hns0 : get_neighbors (
        { f := 0, g := 0, tie := 0, pos := (0, 0), path := [(0, 0)] } : Entry).pos (some c3_a1_ctx.goalGrid) = (
        [(1, 0), (-1, 0), (0, 1), (0, -1)]) := by with_unfolding_all decide
  have hn0x0 : astarNeighborStep c3_a1_ctx
      ((
        { f := 0, g := 0, tie := 0, pos := (0, 0), path := [(0, 0)] } : Entry).pos :: c3_a1_s0.closed)
      (
        { f := 0, g := 0, tie := 0, pos := (0, 0), path := [(0, 0)] } : Entry).pos (
        (0, 0)) (
        { f := 0, g := 0, tie := 0, pos := (0, 0), path := [(0, 0)] } : Entry).path (
        { f := 0, g := 0, tie := 0, pos := (0, 0), path := [(0, 0)] } : Entry).g
      (⟨
        [],
        c3_a1_s0.tie⟩ : StepState)
      ((1, 0)) = .cont
      (⟨(⟨
        [],
        c3_a1_s0.tie⟩ : StepState).openList ++
        [⟨(Rat.mk' 127 50), (Rat.mk' 127 100), 1, ((1, 0)), (
        { f := 0, g := 0, tie := 0, pos := (0, 0), path := [(0, 0)] } : Entry).path ++ [((Rat.mk' 127 100), 0)]⟩], 1⟩ : StepState) := by
    exact astarNeighborStep_push_of (by with_unfolding_all decide) (by with_unfolding_all decide)
      (by first | norm_num [Rat.mk'_eq_divInt, Rat.divInt_eq_div, astarObstructed, is_pin_position, near_pin_check, point_in_component, segment_intersects_component, segment_overlaps_any_wire, segments_overlap_parallel, is_horizontal_segment, is_vertical_segment, ranges_overlap, segment_intersects_rect, point_in_rect, clipEdges, euclid_lt, dist_sq, rabs, c3_a1_ctx] | with_unfolding_all decide)
      (by with_unfolding_all decide)
      (by first | norm_num [Rat.mk'_eq_divInt, Rat.divInt_eq_div, astarMoveG, bend_check, bonus_check, wire_mid, manhattan_distance, rabs, c3_a1_ctx] | with_unfolding_all decide)
      (by first | norm_num [Rat.mk'_eq_divInt, Rat.divInt_eq_div, astarF, manhattan_distance, rabs, c3_a1_ctx] | with_unfolding_all decide)
  have hn0x1 : astarNeighborStep c3_a1_ctx
      ((
        { f := 0, g := 0, tie := 0, pos := (0, 0), path := [(0, 0)] } : Entry).pos :: c3_a1_s0.closed)
      (
        { f := 0, g := 0, tie := 0, pos := (0, 0), path := [(0, 0)] } : Entry).pos (
        (0, 0)) (
        { f := 0, g := 0, tie := 0, pos := (0, 0), path := [(0, 0)] } : Entry).path (
        { f := 0, g := 0, tie := 0, pos := (0, 0), path := [(0, 0)] } : Entry).g
      (⟨(⟨
        [],
        c3_a1_s0.tie⟩ : StepState).openList ++
        [⟨(Rat.mk' 127 50), (Rat.mk' 127 100), 1, ((1, 0)), (
        { f := 0, g := 0, tie := 0, pos := (0, 0), path := [(0, 0)] } : Entry).path ++ [((Rat.mk' 127 100), 0)]⟩], 1⟩ : StepState)
      ((-1, 0)) = .cont
      (⟨(⟨(⟨
        [],
        c3_a1_s0.tie⟩ : StepState).openList ++
        [⟨(Rat.mk' 127 50), (Rat.mk' 127 100), 1, ((1, 0)), (
        { f := 0, g := 0, tie := 0, pos := (0, 0), path := [(0, 0)] } : Entry).path ++ [((Rat.mk' 127 100), 0)]⟩], 1⟩ : StepState).openList ++
        [⟨(Rat.mk' 127 25), (Rat.mk' 127 100), 2, ((-1, 0)), (
        { f := 0, g := 0, tie := 0, pos := (0, 0), path := [(0, 0)] } : Entry).path ++ [((Rat.mk' (-127) 100), 0)]⟩], 2⟩ : StepState) := by
    exact astarNeighborStep_push_of (by with_unfolding_all decide) (by with_unfolding_all decide)
      (by first | norm_num [Rat.mk'_eq_divInt, Rat.divInt_eq_div, astarObstructed, is_pin_position, near_pin_check, point_in_component, segment_intersects_component, segment_overlaps_any_wire, segments_overlap_parallel, is_horizontal_segment, is_vertical_segment, ranges_overlap, segment_intersects_rect, point_in_rect, clipEdges, euclid_lt, dist_sq, rabs, c3_a1_ctx] | with_unfolding_all decide)
      (by with_unfolding_all decide)
      (by first | norm_num [Rat.mk'_eq_divInt, Rat.divInt_eq_div, astarMoveG, bend_check, bonus_check, wire_mid, manhattan_distance, rabs, c3_a1_ctx] | with_unfolding_all decide)
      (by first | norm_num [Rat.mk'_eq_divInt, Rat.divInt_eq_div, astarF, manhattan_distance, rabs, c3_a1_ctx] | with_unfolding_all decide)
  have hn0x2 : astarNeighborStep c3_a1_ctx
      ((
        { f := 0, g := 0, tie := 0, pos := (0, 0), path := [(0, 0)] } : Entry).pos :: c3_a1_s0.closed)
      (
        { f := 0, g := 0, tie := 0, pos := (0, 0), path := [(0, 0)] } : Entry).pos (
        (0, 0)) (
        { f := 0, g := 0, tie := 0, pos := (0, 0), path := [(0, 0)] } : Entry).path (
        { f := 0, g := 0, tie := 0, pos := (0, 0), path := [(0, 0)] } : Entry).g
      (⟨(⟨(⟨
        [],
        c3_a1_s0.tie⟩ : StepState).openList ++
        [⟨(Rat.mk' 127 50), (Rat.mk' 127 100), 1, ((1, 0)), (
        { f := 0, g := 0, tie := 0, pos := (0, 0), path := [(0, 0)] } : Entry).path ++ [((Rat.mk' 127 100), 0)]⟩], 1⟩ : StepState).openList ++
        [⟨(Rat.mk' 127 25), (Rat.mk' 127 100), 2, ((-1, 0)), (
        { f := 0, g := 0, tie := 0, pos := (0, 0), path := [(0, 0)] } : Entry).path ++ [((Rat.mk' (-127) 100), 0)]⟩], 2⟩ : StepState)
      ((0, 1)) = .cont
      (⟨(⟨(⟨(⟨
        [],
        c3_a1_s0.tie⟩ : StepState).openList ++
        [⟨(Rat.mk' 127 50), (Rat.mk' 127 100), 1, ((1, 0)), (
        { f := 0, g := 0, tie := 0, pos := (0, 0), path := [(0, 0)] } : Entry).path ++ [((Rat.mk' 127 100), 0)]⟩], 1⟩ : StepState).openList ++
        [⟨(Rat.mk' 127 25), (Rat.mk' 127 100), 2, ((-1, 0)), (
        { f := 0, g := 0, tie := 0, pos := (0, 0), path := [(0, 0)] } : Entry).path ++ [((Rat.mk' (-127) 100), 0)]⟩], 2⟩ : StepState).openList ++
        [⟨(Rat.mk' 127 25), (Rat.mk' 127 100), 3, ((0, 1)), (
        { f := 0, g := 0, tie := 0, pos := (0, 0), path := [(0, 0)] } : Entry).path ++ [(0, (Rat.mk' 127 100))]⟩], 3⟩ : StepState) := by
    exact astarNeighborStep_push_of (by with_unfolding_all decide) (by with_unfolding_all decide)
      (by first | norm_num [Rat.mk'_eq_divInt, Rat.divInt_eq_div, astarObstructed, is_pin_position, near_pin_check, point_in_component, segment_intersects_component, segment_overlaps_any_wire, segments_overlap_parallel, is_horizontal_segment, is_vertical_segment, ranges_overlap, segment_intersects_rect, point_in_rect, clipEdges, euclid_lt, dist_sq, rabs, c3_a1_ctx] | with_unfolding_all decide)
      (by with_unfolding_all decide)
      (by first | norm_num [Rat.mk'_eq_divInt, Rat.divInt_eq_div, astarMoveG, bend_check, bonus_check, wire_mid, manhattan_distance, rabs, c3_a1_ctx] | with_unfolding_all decide)
      (by first | norm_num [Rat.mk'_eq_divInt, Rat.divInt_eq_div, astarF, manhattan_distance, rabs, c3_a1_ctx] | with_unfolding_all decide)
  have hn0x3 : astarNeighborStep c3_a1_ctx
      ((
        { f := 0, g := 0, tie := 0, pos := (0, 0), path := [(0, 0)] } : Entry).pos :: c3_a1_s0.closed)
      (
        { f := 0, g := 0, tie := 0, pos := (0, 0), path := [(0, 0)] } : Entry).pos (
        (0, 0)) (
        { f := 0, g := 0, tie := 0, pos := (0, 0), path := [(0, 0)] } : Entry).path (
        { f := 0, g := 0, tie := 0, pos := (0, 0), path := [(0, 0)] } : Entry).g
      (⟨(⟨(⟨(⟨
        [],
        c3_a1_s0.tie⟩ : StepState).openList ++
        [⟨(Rat.mk' 127 50), (Rat.mk' 127 100), 1, ((1, 0)), (
        { f := 0, g := 0, tie := 0, pos := (0, 0), path := [(0, 0)] } : Entry).path ++ [((Rat.mk' 127 100), 0)]⟩], 1⟩ : StepState).openList ++
        [⟨(Rat.mk' 127 25), (Rat.mk' 127 100), 2, ((-1, 0)), (
        { f := 0, g := 0, tie := 0, pos := (0, 0), path := [(0, 0)] } : Entry).path ++ [((Rat.mk' (-127) 100), 0)]⟩], 2⟩ : StepState).openList ++
        [⟨(Rat.mk' 127 25), (Rat.mk' 127 100), 3, ((0, 1)), (
        { f := 0, g := 0, tie := 0, pos := (0, 0), path := [(0, 0)] } : Entry).path ++ [(0, (Rat.mk' 127 100))]⟩], 3⟩ : StepState)
      ((0, -1)) = .cont
      (⟨(⟨(⟨(⟨(⟨
        [],
        c3_a1_s0.tie⟩ : StepState).openList ++
        [⟨(Rat.mk' 127 50), (Rat.mk' 127 100), 1, ((1, 0)), (
        { f := 0, g := 0, tie := 0, pos := (0, 0), path := [(0, 0)] } : Entry).path ++ [((Rat.mk' 127 100), 0)]⟩], 1⟩ : StepState).openList ++
        [⟨(Rat.mk' 127 25), (Rat.mk' 127 100), 2, ((-1, 0)), (
        { f := 0, g := 0, tie := 0, pos := (0, 0), path := [(0, 0)] } : Entry).path ++ [((Rat.mk' (-127) 100), 0)]⟩], 2⟩ : StepState).openList ++
        [⟨(Rat.mk' 127 25), (Rat.mk' 127 100), 3, ((0, 1)), (
        { f := 0, g := 0, tie := 0, pos := (0, 0), path := [(0, 0)] } : Entry).path ++ [(0, (Rat.mk' 127 100))]⟩], 3⟩ : StepState).openList ++
        [⟨(Rat.mk' 127 25), (Rat.mk' 127 100), 4, ((0, -1)), (
        { f := 0, g := 0, tie := 0, pos := (0, 0), path := [(0, 0)] } : Entry).path ++ [(0, (Rat.mk' (-127) 100))]⟩], 4⟩ : StepState) := by
    exact astarNeighborStep_push_of (by with_unfolding_all decide) (by with_unfolding_all decide)
      (by first | norm_num [Rat.mk'_eq_divInt, Rat.divInt_eq_div, astarObstructed, is_pin_position, near_pin_check, point_in_component, segment_intersects_component, segment_overlaps_any_wire, segments_overlap_parallel, is_horizontal_segment, is_vertical_segment, ranges_overlap, segment_intersects_rect, point_in_rect, clipEdges, euclid_lt, dist_sq, rabs, c3_a1_ctx] | with_unfolding_all decide)
      (by with_unfolding_all decide)
      (by first | norm_num [Rat.mk'_eq_divInt, Rat.divInt_eq_div, astarMoveG, bend_check, bonus_check, wire_mid, manhattan_distance, rabs, c3_a1_ctx] | with_unfolding_all decide)
      (by first | norm_num [Rat.mk'_eq_divInt, Rat.divInt_eq_div, astarF, manhattan_distance, rabs, c3_a1_ctx] | with_unfolding_all decide)
  have hfold0 : astarNeighbors c3_a1_ctx
      ((
        { f := 0, g := 0, tie := 0, pos := (0, 0), path := [(0, 0)] } : Entry).pos :: c3_a1_s0.closed)
      (
        { f := 0, g := 0, tie := 0, pos := (0, 0), path := [(0, 0)] } : Entry).pos (
        (0, 0)) (
        { f := 0, g := 0, tie := 0, pos := (0, 0), path := [(0, 0)] } : Entry).path (
        { f := 0, g := 0, tie := 0, pos := (0, 0), path := [(0, 0)] } : Entry).g (
        [(1, 0), (-1, 0), (0, 1), (0, -1)])
      (⟨
        [],
        c3_a1_s0.tie⟩ : StepState) = .cont
      (⟨(⟨(⟨(⟨(⟨
        [],
        c3_a1_s0.tie⟩ : StepState).openList ++
        [⟨(Rat.mk' 127 50), (Rat.mk' 127 100), 1, ((1, 0)), (
        { f := 0, g := 0, tie := 0, pos := (0, 0), path := [(0, 0)] } : Entry).path ++ [((Rat.mk' 127 100), 0)]⟩], 1⟩ : StepState).openList ++
        [⟨(Rat.mk' 127 25), (Rat.mk' 127 100), 2, ((-1, 0)), (
        { f := 0, g := 0, tie := 0, pos := (0, 0), path := [(0, 0)] } : Entry).path ++ [((Rat.mk' (-127) 100), 0)]⟩], 2⟩ : StepState).openList ++
        [⟨(Rat.mk' 127 25), (Rat.mk' 127 100), 3, ((0, 1)), (
        { f := 0, g := 0, tie := 0, pos := (0, 0), path := [(0, 0)] } : Entry).path ++ [(0, (Rat.mk' 127 100))]⟩], 3⟩ : StepState).openList ++
        [⟨(Rat.mk' 127 25), (Rat.mk' 127 100), 4, ((0, -1)), (
        { f := 0, g := 0, tie := 0, pos := (0, 0), path := [(0, 0)] } : Entry).path ++ [(0, (Rat.mk' (-127) 100))]⟩], 4⟩ : StepState) := by
    rw [astarNeighbors_cons hn0x0 _, astarNeighbors_cons hn0x1 _, astarNeighbors_cons hn0x2 _, astarNeighbors_cons hn0x3 _, astarNeighbors_nil]
  have hit0 : astarIter c3_a1_ctx c3_a1_s0 = .next c3_a1_s1 := by
    with_unfolding_all exact astarIter_next_of hpop0 (by with_unfolding_all decide) (by with_unfolding_all decide) hw0 (by with_unfolding_all decide) hns0 hfold0
  rw [astarLoop_next hit0]
  have hpop1 : popMin c3_a1_s1.openList = some (
        { f := (Rat.mk' 127 50), g := (Rat.mk' 127 100), tie := 1, pos := (1, 0), path := [(0, 0), ((Rat.mk' 127 100), 0)] },
        [{ f := (Rat.mk' 127 25), g := (Rat.mk' 127 100), tie := 2, pos := (-1, 0), path := [(0, 0), ((Rat.mk' (-127) 100), 0)] },
         { f := (Rat.mk' 127 25), g := (Rat.mk' 127 100), tie := 3, pos := (0, 1), path := [(0, 0), (0, (Rat.mk' 127 100))] },
         { f := (Rat.mk' 127 25), g := (Rat.mk' 127 100), tie := 4, pos := (0, -1), path := [(0, 0), (0, (Rat.mk' (-127) 100))] }]) := by
    first
    | norm_num [c3_a1_s1, popMin, entryLt, Rat.mk'_eq_divInt, Rat.divInt_eq_div]
    | with_unfolding_all decide
  have hw1 : grid_to_world (
        { f := (Rat.mk' 127 50), g := (Rat.mk' 127 100), tie := 1, pos := (1, 0), path := [(0, 0), ((Rat.mk' 127 100), 0)] } : Entry).pos c3_a1_ctx.gridSize = (
        ((Rat.mk' 127 100), 0)) := by with_unfolding_all decide
  have hns1 : get_neighbors (
        { f := (Rat.mk' 127 50), g := (Rat.mk' 127 100), tie := 1, pos := (1, 0), path := [(0, 0), ((Rat.mk' 127 100), 0)] } : Entry).pos (some c3_a1_ctx.goalGrid) = (
        [(2, 0), (0, 0), (1, 1), (1, -1)]) := by with_unfolding_all decide
  have hn1x0 : astarNeighborStep c3_a1_ctx
      ((
        { f := (Rat.mk' 127 50), g := (Rat.mk' 127 100), tie := 1, pos := (1, 0), path := [(0, 0), ((Rat.mk' 127 100), 0)] } : Entry).pos :: c3_a1_s1.closed)
      (
        { f := (Rat.mk' 127 50), g := (Rat.mk' 127 100), tie := 1, pos := (1, 0), path := [(0, 0), ((Rat.mk' 127 100), 0)] } : Entry).pos (
        ((Rat.mk' 127 100), 0)) (
        { f := (Rat.mk' 127 50), g := (Rat.mk' 127 100), tie := 1, pos := (1, 0), path := [(0, 0), ((Rat.mk' 127 100), 0)] } : Entry).path (
        { f := (Rat.mk' 127 50), g := (Rat.mk' 127 100), tie := 1, pos := (1, 0), path := [(0, 0), ((Rat.mk' 127 100), 0)] } : Entry).g
      (⟨
        [{ f := (Rat.mk' 127 25), g := (Rat.mk' 127 100), tie := 2, pos := (-1, 0), path := [(0, 0), ((Rat.mk' (-127) 100), 0)] },
         { f := (Rat.mk' 127 25), g := (Rat.mk' 127 100), tie := 3, pos := (0, 1), path := [(0, 0), (0, (Rat.mk' 127 100))] },
         { f := (Rat.mk' 127 25), g := (Rat.mk' 127 100), tie := 4, pos := (0, -1), path := [(0, 0), (0, (Rat.mk' (-127) 100))] }],
        c3_a1_s1.tie⟩ : StepState)
      ((2, 0)) = .cont
      (⟨(⟨
        [{ f := (Rat.mk' 127 25), g := (Rat.mk' 127 100), tie := 2, pos := (-1, 0), path := [(0, 0), ((Rat.mk' (-127) 100), 0)] },
         { f := (Rat.mk' 127 25), g := (Rat.mk' 127 100), tie := 3, pos := (0, 1), path := [(0, 0), (0, (Rat.mk' 127 100))] },
         { f := (Rat.mk' 127 25), g := (Rat.mk' 127 100), tie := 4, pos := (0, -1), path := [(0, 0), (0, (Rat.mk' (-127) 100))] }],
        c3_a1_s1.tie⟩ : StepState).openList ++
        [⟨(Rat.mk' 127 50), (Rat.mk' 127 50), 5, ((2, 0)), (
        { f := (Rat.mk' 127 50), g := (Rat.mk' 127 100), tie := 1, pos := (1, 0), path := [(0, 0), ((Rat.mk' 127 100), 0)] } : Entry).path ++ [((Rat.mk' 127 50), 0)]⟩], 5⟩ : StepState) := by
    exact astarNeighborStep_push_of (by with_unfolding_all decide) (by with_unfolding_all decide)
      (by first | norm_num [Rat.mk'_eq_divInt, Rat.divInt_eq_div, astarObstructed, is_pin_position, near_pin_check, point_in_component, segment_intersects_component, segment_overlaps_any_wire, segments_overlap_parallel, is_horizontal_segment, is_vertical_segment, ranges_overlap, segment_intersects_rect, point_in_rect, clipEdges, euclid_lt, dist_sq, rabs, c3_a1_ctx] | with_unfolding_all decide)
      (by with_unfolding_all decide)
      (by first | norm_num [Rat.mk'_eq_divInt, Rat.divInt_eq_div, astarMoveG, bend_check, bonus_check, wire_mid, manhattan_distance, rabs, c3_a1_ctx] | with_unfolding_all decide)
      (by first | norm_num [Rat.mk'_eq_divInt, Rat.divInt_eq_div, astarF, manhattan_distance, rabs, c3_a1_ctx] | with_unfolding_all decide)
  have hn1x1 : astarNeighborStep c3_a1_ctx
      ((
        { f := (Rat.mk' 127 50), g := (Rat.mk' 127 100), tie := 1, pos := (1, 0), path := [(0, 0), ((Rat.mk' 127 100), 0)] } : Entry).pos :: c3_a1_s1.closed)
      (
        { f := (Rat.mk' 127 50), g := (Rat.mk' 127 100), tie := 1, pos := (1, 0), path := [(0, 0), ((Rat.mk' 127 100), 0)] } : Entry).pos (
        ((Rat.mk' 127 100), 0)) (
        { f := (Rat.mk' 127 50), g := (Rat.mk' 127 100), tie := 1, pos := (1, 0), path := [(0, 0), ((Rat.mk' 127 100), 0)] } : Entry).path (
        { f := (Rat.mk' 127 50), g := (Rat.mk' 127 100), tie := 1, pos := (1, 0), path := [(0, 0), ((Rat.mk' 127 100), 0)] } : Entry).g
      (⟨(⟨
        [{ f := (Rat.mk' 127 25), g := (Rat.mk' 127 100), tie := 2, pos := (-1, 0), path := [(0, 0), ((Rat.mk' (-127) 100), 0)] },
         { f := (Rat.mk' 127 25), g := (Rat.mk' 127 100), tie := 3, pos := (0, 1), path := [(0, 0), (0, (Rat.mk' 127 100))] },
         { f := (Rat.mk' 127 25), g := (Rat.mk' 127 100), tie := 4, pos := (0, -1), path := [(0, 0), (0, (Rat.mk' (-127) 100))] }],
        c3_a1_s1.tie⟩ : StepState).openList ++
        [⟨(Rat.mk' 127 50), (Rat.mk' 127 50), 5, ((2, 0)), (
        { f := (Rat.mk' 127 50), g := (Rat.mk' 127 100), tie := 1, pos := (1, 0), path := [(0, 0), ((Rat.mk' 127 100), 0)] } : Entry).path ++ [((Rat.mk' 127 50), 0)]⟩], 5⟩ : StepState)
      ((0, 0)) = .cont
      (⟨(⟨
        [{ f := (Rat.mk' 127 25), g := (Rat.mk' 127 100), tie := 2, pos := (-1, 0), path := [(0, 0), ((Rat.mk' (-127) 100), 0)] },
         { f := (Rat.mk' 127 25), g := (Rat.mk' 127 100), tie := 3, pos := (0, 1), path := [(0, 0), (0, (Rat.mk' 127 100))] },
         { f := (Rat.mk' 127 25), g := (Rat.mk' 127 100), tie := 4, pos := (0, -1), path := [(0, 0), (0, (Rat.mk' (-127) 100))] }],
        c3_a1_s1.tie⟩ : StepState).openList ++
        [⟨(Rat.mk' 127 50), (Rat.mk' 127 50), 5, ((2, 0)), (
        { f := (Rat.mk' 127 50), g := (Rat.mk' 127 100), tie := 1, pos := (1, 0), path := [(0, 0), ((Rat.mk' 127 100), 0)] } : Entry).path ++ [((Rat.mk' 127 50), 0)]⟩], 5⟩ : StepState) := by
    first
    | exact astarNeighborStep_skip_closed_of (by with_unfolding_all decide)
    | exact astarNeighborStep_skip_obst_of (by with_unfolding_all decide) (by with_unfolding_all decide)
    | exact astarNeighborStep_skip_obst_of (by with_unfolding_all decide)
        (by norm_num [Rat.mk'_eq_divInt, Rat.divInt_eq_div, astarObstructed, is_pin_position, near_pin_check, point_in_component, segment_intersects_component, segment_overlaps_any_wire, segments_overlap_parallel, is_horizontal_segment, is_vertical_segment, ranges_overlap, segment_intersects_rect, point_in_rect, clipEdges, euclid_lt, dist_sq, rabs, grid_to_world, c3_a1_ctx])
  have hn1x2 : astarNeighborStep c3_a1_ctx
      ((
        { f := (Rat.mk' 127 50), g := (Rat.mk' 127 100), tie := 1, pos := (1, 0), path := [(0, 0), ((Rat.mk' 127 100), 0)] } : Entry).pos :: c3_a1_s1.closed)
      (
        { f := (Rat.mk' 127 50), g := (Rat.mk' 127 100), tie := 1, pos := (1, 0), path := [(0, 0), ((Rat.mk' 127 100), 0)] } : Entry).pos (
        ((Rat.mk' 127 100), 0)) (
        { f := (Rat.mk' 127 50), g := (Rat.mk' 127 100), tie := 1, pos := (1, 0), path := [(0, 0), ((Rat.mk' 127 100), 0)] } : Entry).path (
        { f := (Rat.mk' 127 50), g := (Rat.mk' 127 100), tie := 1, pos := (1, 0), path := [(0, 0), ((Rat.mk' 127 100), 0)] } : Entry).g
      (⟨(⟨
        [{ f := (Rat.mk' 127 25), g := (Rat.mk' 127 100), tie := 2, pos := (-1, 0), path := [(0, 0), ((Rat.mk' (-127) 100), 0)] },
         { f := (Rat.mk' 127 25), g := (Rat.mk' 127 100), tie := 3, pos := (0, 1), path := [(0, 0), (0, (Rat.mk' 127 100))] },
         { f := (Rat.mk' 127 25), g := (Rat.mk' 127 100), tie := 4, pos := (0, -1), path := [(0, 0), (0, (Rat.mk' (-127) 100))] }],
        c3_a1_s1.tie⟩ : StepState).openList ++
        [⟨(Rat.mk' 127 50), (Rat.mk' 127 50), 5, ((2, 0)), (
        { f := (Rat.mk' 127 50), g := (Rat.mk' 127 100), tie := 1, pos := (1, 0), path := [(0, 0), ((Rat.mk' 127 100), 0)] } : Entry).path ++ [((Rat.mk' 127 50), 0)]⟩], 5⟩ : StepState)
      ((1, 1)) = .cont
      (⟨(⟨(⟨
        [{ f := (Rat.mk' 127 25), g := (Rat.mk' 127 100), tie := 2, pos := (-1, 0), path := [(0, 0), ((Rat.mk' (-127) 100), 0)] },
         { f := (Rat.mk' 127 25), g := (Rat.mk' 127 100), tie := 3, pos := (0, 1), path := [(0, 0), (0, (Rat.mk' 127 100))] },
         { f := (Rat.mk' 127 25), g := (Rat.mk' 127 100), tie := 4, pos := (0, -1), path := [(0, 0), (0, (Rat.mk' (-127) 100))] }],
        c3_a1_s1.tie⟩ : StepState).openList ++
        [⟨(Rat.mk' 127 50), (Rat.mk' 127 50), 5, ((2, 0)), (
        { f := (Rat.mk' 127 50), g := (Rat.mk' 127 100), tie := 1, pos := (1, 0), path := [(0, 0), ((Rat.mk' 127 100), 0)] } : Entry).path ++ [((Rat.mk' 127 50), 0)]⟩], 5⟩ : StepState).openList ++
        [⟨(Rat.mk' 5207 1000), (Rat.mk' 2667 1000), 6, ((1, 1)), (
        { f := (Rat.mk' 127 50), g := (Rat.mk' 127 100), tie := 1, pos := (1, 0), path := [(0, 0), ((Rat.mk' 127 100), 0)] } : Entry).path ++ [((Rat.mk' 127 100), (Rat.mk' 127 100))]⟩], 6⟩ : StepState) := by
    exact astarNeighborStep_push_of (by with_unfolding_all decide) (by with_unfolding_all decide)
      (by first | norm_num [Rat.mk'_eq_divInt, Rat.divInt_eq_div, astarObstructed, is_pin_position, near_pin_check, point_in_component, segment_intersects_component, segment_overlaps_any_wire, segments_overlap_parallel, is_horizontal_segment, is_vertical_segment, ranges_overlap, segment_intersects_rect, point_in_rect, clipEdges, euclid_lt, dist_sq, rabs, c3_a1_ctx] | with_unfolding_all decide)
      (by with_unfolding_all decide)
      (by first | norm_num [Rat.mk'_eq_divInt, Rat.divInt_eq_div, astarMoveG, bend_check, bonus_check, wire_mid, manhattan_distance, rabs, c3_a1_ctx] | with_unfolding_all decide)
      (by first | norm_num [Rat.mk'_eq_divInt, Rat.divInt_eq_div, astarF, manhattan_distance, rabs, c3_a1_ctx] | with_unfolding_all decide)
  have hn1x3 : astarNeighborStep c3_a1_ctx
      ((
        { f := (Rat.mk' 127 50), g := (Rat.mk' 127 100), tie := 1, pos := (1, 0), path := [(0, 0), ((Rat.mk' 127 100), 0)] } : Entry).pos :: c3_a1_s1.closed)
      (
        { f := (Rat.mk' 127 50), g := (Rat.mk' 127 100), tie := 1, pos := (1, 0), path := [(0, 0), ((Rat.mk' 127 100), 0)] } : Entry).pos (
        ((Rat.mk' 127 100), 0)) (
        { f := (Rat.mk' 127 50), g := (Rat.mk' 127 100), tie := 1, pos := (1, 0), path := [(0, 0), ((Rat.mk' 127 100), 0)] } : Entry).path (
        { f := (Rat.mk' 127 50), g := (Rat.mk' 127 100), tie := 1, pos := (1, 0), path := [(0, 0), ((Rat.mk' 127 100), 0)] } : Entry).g
      (⟨(⟨(⟨
        [{ f := (Rat.mk' 127 25), g := (Rat.mk' 127 100), tie := 2, pos := (-1, 0), path := [(0, 0), ((Rat.mk' (-127) 100), 0)] },
         { f := (Rat.mk' 127 25), g := (Rat.mk' 127 100), tie := 3, pos := (0, 1), path := [(0, 0), (0, (Rat.mk' 127 100))] },
         { f := (Rat.mk' 127 25), g := (Rat.mk' 127 100), tie := 4, pos := (0, -1), path := [(0, 0), (0, (Rat.mk' (-127) 100))] }],
        c3_a1_s1.tie⟩ : StepState).openList ++
        [⟨(Rat.mk' 127 50), (Rat.mk' 127 50), 5, ((2, 0)), (
        { f := (Rat.mk' 127 50), g := (Rat.mk' 127 100), tie := 1, pos := (1, 0), path := [(0, 0), ((Rat.mk' 127 100), 0)] } : Entry).path ++ [((Rat.mk' 127 50), 0)]⟩], 5⟩ : StepState).openList ++
        [⟨(Rat.mk' 5207 1000), (Rat.mk' 2667 1000), 6, ((1, 1)), (
        { f := (Rat.mk' 127 50), g := (Rat.mk' 127 100), tie := 1, pos := (1, 0), path := [(0, 0), ((Rat.mk' 127 100), 0)] } : Entry).path ++ [((Rat.mk' 127 100), (Rat.mk' 127 100))]⟩], 6⟩ : StepState)
      ((1, -1)) = .cont
      (⟨(⟨(⟨(⟨
        [{ f := (Rat.mk' 127 25), g := (Rat.mk' 127 100), tie := 2, pos := (-1, 0), path := [(0, 0), ((Rat.mk' (-127) 100), 0)] },
         { f := (Rat.mk' 127 25), g := (Rat.mk' 127 100), tie := 3, pos := (0, 1), path := [(0, 0), (0, (Rat.mk' 127 100))] },
         { f := (Rat.mk' 127 25), g := (Rat.mk' 127 100), tie := 4, pos := (0, -1), path := [(0, 0), (0, (Rat.mk' (-127) 100))] }],
        c3_a1_s1.tie⟩ : StepState).openList ++
        [⟨(Rat.mk' 127 50), (Rat.mk' 127 50), 5, ((2, 0)), (
        { f := (Rat.mk' 127 50), g := (Rat.mk' 127 100), tie := 1, pos := (1, 0), path := [(0, 0), ((Rat.mk' 127 100), 0)] } : Entry).path ++ [((Rat.mk' 127 50), 0)]⟩], 5⟩ : StepState).openList ++
        [⟨(Rat.mk' 5207 1000), (Rat.mk' 2667 1000), 6, ((1, 1)), (
        { f := (Rat.mk' 127 50), g := (Rat.mk' 127 100), tie := 1, pos := (1, 0), path := [(0, 0), ((Rat.mk' 127 100), 0)] } : Entry).path ++ [((Rat.mk' 127 100), (Rat.mk' 127 100))]⟩], 6⟩ : StepState).openList ++
        [⟨(Rat.mk' 5207 1000), (Rat.mk' 2667 1000), 7, ((1, -1)), (
        { f := (Rat.mk' 127 50), g := (Rat.mk' 127 100), tie := 1, pos := (1, 0), path := [(0, 0), ((Rat.mk' 127 100), 0)] } : Entry).path ++ [((Rat.mk' 127 100), (Rat.mk' (-127) 100))]⟩], 7⟩ : StepState) := by
    exact astarNeighborStep_push_of (by with_unfolding_all decide) (by with_unfolding_all decide)
      (by first | norm_num [Rat.mk'_eq_divInt, Rat.divInt_eq_div, astarObstructed, is_pin_position, near_pin_check, point_in_component, segment_intersects_component, segment_overlaps_any_wire, segments_overlap_parallel, is_horizontal_segment, is_vertical_segment, ranges_overlap, segment_intersects_rect, point_in_rect, clipEdges, euclid_lt, dist_sq, rabs, c3_a1_ctx] | with_unfolding_all decide)
      (by with_unfolding_all decide)
      (by first | norm_num [Rat.mk'_eq_divInt, Rat.divInt_eq_div, astarMoveG, bend_check, bonus_check, wire_mid, manhattan_distance, rabs, c3_a1_ctx] | with_unfolding_all decide)
      (by first | norm_num [Rat.mk'_eq_divInt, Rat.divInt_eq_div, astarF, manhattan_distance, rabs, c3_a1_ctx] | with_unfolding_all decide)
  have hfold1 : astarNeighbors c3_a1_ctx
      ((
        { f := (Rat.mk' 127 50), g := (Rat.mk' 127 100), tie := 1, pos := (1, 0), path := [(0, 0), ((Rat.mk' 127 100), 0)] } : Entry).pos :: c3_a1_s1.closed)
      (
        { f := (Rat.mk' 127 50), g := (Rat.mk' 127 100), tie := 1, pos := (1, 0), path := [(0, 0), ((Rat.mk' 127 100), 0)] } : Entry).pos (
        ((Rat.mk' 127 100), 0)) (
        { f := (Rat.mk' 127 50), g := (Rat.mk' 127 100), tie := 1, pos := (1, 0), path := [(0, 0), ((Rat.mk' 127 100), 0)] } : Entry).path (
        { f := (Rat.mk' 127 50), g := (Rat.mk' 127 100), tie := 1, pos := (1, 0), path := [(0, 0), ((Rat.mk' 127 100), 0)] } : Entry).g (
        [(2, 0), (0, 0), (1, 1), (1, -1)])
      (⟨
        [{ f := (Rat.mk' 127 25), g := (Rat.mk' 127 100), tie := 2, pos := (-1, 0), path := [(0, 0), ((Rat.mk' (-127) 100), 0)] },
         { f := (Rat.mk' 127 25), g := (Rat.mk' 127 100), tie := 3, pos := (0, 1), path := [(0, 0), (0, (Rat.mk' 127 100))] },
         { f := (Rat.mk' 127 25), g := (Rat.mk' 127 100), tie := 4, pos := (0, -1), path := [(0, 0), (0, (Rat.mk' (-127) 100))] }],
        c3_a1_s1.tie⟩ : StepState) = .cont
      (⟨(⟨(⟨(⟨
        [{ f := (Rat.mk' 127 25), g := (Rat.mk' 127 100), tie := 2, pos := (-1, 0), path := [(0, 0), ((Rat.mk' (-127) 100), 0)] },
         { f := (Rat.mk' 127 25), g := (Rat.mk' 127 100), tie := 3, pos := (0, 1), path := [(0, 0), (0, (Rat.mk' 127 100))] },
         { f := (Rat.mk' 127 25), g := (Rat.mk' 127 100), tie := 4, pos := (0, -1), path := [(0, 0), (0, (Rat.mk' (-127) 100))] }],
        c3_a1_s1.tie⟩ : StepState).openList ++
        [⟨(Rat.mk' 127 50), (Rat.mk' 127 50), 5, ((2, 0)), (
        { f := (Rat.mk' 127 50), g := (Rat.mk' 127 100), tie := 1, pos := (1, 0), path := [(0, 0), ((Rat.mk' 127 100), 0)] } : Entry).path ++ [((Rat.mk' 127 50), 0)]⟩], 5⟩ : StepState).openList ++
        [⟨(Rat.mk' 5207 1000), (Rat.mk' 2667 1000), 6, ((1, 1)), (
        { f := (Rat.mk' 127 50), g := (Rat.mk' 127 100), tie := 1, pos := (1, 0), path := [(0, 0), ((Rat.mk' 127 100), 0)] } : Entry).path ++ [((Rat.mk' 127 100), (Rat.mk' 127 100))]⟩], 6⟩ : StepState).openList ++
        [⟨(Rat.mk' 5207 1000), (Rat.mk' 2667 1000), 7, ((1, -1)), (
        { f := (Rat.mk' 127 50), g := (Rat.mk' 127 100), tie := 1, pos := (1, 0), path := [(0, 0), ((Rat.mk' 127 100), 0)] } : Entry).path ++ [((Rat.mk' 127 100), (Rat.mk' (-127) 100))]⟩], 7⟩ : StepState) := by
    rw [astarNeighbors_cons hn1x0 _, astarNeighbors_cons hn1x1 _, astarNeighbors_cons hn1x2 _, astarNeighbors_cons hn1x3 _, astarNeighbors_nil]
  have hit1 : astarIter c3_a1_ctx c3_a1_s1 = .next c3_a1_s2 := by
    with_unfolding_all exact astarIter_next_of hpop1 (by with_unfolding_all decide) (by with_unfolding_all decide) hw1 (by with_unfolding_all decide) hns1 hfold1
  rw [astarLoop_next hit1]
  have hpop2 : popMin c3_a1_s2.openList = some (
        { f := (Rat.mk' 127 50),
          g := (Rat.mk' 127 50),
          tie := 5,
          pos := (2, 0),
          path := [(0, 0), ((Rat.mk' 127 100), 0), ((Rat.mk' 127 50), 0)] },
        [{ f := (Rat.mk' 127 25), g := (Rat.mk' 127 100), tie := 2, pos := (-1, 0), path := [(0, 0), ((Rat.mk' (-127) 100), 0)] },
         { f := (Rat.mk' 127 25), g := (Rat.mk' 127 100), tie := 3, pos := (0, 1), path := [(0, 0), (0, (Rat.mk' 127 100))] },
         { f := (Rat.mk' 127 25), g := (Rat.mk' 127 100), tie := 4, pos := (0, -1), path := [(0, 0), (0, (Rat.mk' (-127) 100))] },
         { f := (Rat.mk' 5207 1000),
           g := (Rat.mk' 2667 1000),
           tie := 6,
           pos := (1, 1),
           path := [(0, 0), ((Rat.mk' 127 100), 0), ((Rat.mk' 127 100), (Rat.mk' 127 100))] },
         { f := (Rat.mk' 5207 1000),
           g := (Rat.mk' 2667 1000),
           tie := 7,
           pos := (1, -1),
           path := [(0, 0), ((Rat.mk' 127 100), 0), ((Rat.mk' 127 100), (Rat.mk' (-127) 100))] }]) := by
    first
    | norm_num [c3_a1_s2, popMin, entryLt, Rat.mk'_eq_divInt, Rat.divInt_eq_div]
    | with_unfolding_all decide
  have hit2 : astarIter c3_a1_ctx c3_a1_s2 = .done (
        (some [(0, 0), ((Rat.mk' 127 100), 0), ((Rat.mk' 127 50), 0), ((Rat.mk' 127 50), 0)], none)) := by
    with_unfolding_all exact astarIter_goal_of hpop2 (by with_unfolding_all decide) (by with_unfolding_all decide)
  exact astarLoop_done hit2 _ (by norm_num)

/-- Accumulator state of the c3 scenario after request 1. -/
def c3_s1 : RouteState :=
  { allRoutedWires := [{ points := [(0, 0), ((Rat.mk' 127 50), 0)], uid := some "u0" }],
    allJunctions := [],
    wiresToRemove := [],
    existingWires := [((0, 0), (Rat.mk' 127 50), 0)],
    routedWireDicts := [((0, 0),
                         ((Rat.mk' 127 50), 0),
                         { points := [(0, 0), ((Rat.mk' 127 50), 0)], uid := some "u0" },
                         some "VCC")],
    uidCtr := 1 }

set_option maxHeartbeats 1600000 in
/-- Processing request 1 of the c3 scenario. -/
theorem c3_req1_step :
    processRequest c3_rctx c3_s0 c3_req1 = c3_s1 := by
  unfold processRequest requestPathWires
  rw [c3_req1_astar]
  with_unfolding_all decide

/-- Request 2 of the c3 scenario. -/
def c3_req2 : Point × Point × Option String :=
  (((Rat.mk' 127 100), (Rat.mk' 127 100)), ((Rat.mk' 127 100), (Rat.mk' (-127) 100)), some "VCC")

/-- A* context of request 2 of the c3 scenario. -/
def c3_a2_ctx : AstarCtx :=
  { start := ((Rat.mk' 127 100), (Rat.mk' 127 100)),
    goal := ((Rat.mk' 127 100), (Rat.mk' (-127) 100)),
    startGrid := (1, 1),
    goalGrid := (1, -1),
    bboxes := [],
    existingWires := [((0, 0), (Rat.mk' 127 50), 0)],
    sameNetWires := [((0, 0), ((Rat.mk' 127 50), 0), { points := [(0, 0), ((Rat.mk' 127 50), 0)], uid := some "u0" })],
    pinPositions := [],
    currentNet := some "VCC",
    gridSize := (Rat.mk' 127 100) }

/-- A* state of request 2 of the c3 scenario, after 0 iterations. -/
def c3_a2_s0 : AstarState :=
  { openList := [{ f := 0, g := 0, tie := 0, pos := (1, 1), path := [((Rat.mk' 127 100), (Rat.mk' 127 100))] }],
    closed := [],
    tie := 0 }

/-- A* state of request 2 of the c3 scenario, after 1 iterations. -/
def c3_a2_s1 : AstarState :=
  { openList := [{ f := (Rat.mk' 4953 2000),
                   g := (Rat.mk' 2413 2000),
                   tie := 1,
                   pos := (1, 0),
                   path := [((Rat.mk' 127 100), (Rat.mk' 127 100)), ((Rat.mk' 127 100), 0)] },
                 { f := (Rat.mk' 127 25),
                   g := (Rat.mk' 127 100),
                   tie := 2,
                   pos := (2, 1),
                   path := [((Rat.mk' 127 100), (Rat.mk' 127 100)), ((Rat.mk' 127 50), (Rat.mk' 127 100))] },
                 { f := (Rat.mk' 127 25),
                   g := (Rat.mk' 127 100),
                   tie := 3,
                   pos := (0, 1),
                   path := [((Rat.mk' 127 100), (Rat.mk' 127 100)), (0, (Rat.mk' 127 100))] },
                 { f := (Rat.mk' 127 25),
                   g := (Rat.mk' 127 100),
                   tie := 4,
                   pos := (1, 2),
                   path := [((Rat.mk' 127 100), (Rat.mk' 127 100)), ((Rat.mk' 127 100), (Rat.mk' 127 50))] }],
    closed := [(1, 1)],
    tie := 4 }

set_option maxHeartbeats 4000000 in
/-- The A* run of request 2 of the c3 scenario, iteration by iteration. -/
theorem c3_req2_astar :
    requestAstar c3_rctx c3_s1 c3_req2 =
      (some [((Rat.mk' 127 100), (Rat.mk' 127 100)), ((Rat.mk' 127 100), 0)],
       some (NetRouter.EarlyTermInfo.wire
         { points := [(0, 0), ((Rat.mk' 127 50), 0)], uid := some "u0" }
         (0, 0)
         ((Rat.mk' 127 50), 0)
         ((Rat.mk' 127 100), 0))) := by
  have hsg : world_to_grid c3_req2.1 GRID_SIZE = (1, 1) := by
    first
    | norm_num [c3_req2, world_to_grid, pyRound, GRID_SIZE, Rat.mk'_eq_divInt, Rat.divInt_eq_div, Rat.floor_def']
    | with_unfolding_all decide
  have hgg : world_to_grid c3_req2.2.1 GRID_SIZE = (1, -1) := by
    first
    | norm_num [c3_req2, world_to_grid, pyRound, GRID_SIZE, Rat.mk'_eq_divInt, Rat.divInt_eq_div, Rat.floor_def']
    | with_unfolding_all decide
  have hbridge : requestAstar c3_rctx c3_s1 c3_req2 =
      astarLoop c3_a2_ctx 50000 c3_a2_s0 := by
    unfold requestAstar
    rw [astar_pathfind_loop_of hsg hgg (by with_unfolding_all decide)]
    with_unfolding_all rfl
  rw [hbridge]
  have hpop0 : popMin c3_a2_s0.openList = some (
        { f := 0, g := 0, tie := 0, pos := (1, 1), path := [((Rat.mk' 127 100), (Rat.mk' 127 100))] },
        []) := by
    first
    | norm_num [c3_a2_s0, popMin, entryLt, Rat.mk'_eq_divInt, Rat.divInt_eq_div]
    | with_unfolding_all decide
  have hw0 : grid_to_world (
        { f := 0, g := 0, tie := 0, pos := (1, 1), path := [((Rat.mk' 127 100), (Rat.mk' 127 100))] } : Entry).pos c3_a2_ctx.gridSize = (
        ((Rat.mk' 127 100), (Rat.mk' 127 100))) := by with_unfolding_all decide
  have hns0 : get_neighbors (
        { f := 0, g := 0, tie := 0, pos := (1, 1), path := [((Rat.mk' 127 100), (Rat.mk' 127 100))] } : Entry).pos (some c3_a2_ctx.goalGrid) = (
        [(1, 0), (2, 1), (0, 1), (1, 2)]) := by with_unfolding_all decide
  have hn0x0 : astarNeighborStep c3_a2_ctx
      ((
        { f := 0, g := 0, tie := 0, pos := (1, 1), path := [((Rat.mk' 127 100), (Rat.mk' 127 100))] } : Entry).pos :: c3_a2_s0.closed)
      (
        { f := 0, g := 0, tie := 0, pos := (1, 1), path := [((Rat.mk' 127 100), (Rat.mk' 127 100))] } : Entry).pos (
        ((Rat.mk' 127 100), (Rat.mk' 127 100))) (
        { f := 0, g := 0, tie := 0, pos := (1, 1), path := [((Rat.mk' 127 100), (Rat.mk' 127 100))] } : Entry).path (
        { f := 0, g := 0, tie := 0, pos := (1, 1), path := [((Rat.mk' 127 100), (Rat.mk' 127 100))] } : Entry).g
      (⟨
        [],
        c3_a2_s0.tie⟩ : StepState)
      ((1, 0)) = .cont
      (⟨(⟨
        [],
        c3_a2_s0.tie⟩ : StepState).openList ++
        [⟨(Rat.mk' 4953 2000), (Rat.mk' 2413 2000), 1, ((1, 0)), (
        { f := 0, g := 0, tie := 0, pos := (1, 1), path := [((Rat.mk' 127 100), (Rat.mk' 127 100))] } : Entry).path ++ [((Rat.mk' 127 100), 0)]⟩], 1⟩ : StepState) := by
    exact astarNeighborStep_push_of (by with_unfolding_all decide) (by with_unfolding_all decide)
      (by first | norm_num [Rat.mk'_eq_divInt, Rat.divInt_eq_div, astarObstructed, is_pin_position, near_pin_check, point_in_component, segment_intersects_component, segment_overlaps_any_wire, segments_overlap_parallel, is_horizontal_segment, is_vertical_segment, ranges_overlap, segment_intersects_rect, point_in_rect, clipEdges, euclid_lt, dist_sq, rabs, c3_a2_ctx] | with_unfolding_all decide)
      (by with_unfolding_all decide)
      (by first | norm_num [Rat.mk'_eq_divInt, Rat.divInt_eq_div, astarMoveG, bend_check, bonus_check, wire_mid, manhattan_distance, rabs, c3_a2_ctx] | with_unfolding_all decide)
      (by first | norm_num [Rat.mk'_eq_divInt, Rat.divInt_eq_div, astarF, manhattan_distance, rabs, c3_a2_ctx] | with_unfolding_all decide)
  have hn0x1 : astarNeighborStep c3_a2_ctx
      ((
        { f := 0, g := 0, tie := 0, pos := (1, 1), path := [((Rat.mk' 127 100), (Rat.mk' 127 100))] } : Entry).pos :: c3_a2_s0.closed)
      (
        { f := 0, g := 0, tie := 0, pos := (1, 1), path := [((Rat.mk' 127 100), (Rat.mk' 127 100))] } : Entry).pos (
        ((Rat.mk' 127 100), (Rat.mk' 127 100))) (
        { f := 0, g := 0, tie := 0, pos := (1, 1), path := [((Rat.mk' 127 100), (Rat.mk' 127 100))] } : Entry).path (
        { f := 0, g := 0, tie := 0, pos := (1, 1), path := [((Rat.mk' 127 100), (Rat.mk' 127 100))] } : Entry).g
      (⟨(⟨
        [],
        c3_a2_s0.tie⟩ : StepState).openList ++
        [⟨(Rat.mk' 4953 2000), (Rat.mk' 2413 2000), 1, ((1, 0)), (
        { f := 0, g := 0, tie := 0, pos := (1, 1), path := [((Rat.mk' 127 100), (Rat.mk' 127 100))] } : Entry).path ++ [((Rat.mk' 127 100), 0)]⟩], 1⟩ : StepState)
      ((2, 1)) = .cont
      (⟨(⟨(⟨
        [],
        c3_a2_s0.tie⟩ : StepState).openList ++
        [⟨(Rat.mk' 4953 2000), (Rat.mk' 2413 2000), 1, ((1, 0)), (
        { f := 0, g := 0, tie := 0, pos := (1, 1), path := [((Rat.mk' 127 100), (Rat.mk' 127 100))] } : Entry).path ++ [((Rat.mk' 127 100), 0)]⟩], 1⟩ : StepState).openList ++
        [⟨(Rat.mk' 127 25), (Rat.mk' 127 100), 2, ((2, 1)), (
        { f := 0, g := 0, tie := 0, pos := (1, 1), path := [((Rat.mk' 127 100), (Rat.mk' 127 100))] } : Entry).path ++ [((Rat.mk' 127 50), (Rat.mk' 127 100))]⟩], 2⟩ : StepState) := by
    exact astarNeighborStep_push_of (by with_unfolding_all decide) (by with_unfolding_all decide)
      (by first | norm_num [Rat.mk'_eq_divInt, Rat.divInt_eq_div, astarObstructed, is_pin_position, near_pin_check, point_in_component, segment_intersects_component, segment_overlaps_any_wire, segments_overlap_parallel, is_horizontal_segment, is_vertical_segment, ranges_overlap, segment_intersects_rect, point_in_rect, clipEdges, euclid_lt, dist_sq, rabs, c3_a2_ctx] | with_unfolding_all decide)
      (by with_unfolding_all decide)
      (by first | norm_num [Rat.mk'_eq_divInt, Rat.divInt_eq_div, astarMoveG, bend_check, bonus_check, wire_mid, manhattan_distance, rabs, c3_a2_ctx] | with_unfolding_all decide)
      (by first | norm_num [Rat.mk'_eq_divInt, Rat.divInt_eq_div, astarF, manhattan_distance, rabs, c3_a2_ctx] | with_unfolding_all decide)
  have hn0x2 : astarNeighborStep c3_a2_ctx
      ((
        { f := 0, g := 0, tie := 0, pos := (1, 1), path := [((Rat.mk' 127 100), (Rat.mk' 127 100))] } : Entry).pos :: c3_a2_s0.closed)
      (
        { f := 0, g := 0, tie := 0, pos := (1, 1), path := [((Rat.mk' 127 100), (Rat.mk' 127 100))] } : Entry).pos (
        ((Rat.mk' 127 100), (Rat.mk' 127 100))) (
        { f := 0, g := 0, tie := 0, pos := (1, 1), path := [((Rat.mk' 127 100), (Rat.mk' 127 100))] } : Entry).path (
        { f := 0, g := 0, tie := 0, pos := (1, 1), path := [((Rat.mk' 127 100), (Rat.mk' 127 100))] } : Entry).g
      (⟨(⟨(⟨
        [],
        c3_a2_s0.tie⟩ : StepState).openList ++
        [⟨(Rat.mk' 4953 2000), (Rat.mk' 2413 2000), 1, ((1, 0)), (
        { f := 0, g := 0, tie := 0, pos := (1, 1), path := [((Rat.mk' 127 100), (Rat.mk' 127 100))] } : Entry).path ++ [((Rat.mk' 127 100), 0)]⟩], 1⟩ : StepState).openList ++
        [⟨(Rat.mk' 127 25), (Rat.mk' 127 100), 2, ((2, 1)), (
        { f := 0, g := 0, tie := 0, pos := (1, 1), path := [((Rat.mk' 127 100), (Rat.mk' 127 100))] } : Entry).path ++ [((Rat.mk' 127 50), (Rat.mk' 127 100))]⟩], 2⟩ : StepState)
      ((0, 1)) = .cont
      (⟨(⟨(⟨(⟨
        [],
        c3_a2_s0.tie⟩ : StepState).openList ++
        [⟨(Rat.mk' 4953 2000), (Rat.mk' 2413 2000), 1, ((1, 0)), (
        { f := 0, g := 0, tie := 0, pos := (1, 1), path := [((Rat.mk' 127 100), (Rat.mk' 127 100))] } : Entry).path ++ [((Rat.mk' 127 100), 0)]⟩], 1⟩ : StepState).openList ++
        [⟨(Rat.mk' 127 25), (Rat.mk' 127 100), 2, ((2, 1)), (
        { f := 0, g := 0, tie := 0, pos := (1, 1), path := [((Rat.mk' 127 100), (Rat.mk' 127 100))] } : Entry).path ++ [((Rat.mk' 127 50), (Rat.mk' 127 100))]⟩], 2⟩ : StepState).openList ++
        [⟨(Rat.mk' 127 25), (Rat.mk' 127 100), 3, ((0, 1)), (
        { f := 0, g := 0, tie := 0, pos := (1, 1), path := [((Rat.mk' 127 100), (Rat.mk' 127 100))] } : Entry).path ++ [(0, (Rat.mk' 127 100))]⟩], 3⟩ : StepState) := by
    exact astarNeighborStep_push_of (by with_unfolding_all decide) (by with_unfolding_all decide)
      (by first | norm_num [Rat.mk'_eq_divInt, Rat.divInt_eq_div, astarObstructed, is_pin_position, near_pin_check, point_in_component, segment_intersects_component, segment_overlaps_any_wire, segments_overlap_parallel, is_horizontal_segment, is_vertical_segment, ranges_overlap, segment_intersects_rect, point_in_rect, clipEdges, euclid_lt, dist_sq, rabs, c3_a2_ctx] | with_unfolding_all decide)
      (by with_unfolding_all decide)
      (by first | norm_num [Rat.mk'_eq_divInt, Rat.divInt_eq_div, astarMoveG, bend_check, bonus_check, wire_mid, manhattan_distance, rabs, c3_a2_ctx] | with_unfolding_all decide)
      (by first | norm_num [Rat.mk'_eq_divInt, Rat.divInt_eq_div, astarF, manhattan_distance, rabs, c3_a2_ctx] | with_unfolding_all decide)
  have hn0x3 : astarNeighborStep c3_a2_ctx
      ((
        { f := 0, g := 0, tie := 0, pos := (1, 1), path := [((Rat.mk' 127 100), (Rat.mk' 127 100))] } : Entry).pos :: c3_a2_s0.closed)
      (
        { f := 0, g := 0, tie := 0, pos := (1, 1), path := [((Rat.mk' 127 100), (Rat.mk' 127 100))] } : Entry).pos (
        ((Rat.mk' 127 100), (Rat.mk' 127 100))) (
        { f := 0, g := 0, tie := 0, pos := (1, 1), path := [((Rat.mk' 127 100), (Rat.mk' 127 100))] } : Entry).path (
        { f := 0, g := 0, tie := 0, pos := (1, 1), path := [((Rat.mk' 127 100), (Rat.mk' 127 100))] } : Entry).g
      (⟨(⟨(⟨(⟨
        [],
        c3_a2_s0.tie⟩ : StepState).openList ++
        [⟨(Rat.mk' 4953 2000), (Rat.mk' 2413 2000), 1, ((1, 0)), (
        { f := 0, g := 0, tie := 0, pos := (1, 1), path := [((Rat.mk' 127 100), (Rat.mk' 127 100))] } : Entry).path ++ [((Rat.mk' 127 100), 0)]⟩], 1⟩ : StepState).openList ++
        [⟨(Rat.mk' 127 25), (Rat.mk' 127 100), 2, ((2, 1)), (
        { f := 0, g := 0, tie := 0, pos := (1, 1), path := [((Rat.mk' 127 100), (Rat.mk' 127 100))] } : Entry).path ++ [((Rat.mk' 127 50), (Rat.mk' 127 100))]⟩], 2⟩ : StepState).openList ++
        [⟨(Rat.mk' 127 25), (Rat.mk' 127 100), 3, ((0, 1)), (
        { f := 0, g := 0, tie := 0, pos := (1, 1), path := [((Rat.mk' 127 100), (Rat.mk' 127 100))] } : Entry).path ++ [(0, (Rat.mk' 127 100))]⟩], 3⟩ : StepState)
      ((1, 2)) = .cont
      (⟨(⟨(⟨(⟨(⟨
        [],
        c3_a2_s0.tie⟩ : StepState).openList ++
        [⟨(Rat.mk' 4953 2000), (Rat.mk' 2413 2000), 1, ((1, 0)), (
        { f := 0, g := 0, tie := 0, pos := (1, 1), path := [((Rat.mk' 127 100), (Rat.mk' 127 100))] } : Entry).path ++ [((Rat.mk' 127 100), 0)]⟩], 1⟩ : StepState).openList ++
        [⟨(Rat.mk' 127 25), (Rat.mk' 127 100), 2, ((2, 1)), (
        { f := 0, g := 0, tie := 0, pos := (1, 1), path := [((Rat.mk' 127 100), (Rat.mk' 127 100))] } : Entry).path ++ [((Rat.mk' 127 50), (Rat.mk' 127 100))]⟩], 2⟩ : StepState).openList ++
        [⟨(Rat.mk' 127 25), (Rat.mk' 127 100), 3, ((0, 1)), (
        { f := 0, g := 0, tie := 0, pos := (1, 1), path := [((Rat.mk' 127 100), (Rat.mk' 127 100))] } : Entry).path ++ [(0, (Rat.mk' 127 100))]⟩], 3⟩ : StepState).openList ++
        [⟨(Rat.mk' 127 25), (Rat.mk' 127 100), 4, ((1, 2)), (
        { f := 0, g := 0, tie := 0, pos := (1, 1), path := [((Rat.mk' 127 100), (Rat.mk' 127 100))] } : Entry).path ++ [((Rat.mk' 127 100), (Rat.mk' 127 50))]⟩], 4⟩ : StepState) := by
    exact astarNeighborStep_push_of (by with_unfolding_all decide) (by with_unfolding_all decide)
      (by first | norm_num [Rat.mk'_eq_divInt, Rat.divInt_eq_div, astarObstructed, is_pin_position, near_pin_check, point_in_component, segment_intersects_component, segment_overlaps_any_wire, segments_overlap_parallel, is_horizontal_segment, is_vertical_segment, ranges_overlap, segment_intersects_rect, point_in_rect, clipEdges, euclid_lt, dist_sq, rabs, c3_a2_ctx] | with_unfolding_all decide)
      (by with_unfolding_all decide)
      (by first | norm_num [Rat.mk'_eq_divInt, Rat.divInt_eq_div, astarMoveG, bend_check, bonus_check, wire_mid, manhattan_distance, rabs, c3_a2_ctx] | with_unfolding_all decide)
      (by first | norm_num [Rat.mk'_eq_divInt, Rat.divInt_eq_div, astarF, manhattan_distance, rabs, c3_a2_ctx] | with_unfolding_all decide)
  have hfold0 : astarNeighbors c3_a2_ctx
      ((
        { f := 0, g := 0, tie := 0, pos := (1, 1), path := [((Rat.mk' 127 100), (Rat.mk' 127 100))] } : Entry).pos :: c3_a2_s0.closed)
      (
        { f := 0, g := 0, tie := 0, pos := (1, 1), path := [((Rat.mk' 127 100), (Rat.mk' 127 100))] } : Entry).pos (
        ((Rat.mk' 127 100), (Rat.mk' 127 100))) (
        { f := 0, g := 0, tie := 0, pos := (1, 1), path := [((Rat.mk' 127 100), (Rat.mk' 127 100))] } : Entry).path (
        { f := 0, g := 0, tie := 0, pos := (1, 1), path := [((Rat.mk' 127 100), (Rat.mk' 127 100))] } : Entry).g (
        [(1, 0), (2, 1), (0, 1), (1, 2)])
      (⟨
        [],
        c3_a2_s0.tie⟩ : StepState) = .cont
      (⟨(⟨(⟨(⟨(⟨
        [],
        c3_a2_s0.tie⟩ : StepState).openList ++
        [⟨(Rat.mk' 4953 2000), (Rat.mk' 2413 2000), 1, ((1, 0)), (
        { f := 0, g := 0, tie := 0, pos := (1, 1), path := [((Rat.mk' 127 100), (Rat.mk' 127 100))] } : Entry).path ++ [((Rat.mk' 127 100), 0)]⟩], 1⟩ : StepState).openList ++
        [⟨(Rat.mk' 127 25), (Rat.mk' 127 100), 2, ((2, 1)), (
        { f := 0, g := 0, tie := 0, pos := (1, 1), path := [((Rat.mk' 127 100), (Rat.mk' 127 100))] } : Entry).path ++ [((Rat.mk' 127 50), (Rat.mk' 127 100))]⟩], 2⟩ : StepState).openList ++
        [⟨(Rat.mk' 127 25), (Rat.mk' 127 100), 3, ((0, 1)), (
        { f := 0, g := 0, tie := 0, pos := (1, 1), path := [((Rat.mk' 127 100), (Rat.mk' 127 100))] } : Entry).path ++ [(0, (Rat.mk' 127 100))]⟩], 3⟩ : StepState).openList ++
        [⟨(Rat.mk' 127 25), (Rat.mk' 127 100), 4, ((1, 2)), (
        { f := 0, g := 0, tie := 0, pos := (1, 1), path := [((Rat.mk' 127 100), (Rat.mk' 127 100))] } : Entry).path ++ [((Rat.mk' 127 100), (Rat.mk' 127 50))]⟩], 4⟩ : StepState) := by
    rw [astarNeighbors_cons hn0x0 _, astarNeighbors_cons hn0x1 _, astarNeighbors_cons hn0x2 _, astarNeighbors_cons hn0x3 _, astarNeighbors_nil]
  have hit0 : astarIter c3_a2_ctx c3_a2_s0 = .next c3_a2_s1 := by
    with_unfolding_all exact astarIter_next_of hpop0 (by with_unfolding_all decide) (by with_unfolding_all decide) hw0 (by with_unfolding_all decide) hns0 hfold0
  rw [astarLoop_next hit0]
  have hpop1 : popMin c3_a2_s1.openList = some (
        { f := (Rat.mk' 4953 2000),
          g := (Rat.mk' 2413 2000),
          tie := 1,
          pos := (1, 0),
          path := [((Rat.mk' 127 100), (Rat.mk' 127 100)), ((Rat.mk' 127 100), 0)] },
        [{ f := (Rat.mk' 127 25),
           g := (Rat.mk' 127 100),
           tie := 2,
           pos := (2, 1),
           path := [((Rat.mk' 127 100), (Rat.mk' 127 100)), ((Rat.mk' 127 50), (Rat.mk' 127 100))] },
         { f := (Rat.mk' 127 25),
           g := (Rat.mk' 127 100),
           tie := 3,
           pos := (0, 1),
           path := [((Rat.mk' 127 100), (Rat.mk' 127 100)), (0, (Rat.mk' 127 100))] },
         { f := (Rat.mk' 127 25),
           g := (Rat.mk' 127 100),
           tie := 4,
           pos := (1, 2),
           path := [((Rat.mk' 127 100), (Rat.mk' 127 100)), ((Rat.mk' 127 100), (Rat.mk' 127 50))] }]) := by
    first
    | norm_num [c3_a2_s1, popMin, entryLt, Rat.mk'_eq_divInt, Rat.divInt_eq_div]
    | with_unfolding_all decide
  have hw1 : grid_to_world (
        { f := (Rat.mk' 4953 2000),
          g := (Rat.mk' 2413 2000),
          tie := 1,
          pos := (1, 0),
          path := [((Rat.mk' 127 100), (Rat.mk' 127 100)), ((Rat.mk' 127 100), 0)] } : Entry).pos c3_a2_ctx.gridSize = (
        ((Rat.mk' 127 100), 0)) := by with_unfolding_all decide
  have hit1 : astarIter c3_a2_ctx c3_a2_s1 = .done (
        (some [((Rat.mk' 127 100), (Rat.mk' 127 100)), ((Rat.mk' 127 100), 0)],
         some (NetRouter.EarlyTermInfo.wire
           { points := [(0, 0), ((Rat.mk' 127 50), 0)], uid := some "u0" }
           (0, 0)
           ((Rat.mk' 127 50), 0)
           ((Rat.mk' 127 100), 0)))) := by
    with_unfolding_all exact astarIter_wire_of hpop1 (by with_unfolding_all decide) (by with_unfolding_all decide) hw1 (by with_unfolding_all decide)
  exact astarLoop_done hit1 _ (by norm_num)

/-- Accumulator state of the c3 scenario after request 2. -/
def c3_s2 : RouteState :=
  { allRoutedWires := [{ points := [(0, 0), ((Rat.mk' 127 50), 0)], uid := some "u0" },
                       { points := [(0, 0), ((Rat.mk' 127 100), 0)], uid := some "u2" },
                       { points := [((Rat.mk' 127 100), 0), ((Rat.mk' 127 50), 0)], uid := some "u3" },
                       { points := [((Rat.mk' 127 100), (Rat.mk' 127 100)), ((Rat.mk' 127 100), 0)], uid := some "u4" }],
    allJunctions := [{ at_ := ((Rat.mk' 127 100), 0), uid := "u1" }],
    wiresToRemove := ["u0"],
    existingWires := [((0, 0), (Rat.mk' 127 50), 0),
                      ((0, 0), (Rat.mk' 127 100), 0),
                      (((Rat.mk' 127 100), 0), (Rat.mk' 127 50), 0),
                      (((Rat.mk' 127 100), (Rat.mk' 127 100)), (Rat.mk' 127 100), 0)],
    routedWireDicts := [((0, 0),
                         ((Rat.mk' 127 50), 0),
                         { points := [(0, 0), ((Rat.mk' 127 50), 0)], uid := some "u0" },
                         some "VCC"),
                        ((0, 0),
                         ((Rat.mk' 127 100), 0),
                         { points := [(0, 0), ((Rat.mk' 127 100), 0)], uid := some "u2" },
                         some "VCC"),
                        (((Rat.mk' 127 100), 0),
                         ((Rat.mk' 127 50), 0),
                         { points := [((Rat.mk' 127 100), 0), ((Rat.mk' 127 50), 0)], uid := some "u3" },
                         some "VCC"),
                        (((Rat.mk' 127 100), (Rat.mk' 127 100)),
                         ((Rat.mk' 127 100), 0),
                         { points := [((Rat.mk' 127 100), (Rat.mk' 127 100)), ((Rat.mk' 127 100), 0)], uid := some "u4" },
                         some "VCC")],
    uidCtr := 5 }

set_option maxHeartbeats 1600000 in
/-- Processing request 2 of the c3 scenario. -/
theorem c3_req2_step :
    processRequest c3_rctx c3_s1 c3_req2 = c3_s2 := by
  unfold processRequest requestPathWires
  rw [c3_req2_astar]
  with_unfolding_all decide

/-- The c3 scenario batch. -/
def c3_pairs : List (Point × Point × Option String) := [c3_req1, c3_req2]

set_option maxHeartbeats 1600000 in
/-- Full evaluation of `route_cwires` on the c3 scenario. -/
theorem c3_route_eval :
    route_cwires c3_pairs ([] : List TraceItem) ([] : List (String × Unit)) trivialTransform trivialExtract =
      ([{ points := [(0, 0), ((Rat.mk' 127 50), 0)], uid := some "u0" },
        { points := [(0, 0), ((Rat.mk' 127 100), 0)], uid := some "u2" },
        { points := [((Rat.mk' 127 100), 0), ((Rat.mk' 127 50), 0)], uid := some "u3" },
        { points := [((Rat.mk' 127 100), (Rat.mk' 127 100)), ((Rat.mk' 127 100), 0)], uid := some "u4" }],
       [{ at_ := ((Rat.mk' 127 100), 0), uid := "u1" }],
       ["u0"]) := by
  have hloop : routeLoop c3_rctx c3_s0 c3_pairs = c3_s2 := by
    rw [show routeLoop c3_rctx c3_s0 c3_pairs =
        routeLoop c3_rctx (processRequest c3_rctx c3_s0 c3_req1) [c3_req2] from rfl,
      c3_req1_step]
    rw [show routeLoop c3_rctx c3_s1 [c3_req2] =
        routeLoop c3_rctx (processRequest c3_rctx c3_s1 c3_req2) [] from rfl,
      c3_req2_step]
    rfl
  have hbr : route_cwires c3_pairs ([] : List TraceItem) ([] : List (String × Unit)) trivialTransform trivialExtract =
      ((routeLoop c3_rctx c3_s0 c3_pairs).allRoutedWires,
       (routeLoop c3_rctx c3_s0 c3_pairs).allJunctions,
       (routeLoop c3_rctx c3_s0 c3_pairs).wiresToRemove) := by
    with_unfolding_all rfl
  rw [hbr, hloop]
  with_unfolding_all decide

/-- C1 counterexample: the first emitted wire runs from the off-grid
request start `(0.5, 0.5)` to the grid vertex `(1.27, 0)` — both
coordinate differences (`0.77` and `0.5`) exceed the tolerance, so the
emitted wire is not axis-aligned (for any tolerance up to `0.5`). -/
theorem c1_counterexample :
    ((route_cwires c1_pairs ([] : List TraceItem) ([] : List (String × Unit)) trivialTransform
        trivialExtract).1.map Wire.points).head?
      = some [((Rat.mk' 1 2), (Rat.mk' 1 2)), ((Rat.mk' 127 100), 0)] ∧
    axisAligned01 ((Rat.mk' 1 2), (Rat.mk' 1 2)) ((Rat.mk' 127 100), 0) = false := by
  rw [c1_route_eval]
  constructor
  · rfl
  · with_unfolding_all decide

/-- C2 counterexample: both requests early-terminate on the original wire
`W1` (which is never pruned from the same-net list after its first split),
so its id appears twice in the returned deletion list. -/
theorem c2_counterexample :
    (route_cwires c2_pairs c2_trace ([] : List (String × Unit)) trivialTransform
        trivialExtract).2.2 = ["W1", "W1"] ∧
    ¬ (route_cwires c2_pairs c2_trace ([] : List (String × Unit)) trivialTransform
        trivialExtract).2.2.Nodup := by
  rw [c2_route_eval]
  constructor
  · rfl
  · with_unfolding_all decide

/-- C3 counterexample: the input schematic contains no wire records at
all, yet the deletion list names `u0` — the uid of the wire emitted by
request 1 of the very same batch (present in the returned wire list). -/
theorem c3_counterexample :
    (route_cwires c3_pairs ([] : List TraceItem) ([] : List (String × Unit)) trivialTransform
        trivialExtract).2.2 = ["u0"] ∧
    existingWireDictsOf ([] : List TraceItem) = [] ∧
    (∃ w ∈ (route_cwires c3_pairs ([] : List TraceItem) ([] : List (String × Unit)) trivialTransform
        trivialExtract).1, w.uid = some "u0") := by
  rw [c3_route_eval]
  refine ⟨rfl, rfl, ?_⟩
  with_unfolding_all decide

/-! ## Further shape lemmas for the neighbor loop -/

/-- Shape lemma for one neighbor: a pin within `0.6 · grid` of the
neighbor either ends the whole search (same net) or rejects the step. -/
theorem astarNeighborStep_pin_of {ctx : AstarCtx} {cl : List GridPos}
    {cp : GridPos} {w : Point} {pa : List Point} {g : ℚ} {s : StepState}
    {n : GridPos} {nw pp : Point} {pn : Option String} (hcl : n ∉ cl)
    (hw : grid_to_world n ctx.gridSize = nw)
    (hob : astarObstructed ctx cp w n nw = false)
    (hpin : astarPinHit ctx n nw = some (pp, pn)) :
    astarNeighborStep ctx cl cp w pa g s n =
      (if sameNetPinMatch ctx.currentNet pn then
        .ret (pa ++ [pp]) (.pin pp pn pp)
      else .cont s) := by
  unfold astarNeighborStep
  rw [if_neg hcl]
  dsimp only
  rw [hw, hob, hpin, if_neg Bool.false_ne_true]

/-- Shape lemma: an exhausted open set ends the search with "no path". -/
theorem astarIter_none_of {ctx : AstarCtx} {s : AstarState}
    (h : s.openList = []) : astarIter ctx s = .done (none, none) := by
  unfold astarIter
  rw [h]
  rfl

/-- The same-net bonus fires exactly when some listed wire's midpoint is
strictly closer to the neighbor than to the current position. -/
theorem bonus_check_eq_true_iff (ctx : AstarCtx) (cw nw : Point) :
    bonus_check ctx cw nw = true ↔
      ∃ w ∈ ctx.sameNetWires,
        manhattan_distance nw (wire_mid w) < manhattan_distance cw (wire_mid w) := by
  unfold bonus_check
  rw [List.any_eq_true]
  simp

/-! ## C8: the simplifier is idempotent only on paths it returns unchanged -/

/-- C8 (amended): `simplify_path` returns every path of at most two points
unchanged, and is therefore idempotent on such paths.  (On longer paths a
second pass can differ: see `c8_counterexample`.) -/
theorem c8_short_idempotent (p : List Point) (t : ℚ) (h : p.length ≤ 2) :
    simplify_path p t = p ∧
    simplify_path (simplify_path p t) t = simplify_path p t := by
  have h1 : simplify_path p t = p := by
    unfold simplify_path
    rw [if_pos h]
  exact ⟨h1, by rw [h1, h1]⟩

/-- Witness for the amended C8 at the two-point path `[(0,0), (1,0)]`. -/
theorem c8_short_idempotent_witness :
    ([((0 : ℚ), (0 : ℚ)), (1, 0)] : List Point).length ≤ 2 ∧
    (simplify_path [((0 : ℚ), (0 : ℚ)), (1, 0)] 0.01 = [((0 : ℚ), (0 : ℚ)), (1, 0)] ∧
     simplify_path (simplify_path [((0 : ℚ), (0 : ℚ)), (1, 0)] 0.01) 0.01 =
       simplify_path [((0 : ℚ), (0 : ℚ)), (1, 0)] 0.01) :=
  ⟨by decide, c8_short_idempotent [((0 : ℚ), (0 : ℚ)), (1, 0)] 0.01 (by decide)⟩

/-! ## C4: the obstacle test needs the expanding cell off-pin as well -/

/-- C4 (amended): a neighbor that is not the start/goal cell and not
within 2.0 world units of either endpoint is rejected when its world
position lies inside an obstacle box, *provided the expanding cell is not
the start or goal cell either* — the source's exemption
`neighbor_is_pin or current_is_pin or near_pin` also covers the expanding
cell, as `c4_counterexample` shows. -/
theorem c4_obstacle_reject {ctx : AstarCtx} {cl : List GridPos}
    {cp : GridPos} {w : Point} {pa : List Point} {g : ℚ} {s : StepState}
    {n : GridPos}
    (hnp : is_pin_position ctx n = false)
    (hcp : is_pin_position ctx cp = false)
    (hnear : near_pin_check ctx (grid_to_world n ctx.gridSize) = false)
    (hin : point_in_component (grid_to_world n ctx.gridSize) ctx.bboxes = true) :
    astarNeighborStep ctx cl cp w pa g s n = .cont s := by
  by_cases hc : n ∈ cl
  · exact astarNeighborStep_skip_closed_of hc
  · refine astarNeighborStep_skip_obst_of hc ?_
    unfold astarObstructed
    dsimp only
    rw [hnp, hcp, hnear, hin]
    rfl

/-- Witness for the amended C4: in the C4 context but expanding the
non-pin cell `(5, 5)`, the boxed neighbor `(-1, 0)` is rejected. -/
theorem c4_obstacle_reject_witness :
    is_pin_position c4_ctx (-1, 0) = false ∧
    is_pin_position c4_ctx (5, 5) = false ∧
    near_pin_check c4_ctx (grid_to_world (-1, 0) GRID_SIZE) = false ∧
    point_in_component (grid_to_world (-1, 0) GRID_SIZE) c4_ctx.bboxes = true ∧
    astarNeighborStep c4_ctx [] (5, 5) (grid_to_world (5, 5) GRID_SIZE)
        [(0.6, 0.6)] 0 ⟨[], 0⟩ (-1, 0) = .cont ⟨[], 0⟩ := by
  refine ⟨by with_unfolding_all decide, by with_unfolding_all decide,
    by with_unfolding_all decide, by with_unfolding_all decide, ?_⟩
  exact c4_obstacle_reject (by with_unfolding_all decide)
    (by with_unfolding_all decide) (by with_unfolding_all decide)
    (by with_unfolding_all decide)

/-! ## C5: the bonus keys on *some* same-net wire, not the nearest -/

/-- C5 (amended): an accepted step is pushed with cost
`pitch + 10%·pitch (bend) − 5%·pitch (bonus)` added to the current
g-score, where the bonus fires exactly when the step strictly decreases
the Manhattan distance to the midpoint of *some* listed same-net wire
(the source takes the first such wire, not the nearest; see
`c5_counterexample`). -/
theorem c5_step_cost {ctx : AstarCtx} {cl : List GridPos}
    {cp : GridPos} {w : Point} {pa : List Point} {g : ℚ} {s : StepState}
    {n : GridPos} {nw : Point} (hcl : n ∉ cl)
    (hw : grid_to_world n ctx.gridSize = nw)
    (hob : astarObstructed ctx cp w n nw = false)
    (hpin : astarPinHit ctx n nw = none) :
    astarNeighborStep ctx cl cp w pa g s n =
      .cont ⟨s.openList ++
        [⟨astarF ctx nw (g + (ctx.gridSize
            + (if bend_check pa w nw then ctx.gridSize * 0.1 else 0)
            - (if ∃ w' ∈ ctx.sameNetWires,
                  manhattan_distance nw (wire_mid w') <
                    manhattan_distance w (wire_mid w') then
                ctx.gridSize * 0.05 else 0))),
          g + (ctx.gridSize
            + (if bend_check pa w nw then ctx.gridSize * 0.1 else 0)
            - (if ∃ w' ∈ ctx.sameNetWires,
                  manhattan_distance nw (wire_mid w') <
                    manhattan_distance w (wire_mid w') then
                ctx.gridSize * 0.05 else 0)),
          s.tie + 1, n, pa ++ [nw]⟩],
        s.tie + 1⟩ := by
  have hmg : astarMoveG ctx pa w nw g = g + (ctx.gridSize
      + (if bend_check pa w nw then ctx.gridSize * 0.1 else 0)
      - (if ∃ w' ∈ ctx.sameNetWires,
            manhattan_distance nw (wire_mid w') <
              manhattan_distance w (wire_mid w') then
          ctx.gridSize * 0.05 else 0)) := by
    unfold astarMoveG
    simp only [bonus_check_eq_true_iff]
  exact astarNeighborStep_push_of hcl hw hob hpin hmg rfl

/-- Witness for the amended C5 at the C5 context's step `(0,0) → (1,0)`. -/
theorem c5_step_cost_witness :
    ((1, 0) : GridPos) ∉ ([(0, 0)] : List GridPos) ∧
    grid_to_world (1, 0) c5_ctx.gridSize = ((Rat.mk' 127 100), 0) ∧
    astarObstructed c5_ctx (0, 0) (0, 0) (1, 0) ((Rat.mk' 127 100), 0) = false ∧
    astarPinHit c5_ctx (1, 0) ((Rat.mk' 127 100), 0) = none ∧
    astarNeighborStep c5_ctx [(0, 0)] (0, 0) (0, 0) [(0, 0)] 0 ⟨[], 0⟩ (1, 0) =
      .cont ⟨(⟨[], 0⟩ : StepState).openList ++
        [⟨astarF c5_ctx ((Rat.mk' 127 100), 0) (0 + (c5_ctx.gridSize
            + (if bend_check [(0, 0)] (0, 0) ((Rat.mk' 127 100), 0) then
                c5_ctx.gridSize * 0.1 else 0)
            - (if ∃ w' ∈ c5_ctx.sameNetWires,
                  manhattan_distance ((Rat.mk' 127 100), 0) (wire_mid w') <
                    manhattan_distance (0, 0) (wire_mid w') then
                c5_ctx.gridSize * 0.05 else 0))),
          0 + (c5_ctx.gridSize
            + (if bend_check [(0, 0)] (0, 0) ((Rat.mk' 127 100), 0) then
                c5_ctx.gridSize * 0.1 else 0)
            - (if ∃ w' ∈ c5_ctx.sameNetWires,
                  manhattan_distance ((Rat.mk' 127 100), 0) (wire_mid w') <
                    manhattan_distance (0, 0) (wire_mid w') then
                c5_ctx.gridSize * 0.05 else 0)),
          (⟨[], 0⟩ : StepState).tie + 1, (1, 0), [(0, 0)] ++ [((Rat.mk' 127 100), 0)]⟩],
        (⟨[], 0⟩ : StepState).tie + 1⟩ := by
  refine ⟨by decide, by with_unfolding_all decide,
    by first
       | norm_num [astarObstructed, is_pin_position, near_pin_check,
           point_in_component, segment_intersects_component,
           segment_overlaps_any_wire, euclid_lt, dist_sq, rabs, c5_ctx, c5_snw,
           GRID_SIZE, Rat.mk'_eq_divInt, Rat.divInt_eq_div]
       | with_unfolding_all decide,
    by with_unfolding_all decide, ?_⟩
  exact c5_step_cost (by decide) (by with_unfolding_all decide)
    (by first
        | norm_num [astarObstructed, is_pin_position, near_pin_check,
            point_in_component, segment_intersects_component,
            segment_overlaps_any_wire, euclid_lt, dist_sq, rabs, c5_ctx, c5_snw,
            GRID_SIZE, Rat.mk'_eq_divInt, Rat.divInt_eq_div]
        | with_unfolding_all decide)
    (by with_unfolding_all decide)

/-! ## C6: the pin-blocking test -/

/-- C6: a neighbor whose world position is within `0.6 · grid` of a listed
pin (and that is not itself the start/goal cell, per `astarPinHit`'s
guard) either ends the whole search at that exact pin position — when the
pin's net equals the request's non-empty net — or is rejected outright. -/
theorem c6_pin_block {ctx : AstarCtx} {cl : List GridPos}
    {cp : GridPos} {w : Point} {pa : List Point} {g : ℚ} {s : StepState}
    {n : GridPos} {nw pp : Point} {pn : Option String} (hcl : n ∉ cl)
    (hw : grid_to_world n ctx.gridSize = nw)
    (hob : astarObstructed ctx cp w n nw = false)
    (hpin : astarPinHit ctx n nw = some (pp, pn)) :
    astarNeighborStep ctx cl cp w pa g s n =
      (if sameNetPinMatch ctx.currentNet pn then
        .ret (pa ++ [pp]) (.pin pp pn pp)
      else .cont s) :=
  astarNeighborStep_pin_of hcl hw hob hpin

/-- Same-net pin context for the C6 witness: one pin of net `N` at
`(2.54, 0)`, request net `N`. -/
def c6_ctx : AstarCtx :=
  ⟨(0, 0), ((Rat.mk' 127 10), 0), (0, 0), (10, 0), [], [], [],
   [(((Rat.mk' 127 50), 0), some "N")], some "N", GRID_SIZE⟩

/-- Witness for C6: in `c6_ctx` the neighbor `(2, 0)` hits the same-net
pin and the search returns the carried path extended with the exact pin
position. -/
theorem c6_pin_block_witness :
    ((2, 0) : GridPos) ∉ ([(1, 0)] : List GridPos) ∧
    grid_to_world (2, 0) c6_ctx.gridSize = ((Rat.mk' 127 50), 0) ∧
    astarObstructed c6_ctx (1, 0) ((Rat.mk' 127 100), 0) (2, 0) ((Rat.mk' 127 50), 0) = false ∧
    astarPinHit c6_ctx (2, 0) ((Rat.mk' 127 50), 0) =
      some (((Rat.mk' 127 50), 0), some "N") ∧
    astarNeighborStep c6_ctx [(1, 0)] (1, 0) ((Rat.mk' 127 100), 0)
        [(0, 0), ((Rat.mk' 127 100), 0)] 0 ⟨[], 0⟩ (2, 0) =
      (if sameNetPinMatch c6_ctx.currentNet (some "N") then
        .ret ([(0, 0), ((Rat.mk' 127 100), 0)] ++ [((Rat.mk' 127 50), 0)])
          (.pin ((Rat.mk' 127 50), 0) (some "N") ((Rat.mk' 127 50), 0))
      else .cont ⟨[], 0⟩) := by
  have hw6 : grid_to_world (2, 0) c6_ctx.gridSize = ((Rat.mk' 127 50), 0) := by
    with_unfolding_all decide
  have hob6 : astarObstructed c6_ctx (1, 0) ((Rat.mk' 127 100), 0) (2, 0)
      ((Rat.mk' 127 50), 0) = false := by
    first
    | norm_num [astarObstructed, is_pin_position, near_pin_check,
        point_in_component, segment_intersects_component,
        segment_overlaps_any_wire, euclid_lt, dist_sq, rabs, c6_ctx,
        GRID_SIZE, Rat.mk'_eq_divInt, Rat.divInt_eq_div]
    | with_unfolding_all decide
  have hpin6 : astarPinHit c6_ctx (2, 0) ((Rat.mk' 127 50), 0) =
      some (((Rat.mk' 127 50), 0), some "N") := by
    first
    | norm_num [astarPinHit, is_pin_position, euclid_lt, dist_sq, rabs,
        c6_ctx, GRID_SIZE, Rat.mk'_eq_divInt, Rat.divInt_eq_div]
    | with_unfolding_all decide
  exact ⟨by decide, hw6, hob6, hpin6, c6_pin_block (by decide) hw6 hob6 hpin6⟩

/-! ## C9: a failed search is a silent per-request no-op -/

/-- C9: when the A* search of a request finds no path, the request
changes nothing in the batch state — no wires, junctions or deletions are
contributed — and the loop continues with the remaining requests. -/
theorem c9_no_path_noop (ctx : RouteCtx) (s : RouteState)
    (req : Point × Point × Option String)
    (rest : List (Point × Point × Option String))
    (h : (requestAstar ctx s req).1 = none) :
    processRequest ctx s req = s ∧
    routeLoop ctx s (req :: rest) = routeLoop ctx s rest := by
  have hp : processRequest ctx s req = s := by
    rcases hr : requestAstar ctx s req with ⟨p, i⟩
    rw [hr] at h
    cases p with
    | some q => simp at h
    | none =>
      unfold processRequest
      rw [hr]
  refine ⟨hp, ?_⟩
  show routeLoop ctx (processRequest ctx s req) rest = routeLoop ctx s rest
  rw [hp]

/-- Batch context for the C9 witness: four pins of net `A` on the four
grid cells around the origin, no wires, no boxes. -/
def c9_rctx : RouteCtx :=
  { componentBboxes := [],
    allPinPositions := [
      (((Rat.mk' 127 100), 0), some "A"),
      (((Rat.mk' (-127) 100), 0), some "A"),
      ((0, (Rat.mk' 127 100)), some "A"),
      ((0, (Rat.mk' (-127) 100)), some "A")],
    wireToNet := [], existingWireDicts := [] }

/-- Initial accumulator state for the C9 witness. -/
def c9_s0 : RouteState := ⟨[], [], [], [], [], 0⟩

/-- The C9 witness request: net `B`, which matches none of the pins. -/
def c9_req : Point × Point × Option String := ((0, 0), ((Rat.mk' 127 10), 0), some "B")

/-- Derived A* context of the C9 witness request. -/
def c9a_ctx : AstarCtx :=
  ⟨(0, 0), ((Rat.mk' 127 10), 0), (0, 0), (10, 0), [], [], [],
   [(((Rat.mk' 127 100), 0), some "A"),
    (((Rat.mk' (-127) 100), 0), some "A"),
    ((0, (Rat.mk' 127 100)), some "A"),
    ((0, (Rat.mk' (-127) 100)), some "A")],
   some "B", GRID_SIZE⟩

/-- Initial A* state of the C9 witness request. -/
def c9a_s0 : AstarState := ⟨[⟨0, 0, 0, (0, 0), [(0, 0)]⟩], [], 0⟩

/-- The start entry of the C9 witness search. -/
def c9e0 : Entry := ⟨0, 0, 0, (0, 0), [(0, 0)]⟩

/-- The C9 witness search: every start neighbor is blocked by a
different-net pin, so the open set empties and no path is found. -/
theorem c9_astar : requestAstar c9_rctx c9_s0 c9_req = (none, none) := by
  have hsg : world_to_grid c9_req.1 GRID_SIZE = ((0 : ℤ), (0 : ℤ)) := by
    first
    | norm_num [c9_req, world_to_grid, pyRound, GRID_SIZE, Rat.mk'_eq_divInt,
        Rat.divInt_eq_div, Rat.floor_def']
    | with_unfolding_all decide
  have hgg : world_to_grid c9_req.2.1 GRID_SIZE = ((10 : ℤ), (0 : ℤ)) := by
    first
    | norm_num [c9_req, world_to_grid, pyRound, GRID_SIZE, Rat.mk'_eq_divInt,
        Rat.divInt_eq_div, Rat.floor_def']
    | with_unfolding_all decide
  have hbridge : requestAstar c9_rctx c9_s0 c9_req =
      astarLoop c9a_ctx 50000 c9a_s0 := by
    unfold requestAstar
    rw [astar_pathfind_loop_of hsg hgg (by with_unfolding_all decide)]
    with_unfolding_all rfl
  rw [hbridge]
  have hrej : ∀ n : GridPos, ∀ pw : Point, ∀ pn : Option String,
      n ∉ (c9e0.pos :: c9a_s0.closed) →
      grid_to_world n c9a_ctx.gridSize = pw →
      astarObstructed c9a_ctx c9e0.pos ((0 : ℚ), (0 : ℚ)) n pw = false →
      astarPinHit c9a_ctx n pw = some (pw, pn) →
      sameNetPinMatch c9a_ctx.currentNet pn = false →
      astarNeighborStep c9a_ctx (c9e0.pos :: c9a_s0.closed) c9e0.pos
        ((0 : ℚ), (0 : ℚ)) c9e0.path c9e0.g ⟨[], c9a_s0.tie⟩ n =
        .cont ⟨[], c9a_s0.tie⟩ := by
    intro n pw pn h1 h2 h3 h4 h5
    rw [astarNeighborStep_pin_of h1 h2 h3 h4, h5]
    rfl
  have hn1 := hrej (1, 0) ((Rat.mk' 127 100), 0) (some "A") (by decide)
    (by with_unfolding_all decide) (by with_unfolding_all decide)
    (by with_unfolding_all decide) (by with_unfolding_all decide)
  have hn2 := hrej (-1, 0) ((Rat.mk' (-127) 100), 0) (some "A") (by decide)
    (by with_unfolding_all decide) (by with_unfolding_all decide)
    (by with_unfolding_all decide) (by with_unfolding_all decide)
  have hn3 := hrej (0, 1) (0, (Rat.mk' 127 100)) (some "A") (by decide)
    (by with_unfolding_all decide) (by with_unfolding_all decide)
    (by with_unfolding_all decide) (by with_unfolding_all decide)
  have hn4 := hrej (0, -1) (0, (Rat.mk' (-127) 100)) (some "A") (by decide)
    (by with_unfolding_all decide) (by with_unfolding_all decide)
    (by with_unfolding_all decide) (by with_unfolding_all decide)
  have hfold : astarNeighbors c9a_ctx (c9e0.pos :: c9a_s0.closed) c9e0.pos
      ((0 : ℚ), (0 : ℚ)) c9e0.path c9e0.g [(1, 0), (-1, 0), (0, 1), (0, -1)]
      ⟨[], c9a_s0.tie⟩ = .cont ⟨[], c9a_s0.tie⟩ := by
    rw [astarNeighbors_cons hn1 _, astarNeighbors_cons hn2 _,
      astarNeighbors_cons hn3 _, astarNeighbors_cons hn4 _, astarNeighbors_nil]
  have hpop0 : popMin c9a_s0.openList = some (c9e0, []) := by
    with_unfolding_all decide
  have ha0 : c9e0.pos ∉ c9a_s0.closed := by decide
  have hb0 : c9e0.pos ≠ c9a_ctx.goalGrid := by with_unfolding_all decide
  have hw0 : grid_to_world c9e0.pos c9a_ctx.gridSize = ((0 : ℚ), (0 : ℚ)) := by
    with_unfolding_all decide
  have hwire0 : (if c9e0.pos ≠ c9a_ctx.startGrid ∧ ¬c9a_ctx.sameNetWires.isEmpty then
      find_point_on_same_net_wire ((0 : ℚ), (0 : ℚ)) c9a_ctx.sameNetWires
        (c9a_ctx.gridSize * 0.6)
    else none) = none := by
    with_unfolding_all decide
  have hns0 : get_neighbors c9e0.pos (some c9a_ctx.goalGrid) =
      [(1, 0), (-1, 0), (0, 1), (0, -1)] := by
    with_unfolding_all decide
  have hit0 : astarIter c9a_ctx c9a_s0 = .next ⟨[], [(0, 0)], 0⟩ := by
    with_unfolding_all exact astarIter_next_of hpop0 ha0 hb0 hw0 hwire0 hns0 hfold
  rw [astarLoop_next hit0]
  exact astarLoop_done (astarIter_none_of rfl) _ (by norm_num)

/-- Witness for C9: the blocked request of `c9_rctx` leaves the batch
state untouched and the loop moves on. -/
theorem c9_no_path_noop_witness :
    (requestAstar c9_rctx c9_s0 c9_req).1 = none ∧
    (processRequest c9_rctx c9_s0 c9_req = c9_s0 ∧
     routeLoop c9_rctx c9_s0 (c9_req :: []) = routeLoop c9_rctx c9_s0 []) :=
  ⟨by rw [c9_astar], c9_no_path_noop c9_rctx c9_s0 c9_req [] (by rw [c9_astar])⟩

/-! ## C2: per-request deletion accounting -/

/-- One request appends at most one entry to the deletion list. -/
theorem processRequest_remove_le (ctx : RouteCtx) (s : RouteState)
    (req : Point × Point × Option String) :
    (processRequest ctx s req).wiresToRemove.length ≤ s.wiresToRemove.length + 1 := by
  unfold processRequest
  cases hr : requestAstar ctx s req with
  | mk p i =>
    cases p with
    | none => exact Nat.le_succ _
    | some q =>
      dsimp only
      rcases i with _ | ti
      · exact Nat.le_succ _
      · rcases ti with ⟨w, ws, we, pt⟩ | ⟨pp, pn, pt⟩
        · dsimp only
          cases hu : w.uid with
          | none => exact Nat.le_succ _
          | some u =>
            dsimp only
            split
            · split
              · split <;> (try simp [List.length_append]) <;> omega
              · exact Nat.le_succ _
            · exact Nat.le_succ _
        · exact Nat.le_succ _

/-- Over a batch, the deletion list grows by at most one entry per
request. -/
theorem routeLoop_remove_le (ctx : RouteCtx)
    (pairs : List (Point × Point × Option String)) :
    ∀ s : RouteState,
      (routeLoop ctx s pairs).wiresToRemove.length ≤
        s.wiresToRemove.length + pairs.length := by
  induction pairs with
  | nil => intro s; simp [routeLoop]
  | cons a rest ih =>
    intro s
    show (routeLoop ctx (processRequest ctx s a) rest).wiresToRemove.length ≤ _
    have h1 := ih (processRequest ctx s a)
    have h2 := processRequest_remove_le ctx s a
    simp only [List.length_cons]
    omega

/-- C2 (amended): a batch of `n` requests returns at most `n` deletion
entries — each request queues at most one wire id for deletion.  The same
id may however repeat, and a wire may be split more than once over the
batch: `c2_counterexample` deletes and splits `W1` twice. -/
theorem c2_deletion_count_le {σ : Type}
    (pairs : List (Point × Point × Option String)) (tj : List TraceItem)
    (lsc : List (String × σ)) (tr : (ℚ × ℚ × ℚ) → Point → ℚ → Point)
    (ex : σ → String → ℤ → ℤ → Option (ℚ × ℚ × ℚ)) :
    (route_cwires pairs tj lsc tr ex).2.2.length ≤ pairs.length := by
  unfold route_cwires
  split
  · simp
  · dsimp only
    have h := routeLoop_remove_le
      ⟨componentBboxesOf (componentsOf tj) (sheetsOf tj) lsc tr ex,
       allPinPositionsOf (componentsOf tj) lsc tr ex,
       wireToNetFromPins (componentsOf tj) lsc tr ex (existingWireDictsOf tj)
         (wireToNetFromLabels (labelsOf tj) (glabelsOf tj) (existingWireDictsOf tj)),
       existingWireDictsOf tj⟩ pairs
      ⟨[], [], [], (existingWireDictsOf tj).map (fun t => (t.1, t.2.1)), [], 0⟩
    simpa using h
/-! ## C3: provenance of deletion-list entries -/

/-- An early `return` from the neighbor loop always carries a pin
descriptor, never a wire descriptor. -/
theorem astarNeighborStep_ret_pin {ctx : AstarCtx} {cl : List GridPos}
    {cp : GridPos} {w : Point} {pa : List Point} {g : ℚ} {s : StepState}
    {n : GridPos} {p : List Point} {i : EarlyTermInfo}
    (h : astarNeighborStep ctx cl cp w pa g s n = .ret p i) :
    ∃ pp pn, i = .pin pp pn pp ∧ p = pa ++ [pp] := by
  unfold astarNeighborStep at h
  dsimp only at h
  repeat' split at h
  all_goals first
    | (injection h with h1 h2; exact ⟨_, _, h2.symm, h1.symm⟩)
    | injection h

/-- The neighbor fold inherits the pin-only shape of early returns. -/
theorem astarNeighbors_ret_pin {ctx : AstarCtx} {cl : List GridPos}
    {cp : GridPos} {w : Point} {pa : List Point} {g : ℚ} :
    ∀ {ns : List GridPos} {s : StepState} {p : List Point} {i : EarlyTermInfo},
      astarNeighbors ctx cl cp w pa g ns s = .ret p i →
      ∃ pp pn, i = .pin pp pn pp ∧ p = pa ++ [pp] := by
  intro ns
  induction ns with
  | nil =>
    intro s p i h
    exact absurd h (by simp [astarNeighbors])
  | cons n ns ih =>
    intro s p i h
    unfold astarNeighbors at h
    split at h
    · next p2 i2 hstep =>
      injection h with h1 h2
      obtain ⟨pp, pn, hi, hp⟩ := astarNeighborStep_ret_pin hstep
      exact ⟨pp, pn, by rw [← h2, hi], by rw [← h1, hp]⟩
    · next s2 hstep => exact ih h

/-- A wire-hit early termination names a wire of the same-net list. -/
theorem astarIter_wire_mem {ctx : AstarCtx} {s : AstarState}
    {res : Option (List Point)} {w : Wire} {ws we pt : Point}
    (h : astarIter ctx s = .done (res, some (.wire w ws we pt))) :
    (ws, we, w) ∈ ctx.sameNetWires := by
  unfold astarIter at h
  dsimp only at h
  split at h
  · exact absurd h (by simp)
  · split at h
    · exact absurd h (by simp)
    · split at h
      · exact absurd h (by simp)
      · split at h
        · rename_i hfind
          injection h with hpair
          injection hpair with h1 h2
          injection h2 with hinfo
          injection hinfo with hw1 hw2 hw3 hw4
          subst hw1
          subst hw2
          subst hw3
          split at hfind
          · exact List.mem_of_find?_eq_some hfind
          · exact absurd hfind (by simp)
        · split at h
          · rename_i hfold
            injection h with hpair
            injection hpair with h1 h2
            injection h2 with hinfo
            obtain ⟨pp, pn, hi, -⟩ := astarNeighbors_ret_pin hfold
            rw [hi] at hinfo
            exact absurd hinfo (by simp)
          · exact absurd h (by simp)

/-- The fueled loop inherits wire-hit provenance from its iterations. -/
theorem astarLoop_wire_mem {ctx : AstarCtx} :
    ∀ {fuel : ℕ} {s : AstarState} {res : Option (List Point)} {w : Wire}
      {ws we pt : Point},
      astarLoop ctx fuel s = (res, some (.wire w ws we pt)) →
      (ws, we, w) ∈ ctx.sameNetWires := by
  intro fuel
  induction fuel with
  | zero =>
    intro s res w ws we pt h
    exact absurd h (by simp [astarLoop])
  | succ m ih =>
    intro s res w ws we pt h
    unfold astarLoop at h
    split at h
    · next r hiter =>
      rw [h] at hiter
      exact astarIter_wire_mem hiter
    · next s2 hiter => exact ih h

/-- `astar_pathfind` can only report a wire hit on a listed same-net
wire. -/
theorem astar_pathfind_wire_mem {start goal : Point} {bb : List BBox}
    {ew : List (Point × Point)} {snw : List (Point × Point × Wire)}
    {pins : List (Point × Option String)} {net : Option String} {gs : ℚ}
    {it : ℕ} {res : Option (List Point)} {w : Wire} {ws we pt : Point}
    (h : astar_pathfind start goal bb ew snw pins net gs it =
      (res, some (.wire w ws we pt))) :
    (ws, we, w) ∈ snw := by
  unfold astar_pathfind at h
  dsimp only at h
  split at h
  · exact absurd h (by simp)
  · exact astarLoop_wire_mem h

/-- Per request: a wire-hit descriptor names a wire of the request's
same-net list. -/
theorem requestAstar_wire_mem {ctx : RouteCtx} {s : RouteState}
    {req : Point × Point × Option String} {res : Option (List Point)}
    {w : Wire} {ws we pt : Point}
    (h : requestAstar ctx s req = (res, some (.wire w ws we pt))) :
    (ws, we, w) ∈ requestSameNetWires ctx s req.2.2 := by
  unfold requestAstar at h
  exact astar_pathfind_wire_mem h

/-- Decomposition of the same-net list: every element is an existing wire
record or an earlier routed wire (with its endpoints). -/
theorem requestSameNetWires_mem {ctx : RouteCtx} {s : RouteState}
    {net : Option String} {r : Point × Point × Wire}
    (h : r ∈ requestSameNetWires ctx s net) :
    r ∈ ctx.existingWireDicts ∨
      ∃ t ∈ s.routedWireDicts, (t.1, t.2.1, t.2.2.1) = r := by
  unfold requestSameNetWires at h
  split at h
  · exact absurd h (by simp)
  · rcases List.mem_append.1 h with h1 | h2
    · exact Or.inl (List.mem_of_mem_filter h1)
    · rcases List.mem_map.1 h2 with ⟨t, ht, rfl⟩
      exact Or.inr ⟨t, List.mem_of_mem_filter ht, rfl⟩

/-- The uids carried by a list of wire records. -/
def wireUids (ws : List Wire) : List String := ws.filterMap Wire.uid

/-- The C3 bookkeeping invariant over the three relevant accumulator
fields: every queued deletion names an existing wire record or a wire
already emitted, and every routed-dict entry carries an emitted wire. -/
def UidsOk (ctx : RouteCtx) (ar : List Wire) (wr : List String)
    (rd : List (Point × Point × Wire × Option String)) : Prop :=
  (∀ u ∈ wr,
      (∃ t ∈ ctx.existingWireDicts, (t : Point × Point × Wire).2.2.uid = some u) ∨
      u ∈ wireUids ar) ∧
  (∀ t ∈ rd, (t : Point × Point × Wire × Option String).2.2.1 ∈ ar)

/-- Appending freshly emitted wires (and their kept dict entries) keeps
the invariant. -/
theorem uidsOk_push {ctx : RouteCtx} {ar : List Wire} {wr : List String}
    {rd : List (Point × Point × Wire × Option String)}
    (pws : List Wire) (nt : Option String)
    (h : UidsOk ctx ar wr rd) :
    UidsOk ctx (ar ++ pws) wr
      (rd ++ (pws.filter (fun w2 => w2.points.length ≥ 2)).map
        (fun w2 => (w2.points.headD (0, 0), w2.points.getLastD (0, 0), w2, nt))) := by
  obtain ⟨h1, h2⟩ := h
  constructor
  · intro u hu
    rcases h1 u hu with hl | hr2
    · exact Or.inl hl
    · exact Or.inr (by
        unfold wireUids at hr2 ⊢
        rw [List.filterMap_append]
        exact List.mem_append_left _ hr2)
  · intro t ht
    rcases List.mem_append.1 ht with hl | hr2
    · exact List.mem_append_left _ (h2 t hl)
    · rcases List.mem_map.1 hr2 with ⟨w2, hw2, rfl⟩
      exact List.mem_append_right _ (List.mem_of_mem_filter hw2)

/-- Queuing the deletion of a found same-net wire and emitting its two
halves keeps the invariant. -/
theorem uidsOk_split {ctx : RouteCtx} {ar : List Wire} {wr : List String}
    {rd : List (Point × Point × Wire × Option String)} {u : String}
    (w1 w2 : Wire) (d1 d2 : Point × Point × Wire × Option String)
    (hd1 : d1.2.2.1 = w1) (hd2 : d2.2.2.1 = w2)
    (hw : (∃ t ∈ ctx.existingWireDicts,
        (t : Point × Point × Wire).2.2.uid = some u) ∨ u ∈ wireUids ar)
    (h : UidsOk ctx ar wr rd) :
    UidsOk ctx (ar ++ [w1, w2]) (wr ++ [u]) (rd ++ [d1, d2]) := by
  obtain ⟨h1, h2⟩ := h
  constructor
  · intro v hv
    rcases List.mem_append.1 hv with hl | hr2
    · rcases h1 v hl with ha | hb
      · exact Or.inl ha
      · exact Or.inr (by
          unfold wireUids at hb ⊢
          rw [List.filterMap_append]
          exact List.mem_append_left _ hb)
    · have : v = u := by simpa using hr2
      subst this
      rcases hw with ha | hb
      · exact Or.inl ha
      · exact Or.inr (by
          unfold wireUids at hb ⊢
          rw [List.filterMap_append]
          exact List.mem_append_left _ hb)
  · intro t ht
    rcases List.mem_append.1 ht with hl | hr2
    · exact List.mem_append_left _ (h2 t hl)
    · rcases (by simpa using hr2 : t = d1 ∨ t = d2) with rfl | rfl
      · rw [hd1]
        refine List.mem_append_right _ ?_
        simp
      · rw [hd2]
        refine List.mem_append_right _ ?_
        simp

/-- One request preserves the C3 invariant. -/
theorem processRequest_uidsOk (ctx : RouteCtx) (s : RouteState)
    (req : Point × Point × Option String)
    (h : UidsOk ctx s.allRoutedWires s.wiresToRemove s.routedWireDicts) :
    UidsOk ctx (processRequest ctx s req).allRoutedWires
      (processRequest ctx s req).wiresToRemove
      (processRequest ctx s req).routedWireDicts := by
  unfold processRequest
  cases hr : requestAstar ctx s req with
  | mk p i =>
    cases p with
    | none => exact h
    | some q =>
      dsimp only
      rcases i with _ | (⟨w, ws, we, pt⟩ | ⟨pp, pn, pt⟩)
      · exact uidsOk_push _ _ h
      · dsimp only
        cases hu : w.uid with
        | none => exact uidsOk_push _ _ h
        | some u =>
          dsimp only
          split
          · split
            · split
              · next w2 hsp =>
                have hmem := requestAstar_wire_mem hr
                have hu2 : (∃ t ∈ ctx.existingWireDicts,
                    (t : Point × Point × Wire).2.2.uid = some u) ∨
                    u ∈ wireUids s.allRoutedWires := by
                  rcases requestSameNetWires_mem hmem with hl | ⟨t, ht, hteq⟩
                  · exact Or.inl ⟨(ws, we, w), hl, by rw [hu]⟩
                  · refine Or.inr ?_
                    have hwmem : w ∈ s.allRoutedWires := by
                      have := h.2 t ht
                      have hw3 : t.2.2.1 = w := congrArg (fun r => r.2.2) hteq
                      rwa [hw3] at this
                    unfold wireUids
                    exact List.mem_filterMap.2 ⟨w, hwmem, hu⟩
                exact uidsOk_push _ _ (uidsOk_split _ _ _ _ rfl rfl hu2 h)
              · exact uidsOk_push _ _ h
            · exact uidsOk_push _ _ h
          · exact uidsOk_push _ _ h
      · exact uidsOk_push _ _ h

/-- The whole batch preserves the C3 invariant. -/
theorem routeLoop_uidsOk (ctx : RouteCtx)
    (pairs : List (Point × Point × Option String)) :
    ∀ s : RouteState,
      UidsOk ctx s.allRoutedWires s.wiresToRemove s.routedWireDicts →
      UidsOk ctx (routeLoop ctx s pairs).allRoutedWires
        (routeLoop ctx s pairs).wiresToRemove
        (routeLoop ctx s pairs).routedWireDicts := by
  induction pairs with
  | nil => intro s h; exact h
  | cons a rest ih =>
    intro s h
    show UidsOk ctx (routeLoop ctx (processRequest ctx s a) rest).allRoutedWires _ _
    exact ih (processRequest ctx s a) (processRequest_uidsOk ctx s a h)

set_option maxHeartbeats 1600000 in
/-- C3 (amended): every wire id in the deletion list returned by
`route_cwires` names either a wire record of the input schematic or a
wire record that the batch itself emitted (and returns).  The deletion
list is *not* restricted to input wires: `c3_counterexample` deletes a
wire created by the same batch. -/
theorem c3_deletions_from_schematic_or_batch {σ : Type}
    (pairs : List (Point × Point × Option String)) (tj : List TraceItem)
    (lsc : List (String × σ)) (tr : (ℚ × ℚ × ℚ) → Point → ℚ → Point)
    (ex : σ → String → ℤ → ℤ → Option (ℚ × ℚ × ℚ)) :
    ∀ u ∈ (route_cwires pairs tj lsc tr ex).2.2,
      (∃ t ∈ existingWireDictsOf tj,
        (t : Point × Point × Wire).2.2.uid = some u) ∨
      u ∈ wireUids (route_cwires pairs tj lsc tr ex).1 := by
  unfold route_cwires
  split
  · simp
  · dsimp only
    intro u hu
    have h := routeLoop_uidsOk
      ⟨componentBboxesOf (componentsOf tj) (sheetsOf tj) lsc tr ex,
       allPinPositionsOf (componentsOf tj) lsc tr ex,
       wireToNetFromPins (componentsOf tj) lsc tr ex (existingWireDictsOf tj)
         (wireToNetFromLabels (labelsOf tj) (glabelsOf tj) (existingWireDictsOf tj)),
       existingWireDictsOf tj⟩ pairs
      ⟨[], [], [], (existingWireDictsOf tj).map (fun t => (t.1, t.2.1)), [], 0⟩
      (by constructor <;> simp)
    exact h.1 u hu
/-- Witness for the amended C3 on the two-request batch of the C3
counterexample: the deletion entry "u0" names a wire this batch itself
emitted (and the input schematic is empty). -/
theorem c3_deletions_witness :
    "u0" ∈ (route_cwires c3_pairs ([] : List TraceItem)
        ([] : List (String × Unit)) trivialTransform trivialExtract).2.2 ∧
    ((∃ t ∈ existingWireDictsOf ([] : List TraceItem),
        (t : Point × Point × Wire).2.2.uid = some "u0") ∨
      "u0" ∈ wireUids (route_cwires c3_pairs ([] : List TraceItem)
        ([] : List (String × Unit)) trivialTransform trivialExtract).1) :=
  ⟨by rw [c3_route_eval]; simp,
   c3_deletions_from_schematic_or_batch c3_pairs [] [] trivialTransform
     trivialExtract "u0" (by rw [c3_route_eval]; simp)⟩
/-! ## C10: distinctness of the visited grid cells -/

/-- `pyRound` is the identity on integers. -/
theorem pyRound_intCast (z : ℤ) : pyRound (z : ℚ) = z := by
  have hf : ((z : ℚ)).floor = z := by
    rw [Rat.floor_def']
    simp
  unfold pyRound
  rw [hf]
  norm_num

/-- Snapping a grid cell's world position back to the grid recovers the
cell. -/
theorem world_to_grid_grid_to_world (z : GridPos) (gs : ℚ) (hg : gs ≠ 0) :
    world_to_grid (grid_to_world z gs) gs = z := by
  unfold world_to_grid grid_to_world
  rw [mul_div_cancel_right₀ _ hg, mul_div_cancel_right₀ _ hg,
    pyRound_intCast, pyRound_intCast]

/-- The minimum extraction returns an element of the list and a remainder
drawn from the list. -/
theorem popMin_mem :
    ∀ {l : List Entry} {e : Entry} {rest : List Entry},
      popMin l = some (e, rest) → e ∈ l ∧ ∀ x ∈ rest, x ∈ l := by
  intro l
  induction l with
  | nil => intro e rest h; exact absurd h (by simp [popMin])
  | cons a as ih =>
    intro e rest h
    unfold popMin at h
    split at h
    · injection h with h1
      injection h1 with h2 h3
      subst h2
      subst h3
      exact ⟨List.mem_cons_self _ _, by simp⟩
    · rename_i m r hm
      split at h
      · injection h with h1
        injection h1 with h2 h3
        subst h2
        subst h3
        obtain ⟨hm1, hm2⟩ := ih hm
        refine ⟨List.mem_cons_of_mem _ hm1, ?_⟩
        intro x hx
        rcases List.mem_cons.1 hx with rfl | hx2
        · exact List.mem_cons_self _ _
        · exact List.mem_cons_of_mem _ (hm2 x hx2)
      · injection h with h1
        injection h1 with h2 h3
        subst h2
        subst h3
        exact ⟨List.mem_cons_self _ _, fun x hx => List.mem_cons_of_mem _ hx⟩

/-- The grid cells underlying a world path. -/
def cellsOf (gs : ℚ) (p : List Point) : List GridPos :=
  p.map (fun q => world_to_grid q gs)

/-- The open-set invariant of `astar_pathfind` for one entry: the carried
path is nonempty, its cells are pairwise distinct, all but the last are
closed, and the last is the entry's cell. -/
def EntryOk (ctx : AstarCtx) (closed : List GridPos) (e : Entry) : Prop :=
  e.path ≠ [] ∧
  (cellsOf ctx.gridSize e.path).Nodup ∧
  (∀ c ∈ (cellsOf ctx.gridSize e.path).dropLast, c ∈ closed) ∧
  (cellsOf ctx.gridSize e.path).getLast? = some e.pos

/-- `EntryOk` is monotone in the closed set. -/
theorem entryOk_mono {ctx : AstarCtx} {closed closed2 : List GridPos}
    {e : Entry} (hsub : ∀ c ∈ closed, c ∈ closed2)
    (h : EntryOk ctx closed e) : EntryOk ctx closed2 e :=
  ⟨h.1, h.2.1, fun c hc => hsub c (h.2.2.1 c hc), h.2.2.2⟩

/-- All cells of an invariant-satisfying entry's path lie in the closed
set extended with the entry's own cell. -/
theorem pathCells_subset {ctx : AstarCtx} {closed : List GridPos} {e : Entry}
    (h : EntryOk ctx closed e) :
    ∀ c ∈ cellsOf ctx.gridSize e.path, c ∈ e.pos :: closed := by
  intro c hc
  obtain ⟨hne, hnd, hcl, hlast⟩ := h
  have hcs : cellsOf ctx.gridSize e.path ≠ [] := by
    simpa [cellsOf] using hne
  rw [← List.dropLast_append_getLast hcs] at hc
  rcases List.mem_append.1 hc with h1 | h2
  · exact List.mem_cons_of_mem _ (hcl c h1)
  · have h3 : c = (cellsOf ctx.gridSize e.path).getLast hcs := by simpa using h2
    have h4 := List.getLast?_eq_getLast_of_ne_nil hcs
    rw [h4] at hlast
    injection hlast with h5
    rw [h3, ← h5]
    exact List.mem_cons_self _ _

/-- Every entry of a `.cont` outcome of one neighbor step is an old entry
or the pushed neighbor (which was not closed). -/
theorem astarNeighborStep_cont_mem {ctx : AstarCtx} {cl : List GridPos}
    {cp : GridPos} {w : Point} {pa : List Point} {g : ℚ} {s : StepState}
    {n : GridPos} {s2 : StepState}
    (h : astarNeighborStep ctx cl cp w pa g s n = .cont s2) :
    ∀ e ∈ s2.openList, e ∈ s.openList ∨
      (e.pos = n ∧ e.path = pa ++ [grid_to_world n ctx.gridSize] ∧ n ∉ cl) := by
  unfold astarNeighborStep at h
  dsimp only at h
  repeat' split at h
  all_goals try injection h
  all_goals try (injection h with h1; subst h1)
  all_goals try (rename_i heq; subst heq)
  all_goals intro e he
  all_goals first
    | exact Or.inl he
    | (rcases List.mem_append.1 he with h2 | h3
       · exact Or.inl h2
       · have he2 := List.mem_singleton.1 h3
         subst he2
         exact Or.inr ⟨rfl, rfl, by assumption⟩)

/-- Every entry of a `.cont` outcome of the neighbor fold is an old entry
or a pushed unclosed neighbor. -/
theorem astarNeighbors_cont_mem {ctx : AstarCtx} {cl : List GridPos}
    {cp : GridPos} {w : Point} {pa : List Point} {g : ℚ} :
    ∀ {ns : List GridPos} {s s2 : StepState},
      astarNeighbors ctx cl cp w pa g ns s = .cont s2 →
      ∀ e ∈ s2.openList, e ∈ s.openList ∨
        ∃ n2, e.pos = n2 ∧ e.path = pa ++ [grid_to_world n2 ctx.gridSize] ∧
          n2 ∉ cl := by
  intro ns
  induction ns with
  | nil =>
    intro s s2 h e he
    have h1 : s = s2 := by
      injection h
    subst h1
    exact Or.inl he
  | cons n ns ih =>
    intro s s2 h e he
    unfold astarNeighbors at h
    split at h
    · injection h
    · rename_i s3 hstep
      rcases ih h e he with h1 | h2
      · rcases astarNeighborStep_cont_mem hstep e h1 with h3 | ⟨h4, h5, h6⟩
        · exact Or.inl h3
        · exact Or.inr ⟨n, h4, h5, h6⟩
      · exact Or.inr h2

/-- The state invariant: every entry of the open set satisfies
`EntryOk`. -/
def StateOk (ctx : AstarCtx) (st : AstarState) : Prop :=
  ∀ e ∈ st.openList, EntryOk ctx st.closed e

/-- One continuing iteration preserves the invariant. -/
theorem astarIter_next_ok {ctx : AstarCtx} {st st2 : AstarState}
    (hg : ctx.gridSize ≠ 0) (hok : StateOk ctx st)
    (h : astarIter ctx st = .next st2) : StateOk ctx st2 := by
  unfold astarIter at h
  dsimp only at h
  split at h
  · injection h
  · rename_i e rest hpop
    obtain ⟨hemem, hrest⟩ := popMin_mem hpop
    split at h
    · injection h with h1
      subst h1
      intro e2 he2
      exact hok e2 (hrest e2 he2)
    · rename_i hnotclosed
      split at h
      · injection h
      · split at h
        · injection h
        · split at h
          · injection h
          · rename_i st3 hfold
            injection h with h1
            subst h1
            intro e2 he2
            have hEok := hok e hemem
            rcases astarNeighbors_cont_mem hfold e2 he2 with h2 | ⟨n2, hpos, hpath, hncl⟩
            · exact entryOk_mono (fun c hc => List.mem_cons_of_mem _ hc)
                (hok e2 (hrest e2 h2))
            · have hcell : world_to_grid (grid_to_world n2 ctx.gridSize) ctx.gridSize = n2 :=
                world_to_grid_grid_to_world n2 _ hg
              have hcells : cellsOf ctx.gridSize e2.path =
                  cellsOf ctx.gridSize e.path ++ [n2] := by
                rw [hpath]
                unfold cellsOf
                rw [List.map_append]
                simp [hcell]
              have hsub := pathCells_subset hEok
              refine ⟨by rw [hpath]; simp, ?_, ?_, ?_⟩
              · rw [hcells, List.nodup_append]
                refine ⟨hEok.2.1, List.nodup_singleton _, ?_⟩
                intro c hc1 hc2
                have h5 := hsub c hc1
                have h6 : c = n2 := by simpa using hc2
                rw [h6] at h5
                exact hncl h5
              · rw [hcells, List.dropLast_concat]
                intro c hc
                exact hsub c hc
              · rw [hcells, hpos]
                simp
  done

/-- A successful termination of one iteration yields a path whose cells
(before the final appended vertex) are pairwise distinct. -/
theorem astarIter_done_nodup {ctx : AstarCtx} {st : AstarState}
    {p : List Point} {i : Option EarlyTermInfo}
    (hok : StateOk ctx st) (h : astarIter ctx st = .done (some p, i)) :
    (cellsOf ctx.gridSize p.dropLast).Nodup := by
  unfold astarIter at h
  dsimp only at h
  split at h
  · injection h with h1
    injection h1 with h2 h3
    exact absurd h2 (by simp)
  · rename_i e rest hpop
    obtain ⟨hemem, -⟩ := popMin_mem hpop
    have hEok := hok e hemem
    split at h
    · injection h
    · split at h
      · injection h with h1
        injection h1 with h2 h3
        injection h2 with h4
        rw [← h4, List.dropLast_concat]
        exact hEok.2.1
      · split at h
        · injection h with h1
          injection h1 with h2 h3
          injection h2 with h4
          rw [← h4]
          have hmd : cellsOf ctx.gridSize e.path.dropLast =
              (cellsOf ctx.gridSize e.path).dropLast := by
            unfold cellsOf
            exact List.map_dropLast _ _
          rw [hmd]
          exact hEok.2.1.sublist (List.dropLast_sublist _)
        · split at h
          · rename_i p2 i2 hfold
            injection h with h1
            injection h1 with h2 h3
            injection h2 with h4
            obtain ⟨pp, pn, hi, hp⟩ := astarNeighbors_ret_pin hfold
            rw [← h4, hp, List.dropLast_concat]
            exact hEok.2.1
          · injection h

/-- The fueled search loop only returns paths whose cells (before the
final appended vertex) are pairwise distinct. -/
theorem astarLoop_nodup {ctx : AstarCtx} (hg : ctx.gridSize ≠ 0) :
    ∀ (fuel : ℕ) (st : AstarState), StateOk ctx st →
      ∀ {p : List Point} {i : Option EarlyTermInfo},
        astarLoop ctx fuel st = (some p, i) →
        (cellsOf ctx.gridSize p.dropLast).Nodup := by
  intro fuel
  induction fuel with
  | zero =>
    intro st hok p i h
    exact absurd h (by simp [astarLoop])
  | succ m ih =>
    intro st hok p i h
    unfold astarLoop at h
    split at h
    · rename_i r hiter
      rw [h] at hiter
      exact astarIter_done_nodup hok hiter
    · rename_i s2 hiter
      exact ih s2 (astarIter_next_ok hg hok hiter) h

/-- C10 (amended): dropping the final vertex (the exactly-placed goal,
wire or pin point appended on termination), every path returned by
`astar_pathfind` visits pairwise-distinct grid cells.  The full path can
duplicate its last cell: see `c10_counterexample`. -/
theorem c10_cells_distinct (start goal : Point) (bb : List BBox)
    (ew : List (Point × Point)) (snw : List (Point × Point × Wire))
    (pins : List (Point × Option String)) (net : Option String) (gs : ℚ)
    (it : ℕ) (p : List Point) (i : Option EarlyTermInfo) (hg : gs ≠ 0)
    (h : astar_pathfind start goal bb ew snw pins net gs it = (some p, i)) :
    ((p.dropLast).map (fun q => world_to_grid q gs)).Nodup := by
  unfold astar_pathfind at h
  dsimp only at h
  split at h
  · injection h with h1 h2
    injection h1 with h3
    rw [← h3]
    simp
  · have hnodup := @astarLoop_nodup
      ⟨start, goal, world_to_grid start gs, world_to_grid goal gs, bb, ew,
       snw, pins, net, gs⟩ hg it
      ⟨[⟨0, 0, 0, world_to_grid start gs, [start]⟩], [], 0⟩
      (fun e he => by
        have he2 : e = ⟨0, 0, 0, world_to_grid start gs, [start]⟩ := by
          simpa using he
        subst he2
        exact ⟨by simp, by simp [cellsOf], by simp [cellsOf], by simp [cellsOf]⟩)
      p i h
    simpa [cellsOf] using hnodup

/-- Witness for the amended C10 on the one-step route of the C10
counterexample: the returned path duplicates the goal cell only at its
final vertex. -/
theorem c10_cells_distinct_witness :
    (GRID_SIZE ≠ 0 ∧
     astar_pathfind (0, 0) (1.27, 0) [] [] [] [] none GRID_SIZE 50000
       = (some [(0, 0), (1.27, 0), (1.27, 0)], none)) ∧
    ((([(0, 0), (1.27, 0), (1.27, 0)] : List Point).dropLast).map
      (fun q => world_to_grid q GRID_SIZE)).Nodup :=
  ⟨⟨by with_unfolding_all decide, by with_unfolding_all decide⟩,
   c10_cells_distinct (0, 0) (1.27, 0) [] [] [] [] none GRID_SIZE 50000
     [(0, 0), (1.27, 0), (1.27, 0)] none (by with_unfolding_all decide)
     (by with_unfolding_all decide)⟩
/-! ## C1: axis alignment of the wires emitted for on-grid requests -/

/-- A world point on the `gs` routing lattice: both coordinates are
integer multiples of the grid pitch. -/
def onGrid (p : Point) (gs : ℚ) : Prop :=
  ∃ a b : ℤ, p = ((a : ℚ) * gs, (b : ℚ) * gs)

/-- Exact axis alignment of two points: they agree in one coordinate. -/
def exactAligned (p q : Point) : Prop := p.1 = q.1 ∨ p.2 = q.2

/-- Exactly aligned points pass the spec's `0.01`-tolerance alignment
test. -/
theorem axisAligned01_of_exact {p q : Point} (h : exactAligned p q) :
    axisAligned01 p q = true := by
  unfold axisAligned01
  rcases h with h | h
  · rw [h]
    simp only [sub_self, Bool.or_eq_true, decide_eq_true_eq]
    left
    norm_num [rabs]
  · rw [h]
    simp only [sub_self, Bool.or_eq_true, decide_eq_true_eq]
    right
    norm_num [rabs]

/-- Distinct lattice ordinates are at least one grid pitch apart, so any
sub-pitch tolerance identifies them. -/
theorem lattice_coord_eq {a b : ℤ} {t : ℚ} (ht : t ≤ GRID_SIZE)
    (h : rabs ((a : ℚ) * GRID_SIZE - (b : ℚ) * GRID_SIZE) < t) : a = b := by
  by_contra hne
  rw [rabs_eq_abs, ← sub_mul, abs_mul] at h
  have hgs : (0 : ℚ) < GRID_SIZE := by norm_num [GRID_SIZE]
  have h1 : (1 : ℚ) ≤ |(a : ℚ) - (b : ℚ)| := by
    have h2 : a - b ≠ 0 := sub_ne_zero.2 hne
    have h3 := Int.one_le_abs h2
    have h4 : ((1 : ℤ) : ℚ) ≤ ((|a - b| : ℤ) : ℚ) := by exact_mod_cast h3
    push_cast at h4
    linarith
  have h5 : |GRID_SIZE| = GRID_SIZE := abs_of_pos hgs
  rw [h5] at h
  have h6 : GRID_SIZE ≤ |(a : ℚ) - (b : ℚ)| * GRID_SIZE :=
    le_mul_of_one_le_left hgs.le h1
  linarith

/-- Lattice points whose sub-pitch Euclidean proximity test passes are
equal. -/
theorem lattice_euclid_eq {p q : Point} {t : ℚ}
    (hp : onGrid p GRID_SIZE) (hq : onGrid q GRID_SIZE)
    (ht : t ≤ GRID_SIZE) (h : euclid_lt p q t = true) : p = q := by
  obtain ⟨a, b, rfl⟩ := hp
  obtain ⟨c, d, rfl⟩ := hq
  unfold euclid_lt dist_sq at h
  rw [Bool.and_eq_true, decide_eq_true_eq, decide_eq_true_eq] at h
  obtain ⟨ht0, hlt⟩ := h
  dsimp only at hlt
  have hgs : (0 : ℚ) < GRID_SIZE := by norm_num [GRID_SIZE]
  have ht2 : t * t ≤ GRID_SIZE * GRID_SIZE := mul_self_le_mul_self ht0 ht
  have hone : ∀ u v : ℤ, u ≠ v → (1 : ℚ) ≤ ((u : ℚ) - v) * ((u : ℚ) - v) := by
    intro u v huv
    have h2 : u - v ≠ 0 := sub_ne_zero.2 huv
    have h3 : (0 : ℤ) < (u - v) * (u - v) := mul_self_pos.2 h2
    have h4 : (1 : ℤ) ≤ (u - v) * (u - v) := by
      have h5 := Int.add_one_le_iff.2 h3
      simpa using h5
    have h6 : ((1 : ℤ) : ℚ) ≤ (((u - v) * (u - v) : ℤ) : ℚ) := by exact_mod_cast h4
    push_cast at h6
    nlinarith [h6]
  have hbig : ∀ u v : ℤ, u ≠ v →
      GRID_SIZE * GRID_SIZE ≤
        ((u : ℚ) * GRID_SIZE - (v : ℚ) * GRID_SIZE) *
          ((u : ℚ) * GRID_SIZE - (v : ℚ) * GRID_SIZE) := by
    intro u v huv
    have h1 := hone u v huv
    have h2 : ((u : ℚ) * GRID_SIZE - (v : ℚ) * GRID_SIZE) *
        ((u : ℚ) * GRID_SIZE - (v : ℚ) * GRID_SIZE) =
        (((u : ℚ) - v) * ((u : ℚ) - v)) * (GRID_SIZE * GRID_SIZE) := by ring
    rw [h2]
    calc GRID_SIZE * GRID_SIZE = 1 * (GRID_SIZE * GRID_SIZE) := by ring
      _ ≤ (((u : ℚ) - v) * ((u : ℚ) - v)) * (GRID_SIZE * GRID_SIZE) := by
          apply mul_le_mul_of_nonneg_right h1
          positivity
  have hac : a = c := by
    by_contra hne
    have h1 := hbig a c hne
    have h2 := mul_self_nonneg ((b : ℚ) * GRID_SIZE - (d : ℚ) * GRID_SIZE)
    linarith
  have hbd : b = d := by
    by_contra hne
    have h1 := hbig b d hne
    have h2 := mul_self_nonneg ((a : ℚ) * GRID_SIZE - (c : ℚ) * GRID_SIZE)
    linarith
  rw [hac, hbd]

/-- Lattice abscissae within the structural tolerance are equal. -/
theorem lattice_close_fst {p q : Point} (hp : onGrid p GRID_SIZE)
    (hq : onGrid q GRID_SIZE) (h : rabs (p.1 - q.1) < 0.01) : p.1 = q.1 := by
  obtain ⟨a, b, rfl⟩ := hp
  obtain ⟨c, d, rfl⟩ := hq
  dsimp only at h ⊢
  rw [lattice_coord_eq (by norm_num [GRID_SIZE]) h]

/-- Lattice ordinates within the structural tolerance are equal. -/
theorem lattice_close_snd {p q : Point} (hp : onGrid p GRID_SIZE)
    (hq : onGrid q GRID_SIZE) (h : rabs (p.2 - q.2) < 0.01) : p.2 = q.2 := by
  obtain ⟨a, b, rfl⟩ := hp
  obtain ⟨c, d, rfl⟩ := hq
  dsimp only at h ⊢
  rw [lattice_coord_eq (by norm_num [GRID_SIZE]) h]

/-- Grid-cell world positions are lattice points. -/
theorem onGrid_grid_to_world (z : GridPos) (gs : ℚ) :
    onGrid (grid_to_world z gs) gs :=
  ⟨z.1, z.2, rfl⟩

/-- A lattice point is the world position of its own grid cell. -/
theorem grid_to_world_world_to_grid_onGrid {p : Point} {gs : ℚ}
    (hg : gs ≠ 0) (h : onGrid p gs) :
    grid_to_world (world_to_grid p gs) gs = p := by
  obtain ⟨a, b, rfl⟩ := h
  unfold world_to_grid grid_to_world
  dsimp only
  rw [mul_div_cancel_right₀ _ hg, mul_div_cancel_right₀ _ hg,
    pyRound_intCast, pyRound_intCast]

/-- Stable insertion only adds the inserted element. -/
theorem insertByKey_mem {key : GridPos → ℤ} {x : GridPos} :
    ∀ {l : List GridPos} {y : GridPos},
      y ∈ insertByKey key x l → y = x ∨ y ∈ l := by
  intro l
  induction l with
  | nil =>
    intro y h
    simpa [insertByKey] using h
  | cons a as ih =>
    intro y h
    unfold insertByKey at h
    split at h
    · rcases List.mem_cons.1 h with h1 | h2
      · exact Or.inl h1
      · exact Or.inr h2
    · rcases List.mem_cons.1 h with h1 | h2
      · exact Or.inr (h1 ▸ List.mem_cons_self _ _)
      · rcases ih h2 with h3 | h4
        · exact Or.inl h3
        · exact Or.inr (List.mem_cons_of_mem _ h4)

/-- The stable sort only reorders: membership is preserved. -/
theorem sortByKey_mem {key : GridPos → ℤ} :
    ∀ {l : List GridPos} {y : GridPos}, y ∈ sortByKey key l → y ∈ l := by
  intro l
  induction l with
  | nil =>
    intro y h
    simpa [sortByKey] using h
  | cons a as ih =>
    intro y h
    unfold sortByKey at h
    rcases insertByKey_mem h with h1 | h2
    · exact h1 ▸ List.mem_cons_self _ _
    · exact List.mem_cons_of_mem _ (ih h2)

/-- Every cell returned by `get_neighbors` shares a coordinate with the
source cell. -/
theorem get_neighbors_aligned {z n : GridPos} {g : Option GridPos}
    (h : n ∈ get_neighbors z g) : n.1 = z.1 ∨ n.2 = z.2 := by
  have h2 : n ∈ [(z.1 + 1, z.2), (z.1 - 1, z.2), (z.1, z.2 + 1), (z.1, z.2 - 1)] := by
    cases g with
    | none =>
      unfold get_neighbors at h
      exact h
    | some gg =>
      unfold get_neighbors at h
      exact sortByKey_mem h
  simp only [List.mem_cons, List.not_mem_nil, or_false] at h2
  rcases h2 with rfl | rfl | rfl | rfl
  · exact Or.inr rfl
  · exact Or.inr rfl
  · exact Or.inl rfl
  · exact Or.inl rfl

/-- World positions of coordinate-sharing cells are exactly aligned. -/
theorem exactAligned_grid_to_world {z n : GridPos} (gs : ℚ)
    (h : n.1 = z.1 ∨ n.2 = z.2) :
    exactAligned (grid_to_world z gs) (grid_to_world n gs) := by
  unfold exactAligned grid_to_world
  rcases h with h | h
  · exact Or.inl (by rw [h])
  · exact Or.inr (by rw [h])

/-- The C1 open-set invariant for one queue entry (under an on-grid start):
the carried path is nonempty, starts at the search's start point, consists
of lattice points, consecutive points share a coordinate, and the last
point is the world position of the entry's cell. -/
def EntryAx (ctx : AstarCtx) (e : Entry) : Prop :=
  e.path ≠ [] ∧
  e.path.head? = some ctx.start ∧
  (∀ q ∈ e.path, onGrid q ctx.gridSize) ∧
  e.path.Chain' exactAligned ∧
  e.path.getLast? = some (grid_to_world e.pos ctx.gridSize)

/-- The C1 state invariant: every open-set entry satisfies `EntryAx`. -/
def StateAx (ctx : AstarCtx) (st : AstarState) : Prop :=
  ∀ e ∈ st.openList, EntryAx ctx e

/-- Every entry of a `.cont` outcome of the neighbor fold is an old entry
or a push of one of the folded neighbor cells. -/
theorem astarNeighbors_cont_mem_src {ctx : AstarCtx} {cl : List GridPos}
    {cp : GridPos} {w : Point} {pa : List Point} {g : ℚ} :
    ∀ {ns : List GridPos} {s s2 : StepState},
      astarNeighbors ctx cl cp w pa g ns s = .cont s2 →
      ∀ e ∈ s2.openList, e ∈ s.openList ∨
        ∃ n2 ∈ ns, e.pos = n2 ∧ e.path = pa ++ [grid_to_world n2 ctx.gridSize] := by
  intro ns
  induction ns with
  | nil =>
    intro s s2 h e he
    have h1 : s = s2 := by
      injection h
    subst h1
    exact Or.inl he
  | cons n ns ih =>
    intro s s2 h e he
    unfold astarNeighbors at h
    split at h
    · injection h
    · rename_i s3 hstep
      rcases ih h e he with h1 | ⟨n2, hn2, h4, h5⟩
      · rcases astarNeighborStep_cont_mem hstep e h1 with h3 | ⟨h4, h5, h6⟩
        · exact Or.inl h3
        · exact Or.inr ⟨n, List.mem_cons_self _ _, h4, h5⟩
      · exact Or.inr ⟨n2, List.mem_cons_of_mem _ hn2, h4, h5⟩

/-- One continuing iteration of the search preserves the C1 invariant. -/
theorem astarIter_next_ax {ctx : AstarCtx} {st st2 : AstarState}
    (hok : StateAx ctx st) (h : astarIter ctx st = .next st2) :
    StateAx ctx st2 := by
  unfold astarIter at h
  dsimp only at h
  split at h
  · injection h
  · rename_i e rest hpop
    obtain ⟨hemem, hrest⟩ := popMin_mem hpop
    split at h
    · injection h with h1
      subst h1
      intro e2 he2
      exact hok e2 (hrest e2 he2)
    · split at h
      · injection h
      · split at h
        · injection h
        · split at h
          · injection h
          · rename_i st3 hfold
            injection h with h1
            subst h1
            intro e2 he2
            have hEok := hok e hemem
            rcases astarNeighbors_cont_mem_src hfold e2 he2 with h2 | ⟨n2, hn2, hpos, hpath⟩
            · exact hok e2 (hrest e2 h2)
            · obtain ⟨hne, hh, hlat, hch, hlast⟩ := hEok
              have hpane : e.path ≠ [] := hne
              refine ⟨by rw [hpath]; simp, ?_, ?_, ?_, ?_⟩
              · rw [hpath, List.head?_append_of_ne_nil _ hpane]
                exact hh
              · intro q hq
                rw [hpath] at hq
                rcases List.mem_append.1 hq with hq1 | hq2
                · exact hlat q hq1
                · have hq3 : q = grid_to_world n2 ctx.gridSize := by simpa using hq2
                  rw [hq3]
                  exact onGrid_grid_to_world n2 ctx.gridSize
              · rw [hpath, List.chain'_append]
                refine ⟨hch, by simp, ?_⟩
                intro x hx y hy
                rw [hlast] at hx
                have hx2 : grid_to_world e.pos ctx.gridSize = x := by simpa using hx
                have hy2 : grid_to_world n2 ctx.gridSize = y := by simpa using hy
                rw [← hx2, ← hy2]
                exact exactAligned_grid_to_world ctx.gridSize
                  (get_neighbors_aligned hn2)
              · rw [hpath, List.getLast?_concat, hpos]
  done

/-- A normal (not early-terminated) successful exit of one iteration
yields a lattice path from the start point to the goal point with
consecutive points exactly aligned. -/
theorem astarIter_done_ax {ctx : AstarCtx} {st : AstarState} {p : List Point}
    (hgs : ctx.gridSize ≠ 0) (hgoal : onGrid ctx.goal ctx.gridSize)
    (hgg : ctx.goalGrid = world_to_grid ctx.goal ctx.gridSize)
    (hok : StateAx ctx st) (h : astarIter ctx st = .done (some p, none)) :
    p ≠ [] ∧ p.head? = some ctx.start ∧ (∀ q ∈ p, onGrid q ctx.gridSize) ∧
    p.Chain' exactAligned ∧ p.getLast? = some ctx.goal := by
  unfold astarIter at h
  dsimp only at h
  split at h
  · injection h with h1
    injection h1 with h2 h3
    exact absurd h2 (by simp)
  · rename_i e rest hpop
    obtain ⟨hemem, -⟩ := popMin_mem hpop
    have hEok := hok e hemem
    split at h
    · injection h
    · split at h
      · rename_i hgoalpos
        injection h with h1
        injection h1 with h2 h3
        injection h2 with h4
        obtain ⟨hne, hh, hlat, hch, hlast⟩ := hEok
        have hgw : grid_to_world e.pos ctx.gridSize = ctx.goal := by
          rw [hgoalpos, hgg]
          exact grid_to_world_world_to_grid_onGrid hgs hgoal
        subst h4
        refine ⟨by simp, ?_, ?_, ?_, ?_⟩
        · rw [List.head?_append_of_ne_nil _ hne]
          exact hh
        · intro q hq
          rcases List.mem_append.1 hq with hq1 | hq2
          · exact hlat q hq1
          · have hq3 : q = ctx.goal := by simpa using hq2
            rw [hq3]
            exact hgoal
        · rw [List.chain'_append]
          refine ⟨hch, by simp, ?_⟩
          intro x hx y hy
          rw [hlast] at hx
          have hx2 : grid_to_world e.pos ctx.gridSize = x := by simpa using hx
          have hy2 : ctx.goal = y := by simpa using hy
          rw [← hx2, ← hy2, hgw]
          exact Or.inl rfl
        · rw [List.getLast?_concat]
      · split at h
        · injection h with h1
          injection h1 with h2 h3
          exact absurd h3 (by simp)
        · split at h
          · injection h with h1
            injection h1 with h2 h3
            exact absurd h3 (by simp)
          · injection h

/-- The fueled search loop only exits normally with lattice paths from the
start point to the goal point whose consecutive points are exactly
aligned. -/
theorem astarLoop_ax {ctx : AstarCtx} (hgs : ctx.gridSize ≠ 0)
    (hgoal : onGrid ctx.goal ctx.gridSize)
    (hgg : ctx.goalGrid = world_to_grid ctx.goal ctx.gridSize) :
    ∀ (fuel : ℕ) (st : AstarState), StateAx ctx st →
      ∀ {p : List Point},
        astarLoop ctx fuel st = (some p, none) →
        p ≠ [] ∧ p.head? = some ctx.start ∧ (∀ q ∈ p, onGrid q ctx.gridSize) ∧
        p.Chain' exactAligned ∧ p.getLast? = some ctx.goal := by
  intro fuel
  induction fuel with
  | zero =>
    intro st hok p h
    exact absurd h (by simp [astarLoop])
  | succ m ih =>
    intro st hok p h
    unfold astarLoop at h
    split at h
    · rename_i r hiter
      rw [h] at hiter
      exact astarIter_done_ax hgs hgoal hgg hok hiter
    · rename_i s2 hiter
      exact ih s2 (astarIter_next_ax hok hiter) h

/-- A normal successful `astar_pathfind` on on-grid endpoints returns a
lattice path from `start` to `goal` whose consecutive points share a
coordinate exactly. -/
theorem astar_pathfind_ax {start goal : Point} {bb : List BBox}
    {ew : List (Point × Point)} {snw : List (Point × Point × Wire)}
    {pins : List (Point × Option String)} {net : Option String} {gs : ℚ}
    {it : ℕ} {p : List Point}
    (hgs : gs ≠ 0) (hs : onGrid start gs) (hgoal : onGrid goal gs)
    (h : astar_pathfind start goal bb ew snw pins net gs it = (some p, none)) :
    p ≠ [] ∧ p.head? = some start ∧ (∀ q ∈ p, onGrid q gs) ∧
    p.Chain' exactAligned ∧ p.getLast? = some goal := by
  unfold astar_pathfind at h
  dsimp only at h
  split at h
  · rename_i hsame
    injection h with h1 h2
    injection h1 with h3
    have hsg : start = goal := by
      have e1 := grid_to_world_world_to_grid_onGrid hgs hs
      have e2 := grid_to_world_world_to_grid_onGrid hgs hgoal
      rw [← e1, ← e2, hsame]
    subst h3
    refine ⟨by simp, by simp, ?_, ?_, by simp⟩
    · intro q hq
      rcases List.mem_cons.1 hq with h5 | h6
      · rw [h5]; exact hs
      · have h7 : q = goal := by simpa using h6
        rw [h7]; exact hgoal
    · rw [List.chain'_cons]
      exact ⟨Or.inl (by rw [hsg]), by simp⟩
  · refine @astarLoop_ax
      ⟨start, goal, world_to_grid start gs, world_to_grid goal gs, bb, ew,
       snw, pins, net, gs⟩ hgs hgoal rfl it
      ⟨[⟨0, 0, 0, world_to_grid start gs, [start]⟩], [], 0⟩ ?_ p h
    intro e he
    have he2 : e = ⟨0, 0, 0, world_to_grid start gs, [start]⟩ := by
      simpa using he
    subst he2
    refine ⟨by simp, by simp, ?_, by simp, ?_⟩
    · intro q hq
      have hq2 : q = start := by simpa using hq
      rw [hq2]; exact hs
    · dsimp only
      rw [grid_to_world_world_to_grid_onGrid hgs hs]
      simp

/-- `round(x, 3)` is the identity on lattice ordinates. -/
theorem round3_lattice (a : ℤ) :
    round3 ((a : ℚ) * GRID_SIZE) = (a : ℚ) * GRID_SIZE := by
  unfold round3 GRID_SIZE
  have h1 : (a : ℚ) * (1.27 : ℚ) * 1000 = ((a * 1270 : ℤ) : ℚ) := by
    push_cast
    ring
  rw [h1, pyRound_intCast]
  rw [div_eq_iff (by norm_num : (1000 : ℚ) ≠ 0)]
  push_cast
  ring

/-- Coordinate rounding is the identity on lattice points. -/
theorem roundPoint_onGrid_id {p : Point} (hp : onGrid p GRID_SIZE) :
    roundPoint p = p := by
  obtain ⟨a, b, rfl⟩ := hp
  unfold roundPoint
  dsimp only
  rw [round3_lattice, round3_lattice]

/-- Pin snapping is the identity on lattice points when all pin-exact
coordinates are lattice points: a lattice point within `0.005` of a
lattice pin already equals it. -/
theorem pinSnap_onGrid_id {p : Point} {pins : List Point}
    (hp : onGrid p GRID_SIZE) (hpins : ∀ q ∈ pins, onGrid q GRID_SIZE) :
    pinSnap pins p = p := by
  unfold pinSnap
  cases hf : pins.find? (fun pp => euclid_lt p pp 0.005) with
  | none => exact roundPoint_onGrid_id hp
  | some pp =>
    have h1 := List.find?_some hf
    have h2 := List.mem_of_find?_eq_some hf
    exact (lattice_euclid_eq hp (hpins pp h2) (by norm_num [GRID_SIZE]) h1).symm

/-- Shape facts about the look-ahead scan, independent of alignment: it
preserves the final raw point, consumes from the remainder, and returns a
point drawn from its input. -/
theorem extendLine_shape (tol : ℚ) (a : Point) (ih : Bool) :
    ∀ (qs : List Point) (cur : Point),
      ((extendLine tol a ih cur qs).1 :: (extendLine tol a ih cur qs).2).getLast? =
        (cur :: qs).getLast? ∧
      (extendLine tol a ih cur qs).2.length ≤ qs.length ∧
      (∀ x ∈ (extendLine tol a ih cur qs).2, x ∈ qs) ∧
      ((extendLine tol a ih cur qs).1 = cur ∨ (extendLine tol a ih cur qs).1 ∈ qs) := by
  intro qs
  induction qs with
  | nil =>
    intro cur
    refine ⟨rfl, ?_, ?_, Or.inl rfl⟩
    · exact le_rfl
    · intro x hx
      exact absurd hx (by simp [extendLine])
  | cons q qs ih2 =>
    intro cur
    unfold extendLine
    split <;> split
    all_goals first
      | exact ⟨rfl, le_rfl, fun x hx => hx, Or.inl rfl⟩
      | (obtain ⟨hl, hlen, hsub, hfst⟩ := ih2 q
         refine ⟨?_, Nat.le_succ_of_le hlen, ?_, ?_⟩
         · rw [hl, List.getLast?_cons_cons]
         · intro x hx
           exact List.mem_cons_of_mem _ (hsub x hx)
         · rcases hfst with h1 | h2
           · refine Or.inr ?_
             rw [h1]
             exact List.mem_cons_self _ _
           · exact Or.inr (List.mem_cons_of_mem _ h2))

/-- The look-ahead scan preserves the alignment chain from its current
point through the unconsumed remainder. -/
theorem extendLine_chain (tol : ℚ) (a : Point) (ih : Bool) :
    ∀ (qs : List Point) (cur : Point), (cur :: qs).Chain' exactAligned →
      ((extendLine tol a ih cur qs).1 :: (extendLine tol a ih cur qs).2).Chain'
        exactAligned := by
  intro qs
  induction qs with
  | nil =>
    intro cur hch
    exact hch
  | cons q qs ih2 =>
    intro cur hch
    unfold extendLine
    split <;> split
    all_goals first
      | exact ih2 q (List.chain'_cons.1 hch).2
      | exact hch

/-- On lattice inputs the horizontal look-ahead scan stays on the
anchor's row: the returned point agrees with the anchor's ordinate. -/
theorem extendLine_coord_true {a : Point} (ha : onGrid a GRID_SIZE) :
    ∀ (qs : List Point) (cur : Point), (∀ q ∈ qs, onGrid q GRID_SIZE) →
      cur.2 = a.2 → (extendLine 0.01 a true cur qs).1.2 = a.2 := by
  intro qs
  induction qs with
  | nil =>
    intro cur hqs hcur
    simpa [extendLine] using hcur
  | cons q qs ih2 =>
    intro cur hqs hcur
    have hred : extendLine 0.01 a true cur (q :: qs) =
        if decide (rabs (a.2 - q.2) < 0.01) = true then extendLine 0.01 a true q qs
        else (cur, q :: qs) := rfl
    rw [hred]
    split
    · rename_i hcond
      have hcond2 : rabs (a.2 - q.2) < 0.01 := of_decide_eq_true hcond
      exact ih2 q (fun r hr => hqs r (List.mem_cons_of_mem _ hr))
        ((lattice_close_snd ha (hqs q (List.mem_cons_self _ _)) hcond2).symm)
    · exact hcur

/-- On lattice inputs the vertical look-ahead scan stays on the anchor's
column: the returned point agrees with the anchor's abscissa. -/
theorem extendLine_coord_false {a : Point} (ha : onGrid a GRID_SIZE) :
    ∀ (qs : List Point) (cur : Point), (∀ q ∈ qs, onGrid q GRID_SIZE) →
      cur.1 = a.1 → (extendLine 0.01 a false cur qs).1.1 = a.1 := by
  intro qs
  induction qs with
  | nil =>
    intro cur hqs hcur
    simpa [extendLine] using hcur
  | cons q qs ih2 =>
    intro cur hqs hcur
    have hred : extendLine 0.01 a false cur (q :: qs) =
        if decide (rabs (a.1 - q.1) < 0.01) = true then extendLine 0.01 a false q qs
        else (cur, q :: qs) := rfl
    rw [hred]
    split
    · rename_i hcond
      have hcond2 : rabs (a.1 - q.1) < 0.01 := of_decide_eq_true hcond
      exact ih2 q (fun r hr => hqs r (List.mem_cons_of_mem _ hr))
        ((lattice_close_fst ha (hqs q (List.mem_cons_self _ _)) hcond2).symm)
    · exact hcur

/-- The core induction for `simplify_path` on lattice paths: the loop only
keeps input points, preserves the exact alignment chain, and preserves the
final raw point. -/
theorem simplifyLoop_ax :
    ∀ (fuel : ℕ) (a : Point) (rest : List Point),
      rest.length ≤ fuel →
      onGrid a GRID_SIZE → (∀ q ∈ rest, onGrid q GRID_SIZE) →
      (a :: rest).Chain' exactAligned →
      (∀ x ∈ simplifyLoop 0.01 fuel a rest, x ∈ rest) ∧
      (a :: simplifyLoop 0.01 fuel a rest).Chain' exactAligned ∧
      (a :: simplifyLoop 0.01 fuel a rest).getLast? = (a :: rest).getLast? := by
  intro fuel
  induction fuel with
  | zero =>
    intro a rest hf ha hrest hch
    have hre : rest = [] := List.eq_nil_of_length_eq_zero (Nat.le_zero.1 hf)
    subst hre
    exact ⟨fun x hx => hx, by simpa [simplifyLoop] using hch, rfl⟩
  | succ fuel ihf =>
    intro a rest hf ha hrest hch
    cases rest with
    | nil =>
      refine ⟨?_, ?_, ?_⟩
      · intro x hx
        exact absurd hx (by simp [simplifyLoop])
      · simpa [simplifyLoop] using hch
      · rfl
    | cons p ps =>
      have hal : exactAligned a p := (List.chain'_cons.1 hch).1
      have hp : onGrid p GRID_SIZE := hrest p (List.mem_cons_self _ _)
      have hps : ∀ q ∈ ps, onGrid q GRID_SIZE :=
        fun q hq => hrest q (List.mem_cons_of_mem _ hq)
      have hfs : ps.length ≤ fuel := Nat.succ_le_succ_iff.1 hf
      have hchp : (p :: ps).Chain' exactAligned := (List.chain'_cons.1 hch).2
      unfold simplifyLoop
      dsimp only
      cases hd : decide (rabs (a.2 - p.2) < 0.01) with
      | true =>
        have hp2 : p.2 = a.2 :=
          (lattice_close_snd ha hp (of_decide_eq_true hd)).symm
        rw [if_neg (by simp)]
        obtain ⟨hsh1, hsh2, hsh3, hsh4⟩ := extendLine_shape 0.01 a true ps p
        have hchE := extendLine_chain 0.01 a true ps p hchp
        have hcoE := extendLine_coord_true ha ps p hps hp2
        have hfst : onGrid (extendLine 0.01 a true p ps).1 GRID_SIZE := by
          rcases hsh4 with h1 | h2
          · rw [h1]; exact hp
          · exact hps _ h2
        have hsnd : ∀ q ∈ (extendLine 0.01 a true p ps).2, onGrid q GRID_SIZE :=
          fun q hq => hps q (hsh3 q hq)
        obtain ⟨hi1, hi2, hi3⟩ := ihf (extendLine 0.01 a true p ps).1
          (extendLine 0.01 a true p ps).2 (le_trans hsh2 hfs) hfst hsnd hchE
        refine ⟨?_, ?_, ?_⟩
        · intro x hx
          rcases List.mem_cons.1 hx with h1 | h2
          · rcases hsh4 with h3 | h4
            · rw [h1, h3]
              exact List.mem_cons_self _ _
            · rw [h1]
              exact List.mem_cons_of_mem _ h4
          · exact List.mem_cons_of_mem _ (hsh3 _ (hi1 _ h2))
        · rw [List.chain'_cons]
          exact ⟨Or.inr hcoE.symm, hi2⟩
        · rw [List.getLast?_cons_cons, hi3, List.getLast?_cons_cons, ← hsh1]
      | false =>
        have hp1 : p.1 = a.1 := by
          rcases hal with h | h
          · exact h.symm
          · exact absurd
              (decide_eq_true (show rabs (a.2 - p.2) < 0.01 by
                rw [h]; norm_num [rabs]))
              (by rw [hd]; exact Bool.false_ne_true)
        have hv : decide (rabs (a.1 - p.1) < 0.01) = true :=
          decide_eq_true (by rw [hp1]; norm_num [rabs])
        rw [hv]
        rw [if_neg (by simp)]
        obtain ⟨hsh1, hsh2, hsh3, hsh4⟩ := extendLine_shape 0.01 a false ps p
        have hchE := extendLine_chain 0.01 a false ps p hchp
        have hcoE := extendLine_coord_false ha ps p hps hp1
        have hfst : onGrid (extendLine 0.01 a false p ps).1 GRID_SIZE := by
          rcases hsh4 with h1 | h2
          · rw [h1]; exact hp
          · exact hps _ h2
        have hsnd : ∀ q ∈ (extendLine 0.01 a false p ps).2, onGrid q GRID_SIZE :=
          fun q hq => hps q (hsh3 q hq)
        obtain ⟨hi1, hi2, hi3⟩ := ihf (extendLine 0.01 a false p ps).1
          (extendLine 0.01 a false p ps).2 (le_trans hsh2 hfs) hfst hsnd hchE
        refine ⟨?_, ?_, ?_⟩
        · intro x hx
          rcases List.mem_cons.1 hx with h1 | h2
          · rcases hsh4 with h3 | h4
            · rw [h1, h3]
              exact List.mem_cons_self _ _
            · rw [h1]
              exact List.mem_cons_of_mem _ h4
          · exact List.mem_cons_of_mem _ (hsh3 _ (hi1 _ h2))
        · rw [List.chain'_cons]
          exact ⟨Or.inl hcoE.symm, hi2⟩
        · rw [List.getLast?_cons_cons, hi3, List.getLast?_cons_cons, ← hsh1]

/-- On lattice paths with exactly aligned consecutive points,
`simplify_path` keeps only input points, preserves the alignment chain and
preserves both endpoints. -/
theorem simplify_path_ax {p : List Point}
    (hlat : ∀ q ∈ p, onGrid q GRID_SIZE) (hch : p.Chain' exactAligned) :
    (∀ q ∈ simplify_path p 0.01, q ∈ p) ∧
    (simplify_path p 0.01).Chain' exactAligned ∧
    (simplify_path p 0.01).head? = p.head? ∧
    (simplify_path p 0.01).getLast? = p.getLast? := by
  cases p with
  | nil =>
    exact ⟨fun q h => h, by simp [simplify_path], rfl, rfl⟩
  | cons p0 rest =>
    unfold simplify_path
    split
    · exact ⟨fun q h => h, hch, rfl, rfl⟩
    · dsimp only
      obtain ⟨hs1, hs2, hs3⟩ := simplifyLoop_ax rest.length p0 rest le_rfl
        (hlat p0 (List.mem_cons_self _ _))
        (fun q hq => hlat q (List.mem_cons_of_mem _ hq)) hch
      have hlast : (p0 :: simplifyLoop 0.01 rest.length p0 rest).getLastD (0, 0) =
          (p0 :: rest).getLastD (0, 0) := by
        rw [List.getLastD_eq_getLast?, List.getLastD_eq_getLast?, hs3]
      rw [if_neg (not_ne_iff.2 hlast)]
      refine ⟨?_, hs2, rfl, hs3⟩
      intro q hq
      rcases List.mem_cons.1 hq with h1 | h2
      · exact h1 ▸ List.mem_cons_self _ _
      · exact List.mem_cons_of_mem _ (hs1 q h2)

/-- Overwriting index `0` with the list's own head is the identity. -/
theorem set_zero_of_head {l : List Point} {x : Point}
    (h : l.head? = some x) : l.set 0 x = l := by
  cases l with
  | nil => rfl
  | cons a as =>
    injection h with h1
    rw [List.set_cons_zero, h1]

/-- Overwriting the last index with the list's own last element is the
identity. -/
theorem set_last_of_getLast {x : Point} :
    ∀ {l : List Point}, l.getLast? = some x → l.set (l.length - 1) x = l := by
  intro l
  induction l with
  | nil => intro h; rfl
  | cons a as ih =>
    intro h
    cases as with
    | nil =>
      rw [List.getLast?_singleton] at h
      injection h with h1
      simp [← h1]
    | cons b bs =>
      have h2 : (b :: bs).getLast? = some x := by
        rw [← h, List.getLast?_cons_cons]
      have h3 := ih h2
      simp only [List.length_cons, Nat.add_sub_cancel] at h3 ⊢
      rw [List.set_cons_succ]
      rw [h3]

/-- With no early termination, finalization of an aligned lattice path
that already starts at `fromCoord` and ends at `toCoord` is exactly
`simplify_path`. -/
theorem finalizePath_none_ax {fromCoord toCoord : Point} {path : List Point}
    (hlat : ∀ q ∈ path, onGrid q GRID_SIZE) (hch : path.Chain' exactAligned)
    (hh : path.head? = some fromCoord) (hl : path.getLast? = some toCoord) :
    finalizePath fromCoord toCoord none path = simplify_path path 0.01 := by
  obtain ⟨hsub, hch2, hh2, hl2⟩ := simplify_path_ax hlat hch
  unfold finalizePath pathAfterTerm
  dsimp only
  have hne : simplify_path path 0.01 ≠ [] := by
    intro he
    rw [he] at hh2
    rw [hh] at hh2
    exact absurd hh2.symm (by simp)
  rw [if_pos (List.length_pos.2 hne)]
  rw [set_zero_of_head (by rw [hh2, hh])]
  rw [set_last_of_getLast (by rw [hl2, hl])]

/-- Every wire emitted by the segmentation loop on an exactly aligned
lattice path with lattice pin-exact coordinates has exactly two, exactly
aligned points. -/
theorem splitGo_ax {pins : List Point}
    (hpins : ∀ q ∈ pins, onGrid q GRID_SIZE) :
    ∀ (rest : List Point) (ctr : ℕ) (prevEnd : Option Point) (startPt : Point),
      onGrid startPt GRID_SIZE → (∀ q ∈ rest, onGrid q GRID_SIZE) →
      (startPt :: rest).Chain' exactAligned →
      (∀ pe, prevEnd = some pe → pe = startPt) →
      ∀ w ∈ (splitGo pins ctr prevEnd startPt rest).1,
        ∃ x y, w.points = [x, y] ∧ exactAligned x y := by
  intro rest
  induction rest with
  | nil =>
    intro ctr prevEnd startPt hst hre hch hprev w hw
    exact absurd hw (by simp [splitGo])
  | cons endPt rest2 ih =>
    intro ctr prevEnd startPt hst hre hch hprev w hw
    have hend : onGrid endPt GRID_SIZE := hre endPt (List.mem_cons_self _ _)
    have hal : exactAligned startPt endPt := (List.chain'_cons'.1 hch).1 endPt rfl
    have hrec := ih (ctr + 1) (some endPt) endPt hend
      (fun q hq => hre q (List.mem_cons_of_mem _ hq))
      ((List.chain'_cons'.1 hch).2)
      (fun pe hpe => by injection hpe with h3; exact h3.symm)
    cases prevEnd with
    | none =>
      simp only [splitGo] at hw
      rw [pinSnap_onGrid_id hst hpins, pinSnap_onGrid_id hend hpins] at hw
      rcases List.mem_cons.1 hw with h1 | h2
      · exact ⟨startPt, endPt, by rw [h1], hal⟩
      · exact hrec w h2
    | some pe =>
      have hpe := hprev pe rfl
      subst hpe
      simp only [splitGo] at hw
      rw [ite_self] at hw
      rw [pinSnap_onGrid_id hst hpins, pinSnap_onGrid_id hend hpins] at hw
      rcases List.mem_cons.1 hw with h1 | h2
      · exact ⟨pe, endPt, by rw [h1], hal⟩
      · exact hrec w h2

/-- Every wire emitted by `split_path_into_wires` on an exactly aligned
lattice path with lattice pin-exact coordinates has exactly two, exactly
aligned points. -/
theorem split_path_into_wires_ax {path : List Point} {pins : List Point}
    {ctr : ℕ}
    (hlat : ∀ q ∈ path, onGrid q GRID_SIZE)
    (hpins : ∀ q ∈ pins, onGrid q GRID_SIZE)
    (hch : path.Chain' exactAligned) :
    ∀ w ∈ (split_path_into_wires path pins ctr).1,
      ∃ x y, w.points = [x, y] ∧ exactAligned x y := by
  cases path with
  | nil =>
    intro w hw
    exact absurd hw (by simp [split_path_into_wires])
  | cons p0 rest0 =>
    unfold split_path_into_wires
    split
    · intro w hw
      exact absurd hw (by simp)
    · exact splitGo_ax hpins rest0 ctr none p0
        (hlat p0 (List.mem_cons_self _ _))
        (fun q hq => hlat q (List.mem_cons_of_mem _ hq)) hch
        (fun pe hpe => Option.noConfusion hpe)

/-- C1 (amended): for a request whose endpoints lie on the routing
lattice and whose search exits normally (no early termination on a
same-net wire or pin), every emitted path wire is a two-point segment
whose endpoints agree exactly in one coordinate — in particular it passes
the spec's `0.01` axis-alignment test.  For off-grid endpoints the claim
fails: see `c1_counterexample`. -/
theorem c1_axis_aligned (ctx : RouteCtx) (s : RouteState)
    (req : Point × Point × Option String) (ctr : ℕ) (p : List Point)
    (h1 : onGrid req.1 GRID_SIZE) (h2 : onGrid req.2.1 GRID_SIZE)
    (ha : requestAstar ctx s req = (some p, none)) :
    ∀ w ∈ (requestPathWires ctx s req ctr).1,
      ∃ x y, w.points = [x, y] ∧ axisAligned01 x y = true := by
  have ha2 := ha
  unfold requestAstar at ha2
  obtain ⟨hne, hh, hlat, hch, hl⟩ :=
    astar_pathfind_ax (by norm_num [GRID_SIZE]) h1 h2 ha2
  unfold requestPathWires
  rw [ha]
  dsimp only
  unfold pinExactList
  dsimp only
  rw [finalizePath_none_ax hlat hch hh hl]
  obtain ⟨hsub2, hch2, hh2, hl2⟩ := simplify_path_ax hlat hch
  intro w hw
  obtain ⟨x, y, hpts, hal⟩ := split_path_into_wires_ax
    (fun q hq => hlat q (hsub2 q hq))
    (fun q hq => by
      rcases List.mem_cons.1 hq with h3 | h4
      · rw [h3]; exact h1
      · have h5 : q = req.2.1 := by simpa using h4
        rw [h5]; exact h2)
    hch2 w hw
  exact ⟨x, y, hpts, axisAligned01_of_exact hal⟩

/-- The context of the C1 witness request: an empty schematic. -/
def c1wCtx : RouteCtx := ⟨[], [], [], []⟩

/-- The initial routing state of the C1 witness request. -/
def c1wS : RouteState := ⟨[], [], [], [], [], 0⟩

/-- The C1 witness request: one grid pitch along the x axis. -/
def c1wReq : Point × Point × Option String := ((0, 0), (1.27, 0), none)

/-- Witness for the amended C1 on a concrete on-grid request routed on an
empty schematic. -/
theorem c1_axis_aligned_witness :
    requestAstar c1wCtx c1wS c1wReq = (some [(0, 0), (1.27, 0), (1.27, 0)], none) ∧
    ∀ w ∈ (requestPathWires c1wCtx c1wS c1wReq 0).1,
      ∃ x y, w.points = [x, y] ∧ axisAligned01 x y = true :=
  ⟨by with_unfolding_all decide,
   c1_axis_aligned c1wCtx c1wS c1wReq 0 [(0, 0), (1.27, 0), (1.27, 0)]
     ⟨0, 0, by norm_num [c1wReq, GRID_SIZE]⟩ ⟨1, 0, by norm_num [c1wReq, GRID_SIZE]⟩
     (by with_unfolding_all decide)⟩
end NetRouter
